import Mathlib

/-!
# CG3 particle system: a verification development of `main.cpp`

The file embeds the CPU side of the program: the 4x4 matrix helpers, the
particle emitter (`MakeNewParticle`, `Emit`), the blend table
(`CreateBlendDesc`), the per-frame particle loop and emitter tick of
`WinMain`, the blend hot-swap of the object pipeline, the command recording
of a frame, the fence wait at the end of a frame and the OBJ loader.

Conventions of the embedding.

* A C++ `float` is an exact rational (`ℚ`): every statement below is about
  exact arithmetic, rounding is not modelled.  Division by zero is `0` in
  `ℚ`; no theorem below relies on it.
* `std::cos`, `std::sin` and `tanf` are parameters (`Trig`).
* `std::mt19937` together with `std::uniform_real_distribution<float>` is a
  parameter (`UniformReal`): an engine state and a sampling function.
* `std::list<Particle>` is a `List Particle`; the mapped instancing buffer
  `instancingData` is a function from the slot index to its record.
* A failed `assert` and an access outside a vector end the run: the function
  that models the code returns `none`.
* The GPU is a second actor of a step model: it takes the items of the
  command queue in order, at any time.
* A text file is the list of its lines, each line as the stream extractions
  of the loader read it.
-/

namespace CG3

/-! ## Data model (`main.cpp` lines 36-147) -/

/-- The source's `struct Vector2`. -/
structure Vector2 where
  x : ℚ
  y : ℚ
deriving DecidableEq, Repr

/-- The source's `struct Vector3`. -/
structure Vector3 where
  x : ℚ
  y : ℚ
  z : ℚ
deriving DecidableEq, Repr

/-- The source's `struct Vector4`. -/
structure Vector4 where
  x : ℚ
  y : ℚ
  z : ℚ
  w : ℚ
deriving DecidableEq, Repr

/-- The source's `struct Matrix4x4` (`float m[4][4]`); field `mij` is `m[i][j]`. -/
structure Matrix4x4 where
  m00 : ℚ
  m01 : ℚ
  m02 : ℚ
  m03 : ℚ
  m10 : ℚ
  m11 : ℚ
  m12 : ℚ
  m13 : ℚ
  m20 : ℚ
  m21 : ℚ
  m22 : ℚ
  m23 : ℚ
  m30 : ℚ
  m31 : ℚ
  m32 : ℚ
  m33 : ℚ
deriving DecidableEq, Repr

/-- The source's `struct Transform`. -/
structure Transform where
  scale : Vector3
  rotate : Vector3
  translate : Vector3
deriving DecidableEq, Repr

/-- The source's `struct ParticleForGPU`: one record of the instancing buffer. -/
structure ParticleForGPU where
  WVP : Matrix4x4
  world : Matrix4x4
  color : Vector4
deriving DecidableEq, Repr

/-- The source's `struct Particle`. -/
structure Particle where
  transform : Transform
  velocity : Vector3
  color : Vector4
  lifeTime : ℚ
  currentTime : ℚ
deriving DecidableEq, Repr

/-- The source's `enum BlendMode`. -/
inductive BlendMode where
  | kBlendModeNone
  | kBlendModeNormal
  | kBlendModeAdd
  | kBlendModeSubtract
  | kBlendModeMultily
  | kBlendModeScreen
deriving DecidableEq, Repr

/-- The source's `struct Emitter`; `count` is a `uint32_t`. -/
structure Emitter where
  transform : Transform
  count : Nat
  frequency : ℚ
  ferquencyTime : ℚ
deriving DecidableEq, Repr

/-- The `<cmath>` functions `std::cos`, `std::sin` and `tanf`: library code
outside the repository, taken as a parameter by every definition that calls
them. -/
structure Trig where
  cos : ℚ → ℚ
  sin : ℚ → ℚ
  tan : ℚ → ℚ

/-- The random engine `std::mt19937` with
`std::uniform_real_distribution<float>`: library code outside the repository,
taken as a parameter.  `σ` is the type of the engine state and `sample a b g`
is the call `dist(g)` of a distribution constructed as `dist(a, b)` on the
engine state `g`: it returns the drawn value and the advanced engine. -/
structure UniformReal (σ : Type) where
  sample : ℚ → ℚ → σ → ℚ × σ

/-- The contract of `std::uniform_real_distribution`: a draw from `dist(a, b)`
with `a ≤ b` lies between `a` and `b`. -/
def UniformReal.InRange {σ : Type} (D : UniformReal σ) : Prop :=
  ∀ (a b : ℚ) (g : σ), a ≤ b → a ≤ (D.sample a b g).1 ∧ (D.sample a b g).1 ≤ b

/-! ## Blend table (`main.cpp` lines 175-224) -/

/-- Modelled from the spec: the `d3d12.h` enumeration `D3D12_BLEND` is not under
`src/`.  It lists the enumerators the program names; `D3D12_BLEND_UNSET` is
the value `0` that the value-initialisation `desc {}` leaves in a field. -/
inductive D3D12_BLEND where
  | D3D12_BLEND_UNSET
  | D3D12_BLEND_ZERO
  | D3D12_BLEND_ONE
  | D3D12_BLEND_SRC_COLOR
  | D3D12_BLEND_SRC_ALPHA
  | D3D12_BLEND_INV_SRC_ALPHA
  | D3D12_BLEND_INV_DEST_COLOR
deriving DecidableEq, Repr

/-- Modelled from the spec: the `d3d12.h` enumeration `D3D12_BLEND_OP` is not
under `src/`; `D3D12_BLEND_OP_UNSET` is the value `0` left by `desc {}`. -/
inductive D3D12_BLEND_OP where
  | D3D12_BLEND_OP_UNSET
  | D3D12_BLEND_OP_ADD
  | D3D12_BLEND_OP_REV_SUBTRACT
deriving DecidableEq, Repr

/-- Modelled from the spec: the `d3d12.h` structure
`D3D12_RENDER_TARGET_BLEND_DESC` is not under `src/`; these are the fields the
program assigns.  `RenderTargetWriteMask` is a byte. -/
structure D3D12_RENDER_TARGET_BLEND_DESC where
  BlendEnable : Bool
  SrcBlend : D3D12_BLEND
  DestBlend : D3D12_BLEND
  BlendOp : D3D12_BLEND_OP
  SrcBlendAlpha : D3D12_BLEND
  DestBlendAlpha : D3D12_BLEND
  BlendOpAlpha : D3D12_BLEND_OP
  RenderTargetWriteMask : Nat
deriving DecidableEq, Repr

/-- Modelled from the spec: the `d3d12.h` structure `D3D12_BLEND_DESC` is not
under `src/`; `RenderTarget0` is `RenderTarget[0]`, the only element the
program assigns. -/
structure D3D12_BLEND_DESC where
  AlphaToCoverageEnable : Bool
  IndependentBlendEnable : Bool
  RenderTarget0 : D3D12_RENDER_TARGET_BLEND_DESC
deriving DecidableEq, Repr

/-- Modelled from the spec: the `d3d12.h` constant `D3D12_COLOR_WRITE_ENABLE_ALL`
(all four channel bits) is not under `src/`. -/
def D3D12_COLOR_WRITE_ENABLE_ALL : Nat := 15

open D3D12_BLEND D3D12_BLEND_OP BlendMode

/-- The descriptor after `D3D12_BLEND_DESC desc {}` and the four assignments
that precede the `switch` of `CreateBlendDesc` (lines 179-183). -/
def blendDescBase : D3D12_RENDER_TARGET_BLEND_DESC :=
  { BlendEnable := false
    SrcBlend := D3D12_BLEND_UNSET
    DestBlend := D3D12_BLEND_UNSET
    BlendOp := D3D12_BLEND_OP_UNSET
    SrcBlendAlpha := D3D12_BLEND_ONE
    DestBlendAlpha := D3D12_BLEND_ZERO
    BlendOpAlpha := D3D12_BLEND_OP_ADD
    RenderTargetWriteMask := D3D12_COLOR_WRITE_ENABLE_ALL }

/-- The source's `CreateBlendDesc` (lines 175-224). -/
def CreateBlendDesc (mode : BlendMode) : D3D12_BLEND_DESC :=
  let rt : D3D12_RENDER_TARGET_BLEND_DESC :=
    match mode with
    | kBlendModeNone => { blendDescBase with BlendEnable := false }
    | kBlendModeNormal =>
      { blendDescBase with
        BlendEnable := true
        SrcBlend := D3D12_BLEND_SRC_ALPHA
        BlendOp := D3D12_BLEND_OP_ADD
        DestBlend := D3D12_BLEND_INV_SRC_ALPHA }
    | kBlendModeAdd =>
      { blendDescBase with
        BlendEnable := true
        SrcBlend := D3D12_BLEND_SRC_ALPHA
        BlendOp := D3D12_BLEND_OP_ADD
        DestBlend := D3D12_BLEND_ONE }
    | kBlendModeSubtract =>
      { blendDescBase with
        BlendEnable := true
        SrcBlend := D3D12_BLEND_SRC_ALPHA
        BlendOp := D3D12_BLEND_OP_REV_SUBTRACT
        DestBlend := D3D12_BLEND_ONE }
    | kBlendModeMultily =>
      { blendDescBase with
        BlendEnable := true
        SrcBlend := D3D12_BLEND_ZERO
        BlendOp := D3D12_BLEND_OP_ADD
        DestBlend := D3D12_BLEND_SRC_COLOR }
    | kBlendModeScreen =>
      { blendDescBase with
        BlendEnable := true
        SrcBlend := D3D12_BLEND_INV_DEST_COLOR
        BlendOp := D3D12_BLEND_OP_ADD
        DestBlend := D3D12_BLEND_ONE }
  { AlphaToCoverageEnable := false
    IndependentBlendEnable := false
    RenderTarget0 := rt }

/-! ## Matrix helpers (`main.cpp` lines 226-406) -/

/-- The source's `MakeIdentity4x4`. -/
def MakeIdentity4x4 : Matrix4x4 :=
  ⟨1, 0, 0, 0, 0, 1, 0, 0, 0, 0, 1, 0, 0, 0, 0, 1⟩

/-- The source's `MakeRotateXMatrix`. -/
def MakeRotateXMatrix (T : Trig) (radian : ℚ) : Matrix4x4 :=
  ⟨1, 0, 0, 0,
   0, T.cos radian, T.sin radian, 0,
   0, T.sin (-radian), T.cos radian, 0,
   0, 0, 0, 1⟩

/-- The source's `MakeRotateYMatrix`. -/
def MakeRotateYMatrix (T : Trig) (radian : ℚ) : Matrix4x4 :=
  ⟨T.cos radian, 0, T.sin (-radian), 0,
   0, 1, 0, 0,
   T.sin radian, 0, T.cos radian, 0,
   0, 0, 0, 1⟩

/-- The source's `MakeRotateZMatrix`. -/
def MakeRotateZMatrix (T : Trig) (radian : ℚ) : Matrix4x4 :=
  ⟨T.cos radian, T.sin radian, 0, 0,
   T.sin (-radian), T.cos radian, 0, 0,
   0, 0, 1, 0,
   0, 0, 0, 1⟩

/-- The source's `MakeScaleMatrix`. -/
def MakeScaleMatrix (scale : Vector3) : Matrix4x4 :=
  ⟨scale.x, 0, 0, 0, 0, scale.y, 0, 0, 0, 0, scale.z, 0, 0, 0, 0, 1⟩

/-- The source's `MakeTranslateMatrix`. -/
def MakeTranslateMatrix (translate : Vector3) : Matrix4x4 :=
  ⟨1, 0, 0, 0, 0, 1, 0, 0, 0, 0, 1, 0, translate.x, translate.y, translate.z, 1⟩

/-- The source's `Multiply(const Matrix4x4&, const Matrix4x4&)` (lines 273-297). -/
def Multiply (m1 m2 : Matrix4x4) : Matrix4x4 where
  m00 := m1.m00 * m2.m00 + m1.m01 * m2.m10 + m1.m02 * m2.m20 + m1.m03 * m2.m30
  m01 := m1.m00 * m2.m01 + m1.m01 * m2.m11 + m1.m02 * m2.m21 + m1.m03 * m2.m31
  m02 := m1.m00 * m2.m02 + m1.m01 * m2.m12 + m1.m02 * m2.m22 + m1.m03 * m2.m32
  m03 := m1.m00 * m2.m03 + m1.m01 * m2.m13 + m1.m02 * m2.m23 + m1.m03 * m2.m33
  m10 := m1.m10 * m2.m00 + m1.m11 * m2.m10 + m1.m12 * m2.m20 + m1.m13 * m2.m30
  m11 := m1.m10 * m2.m01 + m1.m11 * m2.m11 + m1.m12 * m2.m21 + m1.m13 * m2.m31
  m12 := m1.m10 * m2.m02 + m1.m11 * m2.m12 + m1.m12 * m2.m22 + m1.m13 * m2.m32
  m13 := m1.m10 * m2.m03 + m1.m11 * m2.m13 + m1.m12 * m2.m23 + m1.m13 * m2.m33
  m20 := m1.m20 * m2.m00 + m1.m21 * m2.m10 + m1.m22 * m2.m20 + m1.m23 * m2.m30
  m21 := m1.m20 * m2.m01 + m1.m21 * m2.m11 + m1.m22 * m2.m21 + m1.m23 * m2.m31
  m22 := m1.m20 * m2.m02 + m1.m21 * m2.m12 + m1.m22 * m2.m22 + m1.m23 * m2.m32
  m23 := m1.m20 * m2.m03 + m1.m21 * m2.m13 + m1.m22 * m2.m23 + m1.m23 * m2.m33
  m30 := m1.m30 * m2.m00 + m1.m31 * m2.m10 + m1.m32 * m2.m20 + m1.m33 * m2.m30
  m31 := m1.m30 * m2.m01 + m1.m31 * m2.m11 + m1.m32 * m2.m21 + m1.m33 * m2.m31
  m32 := m1.m30 * m2.m02 + m1.m31 * m2.m12 + m1.m32 * m2.m22 + m1.m33 * m2.m32
  m33 := m1.m30 * m2.m03 + m1.m31 * m2.m13 + m1.m32 * m2.m23 + m1.m33 * m2.m33

/-- The source's `Multiply(const Vector3&, const float&)` (lines 298-306). -/
def MultiplyV (m1 : Vector3) (m2 : ℚ) : Vector3 where
  x := m1.x * m2
  y := m1.y * m2
  z := m1.z * m2

/-- The determinant computed at the head of the source's `Inverse` (lines 312-319). -/
def determinant (m : Matrix4x4) : ℚ :=
    m.m00 * m.m11 * m.m22 * m.m33 + m.m00 * m.m12 * m.m23 * m.m31 + m.m00 * m.m13 * m.m21 * m.m32
      - m.m00 * m.m13 * m.m22 * m.m31 - m.m00 * m.m12 * m.m21 * m.m33 - m.m00 * m.m11 * m.m23 * m.m32
      - m.m01 * m.m10 * m.m22 * m.m33 - m.m02 * m.m10 * m.m23 * m.m31 - m.m03 * m.m10 * m.m21 * m.m32
      + m.m03 * m.m10 * m.m22 * m.m31 + m.m02 * m.m10 * m.m21 * m.m33 + m.m01 * m.m10 * m.m23 * m.m32
      + m.m01 * m.m12 * m.m20 * m.m33 + m.m02 * m.m13 * m.m20 * m.m31 + m.m03 * m.m11 * m.m20 * m.m32
      - m.m03 * m.m12 * m.m20 * m.m31 - m.m02 * m.m11 * m.m20 * m.m33 - m.m01 * m.m13 * m.m20 * m.m32
      - m.m01 * m.m12 * m.m23 * m.m30 - m.m02 * m.m13 * m.m21 * m.m30 - m.m03 * m.m11 * m.m22 * m.m30
      + m.m03 * m.m12 * m.m21 * m.m30 + m.m02 * m.m11 * m.m23 * m.m30 + m.m01 * m.m13 * m.m22 * m.m30

/-- The source's `Inverse` (lines 307-346): the matrix itself when the
determinant is zero, the adjugate divided by the determinant otherwise. -/
def Inverse (m : Matrix4x4) : Matrix4x4 :=
  let determinant := determinant m
  if determinant = 0 then m
  else
    {
      m00 := (m.m11 * m.m22 * m.m33 + m.m12 * m.m23 * m.m31 + m.m13 * m.m21 * m.m32 - m.m13 * m.m22 * m.m31 - m.m12 * m.m21 * m.m33 - m.m11 * m.m23 * m.m32) / determinant
      m01 := (-m.m01 * m.m22 * m.m33 - m.m02 * m.m23 * m.m31 - m.m03 * m.m21 * m.m32 + m.m03 * m.m22 * m.m31 + m.m02 * m.m21 * m.m33 + m.m01 * m.m23 * m.m32) / determinant
      m02 := (m.m01 * m.m12 * m.m33 + m.m02 * m.m13 * m.m31 + m.m03 * m.m11 * m.m32 - m.m03 * m.m12 * m.m31 - m.m02 * m.m11 * m.m33 - m.m01 * m.m13 * m.m32) / determinant
      m03 := (-m.m01 * m.m12 * m.m23 - m.m02 * m.m13 * m.m21 - m.m03 * m.m11 * m.m22 + m.m03 * m.m12 * m.m21 + m.m02 * m.m11 * m.m23 + m.m01 * m.m13 * m.m22) / determinant
      m10 := (-m.m10 * m.m22 * m.m33 - m.m12 * m.m23 * m.m30 - m.m13 * m.m20 * m.m32 + m.m13 * m.m22 * m.m30 + m.m12 * m.m20 * m.m33 + m.m10 * m.m23 * m.m32) / determinant
      m11 := (m.m00 * m.m22 * m.m33 + m.m02 * m.m23 * m.m30 + m.m03 * m.m20 * m.m32 - m.m03 * m.m22 * m.m30 - m.m02 * m.m20 * m.m33 - m.m00 * m.m23 * m.m32) / determinant
      m12 := (-m.m00 * m.m12 * m.m33 - m.m02 * m.m13 * m.m30 - m.m03 * m.m10 * m.m32 + m.m03 * m.m12 * m.m30 + m.m02 * m.m10 * m.m33 + m.m00 * m.m13 * m.m32) / determinant
      m13 := (m.m00 * m.m12 * m.m23 + m.m02 * m.m13 * m.m20 + m.m03 * m.m10 * m.m22 - m.m03 * m.m12 * m.m20 - m.m02 * m.m10 * m.m23 - m.m00 * m.m13 * m.m22) / determinant
      m20 := (m.m10 * m.m21 * m.m33 + m.m11 * m.m23 * m.m30 + m.m13 * m.m20 * m.m31 - m.m13 * m.m21 * m.m30 - m.m11 * m.m20 * m.m33 - m.m10 * m.m23 * m.m31) / determinant
      m21 := (-m.m00 * m.m21 * m.m33 - m.m01 * m.m23 * m.m30 - m.m03 * m.m20 * m.m31 + m.m03 * m.m21 * m.m30 + m.m01 * m.m20 * m.m33 + m.m00 * m.m23 * m.m31) / determinant
      m22 := (m.m00 * m.m11 * m.m33 + m.m01 * m.m13 * m.m30 + m.m03 * m.m10 * m.m31 - m.m03 * m.m11 * m.m30 - m.m01 * m.m10 * m.m33 - m.m00 * m.m13 * m.m31) / determinant
      m23 := (-m.m00 * m.m11 * m.m23 - m.m01 * m.m13 * m.m20 - m.m03 * m.m10 * m.m21 + m.m03 * m.m11 * m.m20 + m.m01 * m.m10 * m.m23 + m.m00 * m.m13 * m.m21) / determinant
      m30 := (-m.m10 * m.m21 * m.m32 - m.m11 * m.m22 * m.m30 - m.m12 * m.m20 * m.m31 + m.m12 * m.m21 * m.m30 + m.m11 * m.m20 * m.m32 + m.m10 * m.m22 * m.m31) / determinant
      m31 := (m.m00 * m.m21 * m.m32 + m.m01 * m.m22 * m.m30 + m.m02 * m.m20 * m.m31 - m.m02 * m.m21 * m.m30 - m.m01 * m.m20 * m.m32 - m.m00 * m.m22 * m.m31) / determinant
      m32 := (-m.m00 * m.m11 * m.m32 - m.m01 * m.m12 * m.m30 - m.m02 * m.m10 * m.m31 + m.m02 * m.m11 * m.m30 + m.m01 * m.m10 * m.m32 + m.m00 * m.m12 * m.m31) / determinant
      m33 := (m.m00 * m.m11 * m.m22 + m.m01 * m.m12 * m.m20 + m.m02 * m.m10 * m.m21 - m.m02 * m.m11 * m.m20 - m.m01 * m.m10 * m.m22 - m.m00 * m.m12 * m.m21) / determinant }

/-- The source's `MakeAffineMatrix` (lines 357-382). -/
def MakeAffineMatrix (T : Trig) (scale rotate translate : Vector3) : Matrix4x4 :=
  let rotateX := MakeRotateXMatrix T rotate.x
  let rotateY := MakeRotateYMatrix T rotate.y
  let rotateZ := MakeRotateZMatrix T rotate.z
  let rotateXYZ := Multiply rotateX (Multiply rotateY rotateZ)
  { m00 := scale.x * rotateXYZ.m00
    m01 := scale.x * rotateXYZ.m01
    m02 := scale.x * rotateXYZ.m02
    m03 := 0 * 0 * 0 * 0
    m10 := scale.y * rotateXYZ.m10
    m11 := scale.y * rotateXYZ.m11
    m12 := scale.y * rotateXYZ.m12
    m13 := 0 * 0 * 0 * 0
    m20 := scale.z * rotateXYZ.m20
    m21 := scale.z * rotateXYZ.m21
    m22 := scale.z * rotateXYZ.m22
    m23 := 0 * 0 * 0 * 0
    m30 := translate.x
    m31 := translate.y
    m32 := translate.z
    m33 := 1 }

/-- The source's `MakePrespectiveFovMatrix` (lines 384-389); the initialiser
lists fifteen values, so `m[3][3]` is value-initialised to zero. -/
def MakePrespectiveFovMatrix (T : Trig) (fovY aspectRatio nearClip farClip : ℚ) : Matrix4x4 :=
  ⟨(1 / aspectRatio) * (1 / T.tan (fovY / 2)), 0, 0, 0,
   0, (1 / T.tan (fovY / 2)), 0, 0,
   0, 0, farClip / (farClip - nearClip), 1,
   0, 0, (-nearClip * farClip) / (farClip - nearClip), 0⟩

/-- The source's `operator*(const Vector3&, const float&)` (line 399). -/
def Vector3.mulScalar (m1 : Vector3) (m2 : ℚ) : Vector3 := MultiplyV m1 m2

/-- The source's `operator+=(Vector3&, const Vector3&)` (lines 400-406): the
new value of the left operand. -/
def Vector3.addAssign (lhv rhv : Vector3) : Vector3 where
  x := lhv.x + rhv.x
  y := lhv.y + rhv.y
  z := lhv.z + rhv.z

/-! ## Particle emission (`main.cpp` lines 149-173) -/

/-- The source's `MakeNewParticle` (lines 149-164).  The ten draws happen in
the order of the source: three for the translation jitter, three for the
velocity, three for the colour and one for the lifetime. -/
def MakeNewParticle {σ : Type} (D : UniformReal σ) (randomEngine : σ) (translate : Vector3) :
    Particle × σ :=
  let d0 := D.sample (-1) 1 randomEngine
  let d1 := D.sample (-1) 1 d0.2
  let d2 := D.sample (-1) 1 d1.2
  let randomTranslate : Vector3 := ⟨d0.1, d1.1, d2.1⟩
  let d3 := D.sample (-1) 1 d2.2
  let d4 := D.sample (-1) 1 d3.2
  let d5 := D.sample (-1) 1 d4.2
  let d6 := D.sample 0 1 d5.2
  let d7 := D.sample 0 1 d6.2
  let d8 := D.sample 0 1 d7.2
  let d9 := D.sample 1 3 d8.2
  ({ transform :=
       { scale := ⟨1, 1, 1⟩
         rotate := ⟨0, 0, 0⟩
         translate :=
           ⟨translate.x + randomTranslate.x, translate.y + randomTranslate.y,
            translate.z + randomTranslate.z⟩ }
     velocity := ⟨d3.1, d4.1, d5.1⟩
     color := ⟨d6.1, d7.1, d8.1, 1⟩
     lifeTime := d9.1
     currentTime := 0 }, d9.2)

/-- The loop of the source's `Emit` (lines 169-171) with `n` iterations left. -/
def emitLoop {σ : Type} (D : UniformReal σ) (translate : Vector3) : Nat → σ → List Particle × σ
  | 0, randomEngine => ([], randomEngine)
  | n + 1, randomEngine =>
    let made := MakeNewParticle D randomEngine translate
    let rest := emitLoop D translate n made.2
    (made.1 :: rest.1, rest.2)

/-- The source's `Emit` (lines 166-173): the list of new particles and the
advanced engine.  The emitter is a `const` reference and is not returned. -/
def Emit {σ : Type} (D : UniformReal σ) (emitter : Emitter) (randomEngine : σ) :
    List Particle × σ :=
  emitLoop D emitter.transform.translate emitter.count randomEngine

/-! ## The per-frame update of `WinMain` (`main.cpp` lines 2131-2193) -/

/-- The source's `kNumMaxInstance` (line 1956). -/
def kNumMaxInstance : Nat := 100

/-- The source's `kDeltaTime` (line 1999), `1.0f / 60.0f`. -/
def kDeltaTime : ℚ := 1 / 60

/-- The source's `kWindowWidth` (line 1556). -/
def kWindowWidth : ℚ := 1280

/-- The source's `kWindowHeight` (line 1557). -/
def kWindowHeight : ℚ := 720

/-- Modelled from the spec: the `<numbers>` constant `std::numbers::pi_v<float>`
is not under `src/`; this is the single-precision value nearest to pi. -/
def pi_v : ℚ := 13176795 / 4194304

/-- The `billboardMatrix` of a frame (lines 2154-2158). -/
def billboardMatrixOf (T : Trig) (cameraMatrix : Matrix4x4) : Matrix4x4 :=
  let backToFrontMatrix := MakeRotateYMatrix T pi_v
  let billboardMatrix := Multiply backToFrontMatrix cameraMatrix
  { billboardMatrix with m30 := 0, m31 := 0, m32 := 0 }

/-- The `worldMatrixpori` of a particle (lines 2169-2172). -/
def worldMatrixpori (T : Trig) (useBillboard : Bool) (billboardMatrix : Matrix4x4)
    (p : Particle) : Matrix4x4 :=
  let worldMatrixpori := MakeAffineMatrix T p.transform.scale p.transform.rotate p.transform.translate
  if useBillboard then Multiply worldMatrixpori billboardMatrix else worldMatrixpori

/-- The two assignments that advance a particle (lines 2176-2177). -/
def advance (p : Particle) : Particle :=
  { p with
    transform :=
      { p.transform with
        translate := p.transform.translate.addAssign (p.velocity.mulScalar kDeltaTime) }
    currentTime := p.currentTime + kDeltaTime }

/-- The record stored in a slot for the particle `p` (lines 2169-2182), `p`
being the particle as it is when the iteration starts. -/
def slotRecord (T : Trig) (useBillboard : Bool) (billboardMatrix viewMatrix : Matrix4x4)
    (p : Particle) : ParticleForGPU :=
  let worldMatrixpori := worldMatrixpori T useBillboard billboardMatrix p
  let projectionMatrixpori := MakePrespectiveFovMatrix T (45 / 100) (kWindowWidth / kWindowHeight) (1 / 10) 100
  let worldViewProjectionMatrixpori := Multiply worldMatrixpori (Multiply viewMatrix projectionMatrixpori)
  let q := advance p
  let alpha := 1 - (q.currentTime / q.lifeTime)
  { WVP := worldViewProjectionMatrixpori
    world := worldMatrixpori
    color := { q.color with w := alpha } }

/-- The state the particle loop leaves: the live list, the instancing buffer
and the counter `numInstance`. -/
structure LoopResult where
  Particles : List Particle
  instancingData : Nat → ParticleForGPU
  numInstance : Nat

/-- The particle loop of a frame (lines 2162-2187), run over the part of the
list that is not yet visited, with the buffer and the counter as they are. -/
def particleLoop (T : Trig) (useBillboard : Bool) (billboardMatrix viewMatrix : Matrix4x4) :
    List Particle → (Nat → ParticleForGPU) → Nat → LoopResult
  | [], instancingData, numInstance => ⟨[], instancingData, numInstance⟩
  | p :: rest, instancingData, numInstance =>
    if p.lifeTime ≤ p.currentTime then
      particleLoop T useBillboard billboardMatrix viewMatrix rest instancingData numInstance
    else if numInstance < kNumMaxInstance then
      let r := particleLoop T useBillboard billboardMatrix viewMatrix rest
        (Function.update instancingData numInstance
          (slotRecord T useBillboard billboardMatrix viewMatrix p))
        (numInstance + 1)
      ⟨advance p :: r.Particles, r.instancingData, r.numInstance⟩
    else
      let r := particleLoop T useBillboard billboardMatrix viewMatrix rest instancingData numInstance
      ⟨p :: r.Particles, r.instancingData, r.numInstance⟩

/-- The part of the program state that the particle system reads and writes. -/
structure Scene (σ : Type) where
  Particles : List Particle
  emitter : Emitter
  randomEngine : σ
  instancingData : Nat → ParticleForGPU
  numInstance : Nat
  cameratransform : Transform
  useBillboard : Bool

/-- The emitter tick of a frame (lines 2189-2193) with the time step as a
parameter; the program passes `kDeltaTime`. -/
def emitterTick {σ : Type} (D : UniformReal σ) (deltaTime : ℚ) (s : Scene σ) : Scene σ :=
  let emitter : Emitter :=
    { s.emitter with ferquencyTime := s.emitter.ferquencyTime + deltaTime }
  if emitter.frequency ≤ emitter.ferquencyTime then
    let emitted := Emit D emitter s.randomEngine
    { s with
      Particles := s.Particles ++ emitted.1
      emitter := { emitter with ferquencyTime := emitter.ferquencyTime - emitter.frequency }
      randomEngine := emitted.2 }
  else
    { s with emitter := emitter }

/-- What the debug UI reports in one frame (lines 2066-2112), as far as the
particle system is concerned. -/
structure UiInput where
  addParticleEmit : Bool
  emitterTranslate : Vector3
  useBillboard : Bool
  addParticleThree : Bool
  cameraTranslate : Vector3
  cameraRotate : Vector3

/-- The first "add particle" button (lines 2068-2070). -/
def uiAddParticleEmit {σ : Type} (D : UniformReal σ) (s : Scene σ) : Scene σ :=
  let emitted := Emit D s.emitter s.randomEngine
  { s with Particles := s.Particles ++ emitted.1, randomEngine := emitted.2 }

/-- The second "add particle" button (lines 2077-2081). -/
def uiAddParticleThree {σ : Type} (D : UniformReal σ) (s : Scene σ) : Scene σ :=
  let p0 := MakeNewParticle D s.randomEngine s.emitter.transform.translate
  let p1 := MakeNewParticle D p0.2 s.emitter.transform.translate
  let p2 := MakeNewParticle D p1.2 s.emitter.transform.translate
  { s with Particles := s.Particles ++ [p0.1, p1.1, p2.1], randomEngine := p2.2 }

/-- The UI pass of a frame (lines 2066-2112) on the particle system. -/
def uiPass {σ : Type} (D : UniformReal σ) (ui : UiInput) (s : Scene σ) : Scene σ :=
  let s1 := if ui.addParticleEmit then uiAddParticleEmit D s else s
  let s2 : Scene σ :=
    { s1 with
      emitter :=
        { s1.emitter with
          transform := { s1.emitter.transform with translate := ui.emitterTranslate } }
      useBillboard := ui.useBillboard }
  let s3 := if ui.addParticleThree then uiAddParticleThree D s2 else s2
  { s3 with
    cameratransform :=
      { s3.cameratransform with translate := ui.cameraTranslate, rotate := ui.cameraRotate } }

/-- The particle loop of a frame on the scene (lines 2131-2187): the camera,
view and billboard matrices of the frame, then the loop from `numInstance = 0`. -/
def particlePass {σ : Type} (T : Trig) (s : Scene σ) : Scene σ :=
  let cameraMatrix :=
    MakeAffineMatrix T s.cameratransform.scale s.cameratransform.rotate s.cameratransform.translate
  let viewMatrix := Inverse cameraMatrix
  let billboardMatrix := billboardMatrixOf T cameraMatrix
  let r := particleLoop T s.useBillboard billboardMatrix viewMatrix s.Particles s.instancingData 0
  { s with Particles := r.Particles, instancingData := r.instancingData, numInstance := r.numInstance }

/-- One frame of the particle system: UI pass, particle loop, emitter tick. -/
def frame {σ : Type} (T : Trig) (D : UniformReal σ) (ui : UiInput) (s : Scene σ) : Scene σ :=
  emitterTick D kDeltaTime (particlePass T (uiPass D ui s))

/-- A run of frames, one per UI input. -/
def frames {σ : Type} (T : Trig) (D : UniformReal σ) : List UiInput → Scene σ → Scene σ
  | [], s => s
  | ui :: rest, s => frames T D rest (frame T D ui s)

/-- The particles of a list that pass the expiry check of line 2163, in order. -/
def survivors (ps : List Particle) : List Particle :=
  ps.filter (fun p => decide (p.currentTime < p.lifeTime))

/-! ## Initial values of `WinMain` and concrete inputs -/

/-- The instancing buffer as `WinMain` initialises it (lines 1963-1967). -/
def initialInstancingData : Nat → ParticleForGPU :=
  fun _ => ⟨MakeIdentity4x4, MakeIdentity4x4, ⟨1, 1, 1, 1⟩⟩

/-- The emitter as `WinMain` initialises it (lines 1986-1992). -/
def initialEmitter : Emitter :=
  { transform := { scale := ⟨1, 1, 1⟩, rotate := ⟨0, 0, 0⟩, translate := ⟨0, 0, 0⟩ }
    count := 3
    frequency := 1 / 2
    ferquencyTime := 0 }

/-- A stand-in for the `<cmath>` functions, used to evaluate the program at
concrete angles: the values of `std::cos` and `std::sin` on `float` at `0`
and at plus and minus `pi_v` (the sine of `pi_v` is `-0x1.777a5cp-24`), and
the leading terms of the power series elsewhere. -/
def sampleTrig : Trig where
  cos := fun x => if x = 0 then 1 else if x = pi_v ∨ x = -pi_v then -1 else 1 - x * x / 2
  sin := fun x =>
    if x = pi_v then -(12303662 / 140737488355328)
    else if x = -pi_v then 12303662 / 140737488355328
    else x
  tan := fun x => x

/-- A deterministic random source over a counter: every draw from
`dist(a, b)` is the point one 240th of the way from `a` to `b`, so a lifetime
drawn from `dist(1, 3)` is `1 + 1/120`. -/
def fixedSource : UniformReal Nat where
  sample := fun a b n => (a + (b - a) / 240, n + 1)

/-- A particle at `(1, 0, 0)` moving along `x`, with lifetime `2` and elapsed
time `0`. -/
def sampleParticle : Particle :=
  { transform := { scale := ⟨1, 1, 1⟩, rotate := ⟨0, 0, 0⟩, translate := ⟨1, 0, 0⟩ }
    velocity := ⟨1, 0, 0⟩
    color := ⟨1, 1, 1, 1⟩
    lifeTime := 2
    currentTime := 0 }

/-- The camera transform as `WinMain` initialises it (line 1554). -/
def initialCameratransform : Transform :=
  { scale := ⟨1, 1, 1⟩, rotate := ⟨3 / 10, 314 / 100, 0⟩, translate := ⟨0, 4, 10⟩ }

/-- The particle system as `WinMain` sets it up before the first frame (lines
1956-1999, 2051): three particles made at the emitter, the initial emitter,
the initialised buffer, billboarding off. -/
def initialScene {σ : Type} (D : UniformReal σ) (randomEngine : σ) : Scene σ :=
  let p0 := MakeNewParticle D randomEngine initialEmitter.transform.translate
  let p1 := MakeNewParticle D p0.2 initialEmitter.transform.translate
  let p2 := MakeNewParticle D p1.2 initialEmitter.transform.translate
  { Particles := [p0.1, p1.1, p2.1]
    emitter := initialEmitter
    randomEngine := p2.2
    instancingData := initialInstancingData
    numInstance := 0
    cameratransform := initialCameratransform
    useBillboard := false }

/-- A frame in which the user touches nothing: no button fires and every
widget reports the initial value of its variable. -/
def idleInput : UiInput :=
  { addParticleEmit := false
    emitterTranslate := initialEmitter.transform.translate
    useBillboard := false
    addParticleThree := false
    cameraTranslate := initialCameratransform.translate
    cameraRotate := initialCameratransform.rotate }

/-- Whether the emitter tick with time step `deltaTime` emits: the test of
line 2190 on the accumulator after the addition of line 2189. -/
def emitterFires (deltaTime : ℚ) (emitter : Emitter) : Bool :=
  decide (emitter.frequency ≤ emitter.ferquencyTime + deltaTime)

/-- The bound that every frame keeps: the elapsed time is not negative and is
less than one time step past the lifetime. -/
def ElapsedBound (p : Particle) : Prop :=
  0 ≤ p.currentTime ∧ p.currentTime < p.lifeTime + kDeltaTime

/-- The fade factor of line 2178, `1.0f - (currentTime / lifeTime)`, as a
function of the elapsed time and the lifetime. -/
def fadeAlpha (currentTime lifeTime : ℚ) : ℚ :=
  1 - (currentTime / lifeTime)

/-! ## The object pipeline and its blend hot-swap (`main.cpp` lines 432-461, 1267-1324, 2048-2097) -/

/-- The objects that `WinMain` creates once at start-up and later passes to
Direct3D calls (root signatures, shader blobs, state descriptors, buffer
views, descriptor handles, resources): each is identified by the name of the
variable that holds it. -/
inductive StartupObject where
  | rootSignature
  | ParticlerootSignature
  | inputLayoutDesc
  | rasterizerDesc
  | depthStencilDesc
  | vertexShaderBlob
  | pixeShaderBlob
  | ParticleinputLayoutDesc
  | ParticlerasterizerDesc
  | ParticledepthStencilDesc
  | ParticlevertexShaderBlob
  | ParticlepixeShaderBlob
  | srvDescriptorHeap
  | viewport
  | scissorRect
  | dsvHandle
  | textureSrvHandleGPU
  | textureSrvHandleGPU2
  | textureSrvHandleGPU3
  | instancingSrvHandleGPU6
  | vertexBufferViewsphere
  | indexBufferViewsphere
  | vertexBufferViewModel
  | indexBufferViewModel
  | instancingvertexBufferView
  | materialResourcesphere
  | transformationMatrixResourcesphere
  | directionalLightMatrixResourcesphere
  | CameraDataResourcesphere
  | materialResourceModel
  | transformationMatrixResourceModel
  | directionalLightMatrixResourceModel
  | materialResource
deriving DecidableEq, Repr

/-- Modelled from the spec: the `d3d12.h` structure
`D3D12_GRAPHICS_PIPELINE_STATE_DESC` is not under `src/`; these are the
fields that `CreateGraphicsPipelineState` and `WinMain` assign, the formats
and the topology type (constants of the program) left out. -/
structure D3D12_GRAPHICS_PIPELINE_STATE_DESC where
  pRootSignature : StartupObject
  InputLayout : StartupObject
  VS : StartupObject
  PS : StartupObject
  BlendState : D3D12_BLEND_DESC
  RasterizerState : StartupObject
  DepthStencilState : StartupObject
  NumRenderTargets : Nat
  SampleDescCount : Nat
deriving DecidableEq, Repr

/-- Modelled from the spec: the interface `ID3D12PipelineState` is not under
`src/`; a pipeline state object is identified with the descriptor the device
created it from. -/
structure ID3D12PipelineState where
  desc : D3D12_GRAPHICS_PIPELINE_STATE_DESC
deriving DecidableEq, Repr

/-- The source's `CreateGraphicsPipelineState` (lines 432-461).  `succeeded` is
`SUCCEEDED(hr)` for the device call of line 458; the function returns no
object when the assertion of line 459 fails. -/
def CreateGraphicsPipelineState (rootSignatureArg inputLayoutDescArg rasterizerDescArg
    depthStencilDescArg vs ps : StartupObject) (blendDesc : D3D12_BLEND_DESC)
    (succeeded : Bool) : Option ID3D12PipelineState :=
  let desc : D3D12_GRAPHICS_PIPELINE_STATE_DESC :=
    { pRootSignature := rootSignatureArg
      InputLayout := inputLayoutDescArg
      VS := vs
      PS := ps
      BlendState := blendDesc
      RasterizerState := rasterizerDescArg
      DepthStencilState := depthStencilDescArg
      NumRenderTargets := 1
      SampleDescCount := 1 }
  if succeeded then some ⟨desc⟩ else none

/-- The `blendDesc` that `WinMain` builds for the object pipeline at start-up
(lines 1267-1276). -/
def initialBlendDesc : D3D12_BLEND_DESC :=
  { AlphaToCoverageEnable := false
    IndependentBlendEnable := false
    RenderTarget0 :=
      { BlendEnable := true
        SrcBlend := D3D12_BLEND_SRC_ALPHA
        DestBlend := D3D12_BLEND_INV_SRC_ALPHA
        BlendOp := D3D12_BLEND_OP_ADD
        SrcBlendAlpha := D3D12_BLEND_ONE
        DestBlendAlpha := D3D12_BLEND_ZERO
        BlendOpAlpha := D3D12_BLEND_OP_ADD
        RenderTargetWriteMask := D3D12_COLOR_WRITE_ENABLE_ALL } }

/-- The `ParticleblendDesc` of the particle pipeline (lines 1400-1409). -/
def ParticleblendDesc : D3D12_BLEND_DESC :=
  { AlphaToCoverageEnable := false
    IndependentBlendEnable := false
    RenderTarget0 :=
      { BlendEnable := true
        SrcBlend := D3D12_BLEND_SRC_ALPHA
        DestBlend := D3D12_BLEND_ONE
        BlendOp := D3D12_BLEND_OP_ADD
        SrcBlendAlpha := D3D12_BLEND_ONE
        DestBlendAlpha := D3D12_BLEND_ZERO
        BlendOpAlpha := D3D12_BLEND_OP_ADD
        RenderTargetWriteMask := D3D12_COLOR_WRITE_ENABLE_ALL } }

/-- The object pipeline state that `WinMain` creates at start-up (lines
1293-1324). -/
def initialGraphicsPipelineState : ID3D12PipelineState :=
  ⟨{ pRootSignature := StartupObject.rootSignature
     InputLayout := StartupObject.inputLayoutDesc
     VS := StartupObject.vertexShaderBlob
     PS := StartupObject.pixeShaderBlob
     BlendState := initialBlendDesc
     RasterizerState := StartupObject.rasterizerDesc
     DepthStencilState := StartupObject.depthStencilDesc
     NumRenderTargets := 1
     SampleDescCount := 1 }⟩

/-- The particle pipeline state that `WinMain` creates at start-up (lines
1426-1457). -/
def ParticlegraphicsPipelineState : ID3D12PipelineState :=
  ⟨{ pRootSignature := StartupObject.ParticlerootSignature
     InputLayout := StartupObject.ParticleinputLayoutDesc
     VS := StartupObject.ParticlevertexShaderBlob
     PS := StartupObject.ParticlepixeShaderBlob
     BlendState := ParticleblendDesc
     RasterizerState := StartupObject.ParticlerasterizerDesc
     DepthStencilState := StartupObject.ParticledepthStencilDesc
     NumRenderTargets := 1
     SampleDescCount := 1 }⟩

/-- The variables of the blend hot-swap: `blendMode`, `prevMode` (lines
2049-2050) and `graphicsPipelineState`.  `createCalls` counts the calls of
`CreateGraphicsPipelineState` that the loop has made (line 2086). -/
structure PipelineScene where
  blendMode : BlendMode
  prevMode : BlendMode
  graphicsPipelineState : ID3D12PipelineState
  createCalls : Nat
deriving DecidableEq, Repr

/-- The hot-swap variables before the first frame. -/
def initialPipelineScene : PipelineScene :=
  { blendMode := kBlendModeNone
    prevMode := kBlendModeNone
    graphicsPipelineState := initialGraphicsPipelineState
    createCalls := 0 }

/-- The blend hot-swap of a frame (lines 2074-2097).  `selected` is the value
of `blendMode` after `ImGui::Combo`, `succeeded` the outcome of the device
call when the pipeline is rebuilt; the result is `none` when the assertion
inside `CreateGraphicsPipelineState` fails. -/
def blendPass (selected : BlendMode) (succeeded : Bool) (s : PipelineScene) :
    Option PipelineScene :=
  let prevMode := s.blendMode
  let blendMode := selected
  if blendMode ≠ prevMode then
    let blendDesc := CreateBlendDesc blendMode
    match CreateGraphicsPipelineState StartupObject.rootSignature StartupObject.inputLayoutDesc
        StartupObject.rasterizerDesc StartupObject.depthStencilDesc
        StartupObject.vertexShaderBlob StartupObject.pixeShaderBlob blendDesc succeeded with
    | none => none
    | some pipelineState =>
      some
        { blendMode := blendMode
          prevMode := blendMode
          graphicsPipelineState := pipelineState
          createCalls := s.createCalls + 1 }
  else
    some { s with blendMode := blendMode, prevMode := prevMode }

/-! ## Command recording (`main.cpp` lines 2196-2288) -/

/-- Modelled from the spec: the `d3d12.h` enumeration `D3D12_RESOURCE_STATES`
is not under `src/`; the two states the program names. -/
inductive D3D12_RESOURCE_STATES where
  | D3D12_RESOURCE_STATE_PRESENT
  | D3D12_RESOURCE_STATE_RENDER_TARGET
deriving DecidableEq, Repr

/-- A call recorded in the command list, with the arguments the program
passes; `ImGuiRenderDrawData` stands for what `ImGui_ImplDX12_RenderDrawData`
records for the debug UI. -/
inductive Command where
  | ResourceBarrier (backBufferIndex : Nat) (StateBefore StateAfter : D3D12_RESOURCE_STATES)
  | OMSetRenderTargets (backBufferIndex : Nat) (dsv : StartupObject)
  | ClearRenderTargetView (backBufferIndex : Nat) (clearColor : Vector4)
  | SetDescriptorHeaps (heap : StartupObject)
  | RSSetViewports (pViewports : StartupObject)
  | RSSetScissorRects (pRects : StartupObject)
  | SetGraphicsRootSignature (pRootSignature : StartupObject)
  | SetPipelineState (pipelineState : ID3D12PipelineState)
  | IASetPrimitiveTopologyTriangleList
  | SetGraphicsRootDescriptorTable (rootParameterIndex : Nat) (handle : StartupObject)
  | IASetVertexBuffers (view : StartupObject)
  | SetGraphicsRootConstantBufferView (rootParameterIndex : Nat) (resource : StartupObject)
  | IASetIndexBuffer (view : StartupObject)
  | DrawIndexedInstanced (IndexCountPerInstance InstanceCount StartIndexLocation
      BaseVertexLocation StartInstanceLocation : Nat)
  | DrawInstanced (VertexCountPerInstance InstanceCount StartVertexLocation
      StartInstanceLocation : Nat)
  | ImGuiRenderDrawData
  | ClearDepthStencilView (dsv : StartupObject) (depth : ℚ)
deriving DecidableEq, Repr

/-- The source's `kSubdivision` (line 1736). -/
def kSubdivision : Nat := 16

/-- The source's `spherindexNum` (line 1739). -/
def spherindexNum : Nat := kSubdivision * kSubdivision * 6

/-- The commands that a frame records (lines 2213-2288), in order.  The two
`DrawInstanced` calls of lines 2262 and 2273-2275 are inside comments in the
source and record nothing. -/
def recordCommands (backBufferIndex : Nat) (useMonsterBall : Bool)
    (graphicsPipelineState : ID3D12PipelineState) : List Command :=
  [ Command.ResourceBarrier backBufferIndex
      D3D12_RESOURCE_STATES.D3D12_RESOURCE_STATE_PRESENT
      D3D12_RESOURCE_STATES.D3D12_RESOURCE_STATE_RENDER_TARGET,
    Command.OMSetRenderTargets backBufferIndex StartupObject.dsvHandle,
    Command.ClearRenderTargetView backBufferIndex ⟨1 / 10, 25 / 100, 5 / 10, 1⟩,
    Command.SetDescriptorHeaps StartupObject.srvDescriptorHeap,
    Command.RSSetViewports StartupObject.viewport,
    Command.RSSetScissorRects StartupObject.scissorRect,
    Command.SetGraphicsRootSignature StartupObject.rootSignature,
    Command.SetPipelineState graphicsPipelineState,
    Command.IASetPrimitiveTopologyTriangleList,
    Command.SetGraphicsRootDescriptorTable 2
      (if useMonsterBall then StartupObject.textureSrvHandleGPU2
        else StartupObject.textureSrvHandleGPU),
    Command.IASetVertexBuffers StartupObject.vertexBufferViewsphere,
    Command.SetGraphicsRootConstantBufferView 0 StartupObject.materialResourcesphere,
    Command.SetGraphicsRootConstantBufferView 1 StartupObject.transformationMatrixResourcesphere,
    Command.SetGraphicsRootConstantBufferView 3 StartupObject.directionalLightMatrixResourcesphere,
    Command.SetGraphicsRootConstantBufferView 4 StartupObject.CameraDataResourcesphere,
    Command.IASetIndexBuffer StartupObject.indexBufferViewsphere,
    Command.DrawIndexedInstanced spherindexNum 1 0 0 0,
    Command.SetGraphicsRootDescriptorTable 2 StartupObject.textureSrvHandleGPU3,
    Command.IASetVertexBuffers StartupObject.vertexBufferViewModel,
    Command.SetGraphicsRootConstantBufferView 0 StartupObject.materialResourceModel,
    Command.SetGraphicsRootConstantBufferView 1 StartupObject.transformationMatrixResourceModel,
    Command.SetGraphicsRootConstantBufferView 3 StartupObject.directionalLightMatrixResourceModel,
    Command.IASetIndexBuffer StartupObject.indexBufferViewModel,
    Command.SetGraphicsRootSignature StartupObject.ParticlerootSignature,
    Command.SetPipelineState ParticlegraphicsPipelineState,
    Command.IASetVertexBuffers StartupObject.instancingvertexBufferView,
    Command.SetGraphicsRootConstantBufferView 0 StartupObject.materialResource,
    Command.SetGraphicsRootDescriptorTable 1 StartupObject.instancingSrvHandleGPU6,
    Command.SetGraphicsRootDescriptorTable 2 StartupObject.textureSrvHandleGPU3,
    Command.ImGuiRenderDrawData,
    Command.ResourceBarrier backBufferIndex
      D3D12_RESOURCE_STATES.D3D12_RESOURCE_STATE_RENDER_TARGET
      D3D12_RESOURCE_STATES.D3D12_RESOURCE_STATE_PRESENT,
    Command.ClearDepthStencilView StartupObject.dsvHandle 1 ]

/-- The program state that a rendered frame reads and writes: the particle
system, the blend hot-swap variables and `useMonsterBall` (line 1863). -/
structure App (σ : Type) where
  scene : Scene σ
  pipeline : PipelineScene
  useMonsterBall : Bool

/-- The program state before the first frame. -/
def initialApp {σ : Type} (D : UniformReal σ) (randomEngine : σ) : App σ :=
  { scene := initialScene D randomEngine
    pipeline := initialPipelineScene
    useMonsterBall := true }

/-- What a rendered frame receives from outside: the debug UI's report for the
particle system, the blend mode selected in the combo box, the outcome of
the device call of a pipeline rebuild, the `useMonsterBall` checkbox and the
back buffer index that the swap chain reports. -/
structure FrameInput where
  ui : UiInput
  selectedMode : BlendMode
  pipelineCreated : Bool
  useMonsterBall : Bool
  backBufferIndex : Nat

/-- One rendered frame (lines 2062-2288): the UI pass with the blend hot-swap,
the particle loop, the emitter tick and the command recording.  The result is
the new program state and the recorded command list, or `none` when the
assertion of a pipeline rebuild fails. -/
def renderFrame {σ : Type} (T : Trig) (D : UniformReal σ) (input : FrameInput) (a : App σ) :
    Option (App σ × List Command) :=
  match blendPass input.selectedMode input.pipelineCreated a.pipeline with
  | none => none
  | some pipeline =>
    some
      ({ scene := frame T D input.ui a.scene
         pipeline := pipeline
         useMonsterBall := input.useMonsterBall },
       recordCommands input.backBufferIndex input.useMonsterBall pipeline.graphicsPipelineState)

/-- A frame in which the user touches nothing and the swap chain reports back
buffer `0`. -/
def idleFrameInput : FrameInput :=
  { ui := idleInput
    selectedMode := kBlendModeNone
    pipelineCreated := true
    useMonsterBall := true
    backBufferIndex := 0 }

/-- Whether a recorded call is a draw call of the program (`DrawInstanced` or
`DrawIndexedInstanced`). -/
def Command.isDraw : Command → Bool
  | Command.DrawIndexedInstanced _ _ _ _ _ => true
  | Command.DrawInstanced _ _ _ _ => true
  | _ => false

/-! ## The fence and the end of a frame (`main.cpp` lines 1151-1155, 2290-2318) -/

/-- What the command queue holds for the GPU, in submission order: a command
list handed over by `ExecuteCommandLists` (line 2296) or a fence signal
requested by `Signal` (line 2303) with its value. -/
inductive QueueItem where
  | commandList
  | signal (value : Nat)
deriving DecidableEq, Repr

/-- Where the CPU is in the part of the frame loop that touches the fence:
about to record and submit a frame, after `ExecuteCommandLists` and `Present`
(lines 2296-2298), after `Signal` and before the test of line 2307, blocked
in `WaitForSingleObject` (line 2311), or about to reset the command
allocator and the command list (lines 2315-2318). -/
inductive CpuPoint where
  | frameStart
  | afterExecute
  | afterSignal
  | waiting
  | beforeReset
deriving DecidableEq, Repr

/-- The state of the CPU/GPU synchronisation: the CPU's `fenceValue`, the value
`fence->GetCompletedValue()` would return, the command queue, and where the
CPU is.  `frames` counts the rendered frames (the executions of line 2301). -/
structure FenceState where
  fenceValue : Nat
  completed : Nat
  queue : List QueueItem
  cpu : CpuPoint
  frames : Nat
deriving DecidableEq, Repr

/-- The state after `CreateFence(fenceValue, ...)` with `fenceValue = 0` (lines
1152-1155), before the first frame. -/
def initialFenceState : FenceState :=
  { fenceValue := 0, completed := 0, queue := [], cpu := CpuPoint.frameStart, frames := 0 }

/-- Who moves next: the CPU runs to its next point, or the GPU finishes the
item at the head of the command queue. -/
inductive Actor where
  | cpuStep
  | gpuStep
deriving DecidableEq, Repr

/-- One step of the CPU (lines 2290-2318); `fenceValue` is a `uint64_t`.  The
result is `none` when the CPU cannot move: it is blocked in
`WaitForSingleObject` until the fence reaches `fenceValue`. -/
def cpuStep (s : FenceState) : Option FenceState :=
  match s.cpu with
  | CpuPoint.frameStart =>
    some { s with queue := s.queue ++ [QueueItem.commandList], cpu := CpuPoint.afterExecute }
  | CpuPoint.afterExecute =>
    let fenceValue := (s.fenceValue + 1) % 2 ^ 64
    some
      { s with
        fenceValue := fenceValue
        queue := s.queue ++ [QueueItem.signal fenceValue]
        cpu := CpuPoint.afterSignal
        frames := s.frames + 1 }
  | CpuPoint.afterSignal =>
    if s.completed < s.fenceValue then some { s with cpu := CpuPoint.waiting }
    else some { s with cpu := CpuPoint.beforeReset }
  | CpuPoint.waiting =>
    if s.fenceValue ≤ s.completed then some { s with cpu := CpuPoint.beforeReset } else none
  | CpuPoint.beforeReset => some { s with cpu := CpuPoint.frameStart }

/-- Modelled from the spec: the GPU and the Direct3D 12 fence are not under
`src/`.  The GPU takes the items of the command queue in order, at any time:
it finishes a command list, or it writes the value of a signal to the
fence.  The result is `none` when the queue is empty. -/
def gpuStep (s : FenceState) : Option FenceState :=
  match s.queue with
  | [] => none
  | QueueItem.commandList :: rest => some { s with queue := rest }
  | QueueItem.signal value :: rest => some { s with queue := rest, completed := value }

/-- One step of the system. -/
def fenceStep (who : Actor) (s : FenceState) : Option FenceState :=
  match who with
  | Actor.cpuStep => cpuStep s
  | Actor.gpuStep => gpuStep s

/-- A run of the system: the steps of a schedule, one after the other; `none`
when the schedule asks for a step that cannot be taken. -/
def fenceRun : List Actor → FenceState → Option FenceState
  | [], s => some s
  | who :: rest, s =>
    match fenceStep who s with
    | none => none
    | some s' => fenceRun rest s'

/-- The facts that every step keeps, for a state reached in `n` steps. -/
def FenceInv (n : Nat) (s : FenceState) : Prop :=
  s.fenceValue ≤ n ∧ s.frames = s.fenceValue
  ∧ ((s.cpu = CpuPoint.frameStart ∨ s.cpu = CpuPoint.beforeReset) →
      s.queue = [] ∧ s.completed = s.fenceValue)
  ∧ (s.cpu = CpuPoint.afterExecute →
      (s.queue = [QueueItem.commandList] ∨ s.queue = []) ∧ s.completed = s.fenceValue)
  ∧ ((s.cpu = CpuPoint.afterSignal ∨ s.cpu = CpuPoint.waiting) →
      (s.queue = [QueueItem.commandList, QueueItem.signal s.fenceValue]
          ∧ s.completed + 1 = s.fenceValue)
      ∨ (s.queue = [QueueItem.signal s.fenceValue] ∧ s.completed + 1 = s.fenceValue)
      ∨ (s.queue = [] ∧ s.completed = s.fenceValue))

/-- The state of the model when the CPU is about to reset after the first
frame. -/
def fenceBeforeFirstReset : FenceState :=
  { fenceValue := 1, completed := 1, queue := [], cpu := CpuPoint.beforeReset, frames := 1 }

/-- The state of the model after the second frame is handed to the queue. -/
def fenceSecondFrameExecuted : FenceState :=
  { fenceValue := 1
    completed := 1
    queue := [QueueItem.commandList]
    cpu := CpuPoint.afterExecute
    frames := 1 }

/-- The state of the model after the second frame is submitted and signalled. -/
def fenceSecondFrameSignalled : FenceState :=
  { fenceValue := 2
    completed := 1
    queue := [QueueItem.commandList, QueueItem.signal 2]
    cpu := CpuPoint.afterSignal
    frames := 2 }

/-! ## The OBJ loader (`main.cpp` lines 531-641) -/

/-- The source's `struct VertexData`. -/
structure VertexData where
  position : Vector4
  texcoord : Vector2
  normal : Vector3
deriving DecidableEq, Repr

/-- The source's `struct MaterialData`. -/
structure MaterialData where
  textureFilePath : String
deriving DecidableEq, Repr

/-- The source's `struct ModelData`. -/
structure ModelData where
  vertices : List VertexData
  material : MaterialData
deriving DecidableEq, Repr

/-- A line of a material file as `LoadMaterialTemplateFile` reads it: the
identifier `map_Kd` followed by a file name, or any other line. -/
inductive MtlLine where
  | map_Kd (textureFilename : String)
  | other
deriving DecidableEq, Repr

/-- The three indices of a vertex definition `v/vt/vn` of a face line, each as
`std::stoi` returns it. -/
structure VertexDefinition where
  positionIndex : Int
  texcoordIndex : Int
  normalIndex : Int
deriving DecidableEq, Repr

/-- A line of an OBJ file as `LoadObjFile` reads it with the stream
extractions of its branches: the identifier and the values that follow it.
A line with any other identifier is `other`. -/
inductive ObjLine where
  | v (x y z : ℚ)
  | vt (x y : ℚ)
  | vn (x y z : ℚ)
  | f (d0 d1 d2 : VertexDefinition)
  | mtllib (materialFilename : String)
  | other
deriving DecidableEq, Repr

/-- The loop of `LoadMaterialTemplateFile` (lines 538-550) over the lines that
are left. -/
def loadMaterialLines (directoryPath : String) : MaterialData → List MtlLine → MaterialData
  | materialData, [] => materialData
  | materialData, MtlLine.map_Kd textureFilename :: rest =>
    loadMaterialLines directoryPath
      { materialData with textureFilePath := directoryPath ++ "/" ++ textureFilename } rest
  | materialData, MtlLine.other :: rest => loadMaterialLines directoryPath materialData rest

/-- The source's `LoadMaterialTemplateFile` (lines 531-552).  `files` gives the
lines of the file at a path, or `none` when the file cannot be opened; the
function returns no data when the assertion `file.is_open()` of line 536
fails. -/
def LoadMaterialTemplateFile (files : String → Option (List MtlLine))
    (directoryPath filename : String) : Option MaterialData :=
  match files (directoryPath ++ "/" ++ filename) with
  | none => none
  | some lines => some (loadMaterialLines directoryPath { textureFilePath := "" } lines)

/-- The element index `elementIndeices[element] - 1` of lines 617-619: the
`int` of `std::stoi` is stored in a `uint32_t` and `1` is subtracted in
`uint32_t` arithmetic. -/
def elementIndex (index : Int) : Nat :=
  (((index % 2 ^ 32) - 1) % 2 ^ 32).toNat

/-- The local variables of `LoadObjFile` (lines 572-575). -/
structure ObjState where
  modelData : ModelData
  positions : List Vector4
  normals : List Vector3
  texcoords : List Vector2
deriving DecidableEq, Repr

/-- The vertex that the face branch builds for one vertex definition (lines
608-624); `none` when an index is outside its vector. -/
def faceVertex (st : ObjState) (d : VertexDefinition) : Option VertexData :=
  match st.positions[elementIndex d.positionIndex]?,
      st.texcoords[elementIndex d.texcoordIndex]?,
      st.normals[elementIndex d.normalIndex]? with
  | some position, some texcoord, some normal =>
    some { position := position, texcoord := { texcoord with y := 1 - texcoord.y }, normal := normal }
  | _, _, _ => none

/-- The body of the loop of `LoadObjFile` for one line (lines 583-637); `none`
when a face line indexes outside the vectors read so far or when the
assertion inside `LoadMaterialTemplateFile` fails. -/
def loadObjLine (files : String → Option (List MtlLine)) (directoryPath : String)
    (st : ObjState) : ObjLine → Option ObjState
  | ObjLine.v x y z => some { st with positions := st.positions ++ [⟨x, y, z, 1⟩] }
  | ObjLine.vt x y => some { st with texcoords := st.texcoords ++ [⟨x, y⟩] }
  | ObjLine.vn x y z => some { st with normals := st.normals ++ [⟨x, y, z⟩] }
  | ObjLine.f d0 d1 d2 =>
    match faceVertex st d0, faceVertex st d1, faceVertex st d2 with
    | some triangle0, some triangle1, some triangle2 =>
      some
        { st with
          modelData :=
            { st.modelData with
              vertices := st.modelData.vertices ++ [triangle2, triangle1, triangle0] } }
    | _, _, _ => none
  | ObjLine.mtllib materialFilename =>
    match LoadMaterialTemplateFile files directoryPath materialFilename with
    | none => none
    | some material => some { st with modelData := { st.modelData with material := material } }
  | ObjLine.other => some st

/-- The loop of `LoadObjFile` (lines 582-638) over the lines that are left. -/
def loadObjLines (files : String → Option (List MtlLine)) (directoryPath : String) :
    ObjState → List ObjLine → Option ObjState
  | st, [] => some st
  | st, line :: rest =>
    match loadObjLine files directoryPath st line with
    | none => none
    | some st' => loadObjLines files directoryPath st' rest

/-- The source's `LoadObjFile` (lines 570-641) on the lines of the opened file;
`none` when a face line indexes outside the vectors read so far or when a
material file named by a `mtllib` line cannot be opened. -/
def LoadObjFile (files : String → Option (List MtlLine)) (directoryPath : String)
    (lines : List ObjLine) : Option ModelData :=
  match loadObjLines files directoryPath
      { modelData := { vertices := [], material := { textureFilePath := "" } }
        positions := []
        normals := []
        texcoords := [] } lines with
  | none => none
  | some st => some st.modelData

/-- The positions of the `v` lines of a list of lines, with `w = 1`. -/
def positionsOf : List ObjLine → List Vector4
  | [] => []
  | ObjLine.v x y z :: rest => ⟨x, y, z, 1⟩ :: positionsOf rest
  | _ :: rest => positionsOf rest

/-- The texture coordinates of the `vt` lines of a list of lines. -/
def texcoordsOf : List ObjLine → List Vector2
  | [] => []
  | ObjLine.vt x y :: rest => ⟨x, y⟩ :: texcoordsOf rest
  | _ :: rest => texcoordsOf rest

/-- The normals of the `vn` lines of a list of lines. -/
def normalsOf : List ObjLine → List Vector3
  | [] => []
  | ObjLine.vn x y z :: rest => ⟨x, y, z⟩ :: normalsOf rest
  | _ :: rest => normalsOf rest

/-- Whether a line is a face line. -/
def ObjLine.isFace : ObjLine → Bool
  | ObjLine.f _ _ _ => true
  | _ => false

/-- A vertex definition is in range after the lines `before`: each of its
three 1-based indices refers to a `v`, `vt` or `vn` line of `before`, and is
an `int` as `std::stoi` returns it (below `2^31`). -/
def VertexDefinition.InRange (before : List ObjLine) (d : VertexDefinition) : Prop :=
  (1 ≤ d.positionIndex ∧ d.positionIndex ≤ (positionsOf before).length
    ∧ d.positionIndex < 2 ^ 31)
  ∧ (1 ≤ d.texcoordIndex ∧ d.texcoordIndex ≤ (texcoordsOf before).length
    ∧ d.texcoordIndex < 2 ^ 31)
  ∧ (1 ≤ d.normalIndex ∧ d.normalIndex ≤ (normalsOf before).length
    ∧ d.normalIndex < 2 ^ 31)

/-- Every face line of `lines` has its three vertex definitions in range after
the lines that precede it, `before` being the lines in front of `lines`. -/
def FacesInRange : List ObjLine → List ObjLine → Prop
  | _, [] => True
  | before, ObjLine.f d0 d1 d2 :: rest =>
    (d0.InRange before ∧ d1.InRange before ∧ d2.InRange before)
      ∧ FacesInRange (before ++ [ObjLine.f d0 d1 d2]) rest
  | before, line :: rest => FacesInRange (before ++ [line]) rest

/-- The vertex that a vertex definition refers to after the lines `before`:
the position, the texture coordinate with `y` replaced by `1 - y`, and the
normal of the lines its 1-based indices name. -/
def referredVertex (before : List ObjLine) (d : VertexDefinition) : VertexData :=
  { position := (positionsOf before).getD (d.positionIndex - 1).toNat ⟨0, 0, 0, 0⟩
    texcoord :=
      { x := ((texcoordsOf before).getD (d.texcoordIndex - 1).toNat ⟨0, 0⟩).x
        y := 1 - ((texcoordsOf before).getD (d.texcoordIndex - 1).toNat ⟨0, 0⟩).y }
    normal := (normalsOf before).getD (d.normalIndex - 1).toNat ⟨0, 0, 0⟩ }

/-- The vertices that the face lines of `lines` stand for, three per face line
in the order third, second, first definition, `before` being the lines in
front of `lines`. -/
def referredVertices : List ObjLine → List ObjLine → List VertexData
  | _, [] => []
  | before, ObjLine.f d0 d1 d2 :: rest =>
    [referredVertex before d2, referredVertex before d1, referredVertex before d0]
      ++ referredVertices (before ++ [ObjLine.f d0 d1 d2]) rest
  | before, line :: rest => referredVertices (before ++ [line]) rest

/-- A three-line OBJ file with one position, one texture coordinate `(0, 0)`
and one normal, followed by a face that names them three times. -/
def sampleObj : List ObjLine :=
  [ ObjLine.v 1 2 3, ObjLine.vt 0 0, ObjLine.vn 0 0 1,
    ObjLine.f ⟨1, 1, 1⟩ ⟨1, 1, 1⟩ ⟨1, 1, 1⟩ ]

/-- A file system without material files: no path can be opened. -/
def noFiles : String → Option (List MtlLine) := fun _ => none

/-- A file system with the one material file `resources/plane.mtl`, which
names the texture `uvChecker.png`. -/
def sampleFiles : String → Option (List MtlLine) :=
  fun path =>
    if path = "resources/plane.mtl" then some [MtlLine.other, MtlLine.map_Kd "uvChecker.png"]
    else none

/-- The file `sampleObj` with a `mtllib` line in front. -/
def sampleObjWithMaterial : List ObjLine :=
  ObjLine.mtllib "plane.mtl" :: sampleObj

/-- Every `mtllib` line of `lines` names a material file that can be opened:
the assertion of line 536 holds at every call of `LoadMaterialTemplateFile`. -/
def MaterialFilesOpen (files : String → Option (List MtlLine)) (directoryPath : String)
    (lines : List ObjLine) : Prop :=
  ∀ materialFilename, ObjLine.mtllib materialFilename ∈ lines →
    (files (directoryPath ++ "/" ++ materialFilename)).isSome = true

/-- A matrix with determinant `44`, used to evaluate `Inverse` at a concrete
input. -/
def sampleMatrix : Matrix4x4 :=
  ⟨2, 1, 0, 3, 1, 5, 2, 0, 0, 1, 4, 1, 3, 0, 1, 7⟩

/-- An OBJ file with three distinct positions, texture coordinates and
normals, followed by the face `f 1/1/1 2/2/2 3/3/3` and one more position. -/
def sampleTriangleObj : List ObjLine :=
  [ ObjLine.v 1 0 0, ObjLine.v 0 1 0, ObjLine.v 0 0 1,
    ObjLine.vt (1 / 4) (1 / 4), ObjLine.vt (1 / 2) (1 / 4), ObjLine.vt (1 / 4) (3 / 4),
    ObjLine.vn 1 0 0, ObjLine.vn 0 1 0, ObjLine.vn 0 0 1,
    ObjLine.f ⟨1, 1, 1⟩ ⟨2, 2, 2⟩ ⟨3, 3, 3⟩,
    ObjLine.v 1 1 1 ]

/-! ## The sphere mesh (`main.cpp` lines 1736-1816) -/

/-- The source's `sphervertexNum` (line 1738). -/
def sphervertexNum : Nat := (kSubdivision + 1) * (kSubdivision + 1)

/-- The source's `kLonEvery` (line 1771). -/
def kLonEvery : ℚ := 2 * pi_v / kSubdivision

/-- The source's `KLatEvery` (line 1772). -/
def KLatEvery : ℚ := pi_v / kSubdivision

/-- The vertex loop of the sphere (lines 1774-1797): the writes
`vertexDatasphere[start] = a` in the order the loop makes them, each as the
pair of `start` and `a`.  The counters and `start` are `uint32_t`. -/
def sphereVertexWrites (T : Trig) : List (Nat × VertexData) :=
  (List.range (kSubdivision + 1)).flatMap fun (latIndex : Nat) =>
    let lat : ℚ := -pi_v / 2 + KLatEvery * latIndex
    (List.range (kSubdivision + 1)).map fun (lonIndex : Nat) =>
      let lon : ℚ := lonIndex * kLonEvery
      let a : VertexData :=
        { position := ⟨T.cos lat * T.cos lon, T.sin lat, T.cos lat * T.sin lon, 1⟩
          texcoord := ⟨(lonIndex : ℚ) / kSubdivision, 1 - (latIndex : ℚ) / kSubdivision⟩
          normal := ⟨T.cos lat * T.cos lon, T.sin lat, T.cos lat * T.sin lon⟩ }
      let start : Nat := (latIndex * (kSubdivision + 1) + lonIndex) % 2 ^ 32
      (start, a)

/-- The index loop of the sphere (lines 1799-1816): the writes
`indexDatasphere[start + k] = value` in the order the loop makes them, each
as the pair of the position and the value.  All the variables are
`uint32_t`. -/
def sphereIndexWrites : List (Nat × Nat) :=
  (List.range kSubdivision).flatMap fun (lat : Nat) =>
    (List.range kSubdivision).flatMap fun (lon : Nat) =>
      let lt := (lon + lat * (kSubdivision + 1)) % 2 ^ 32
      let rt := ((lon + 1) + lat * (kSubdivision + 1)) % 2 ^ 32
      let lb := (lon + (lat + 1) * (kSubdivision + 1)) % 2 ^ 32
      let rb := ((lon + 1) + (lat + 1) * (kSubdivision + 1)) % 2 ^ 32
      let start := ((lat * kSubdivision + lon) * 6) % 2 ^ 32
      [ ((start + 0) % 2 ^ 32, lb),
        ((start + 1) % 2 ^ 32, lt),
        ((start + 2) % 2 ^ 32, rb),
        ((start + 3) % 2 ^ 32, lt),
        ((start + 4) % 2 ^ 32, rt),
        ((start + 5) % 2 ^ 32, rb) ]

/-! ## `Normalize` (`main.cpp` lines 347-356) -/

/-- The source's `struct Vector3` with its three components in a number
system `K`: the rationals to evaluate the code, the reals for exact real
arithmetic. -/
structure Vector3Of (K : Type) where
  x : K
  y : K
  z : K

/-- The sum of squares `v.x * v.x + v.y * v.y + v.z * v.z` that `Normalize`
passes to `sqrtf` (line 351): the square of the Euclidean length. -/
def lengthSquared {K : Type} [Field K] (v : Vector3Of K) : K :=
  v.x * v.x + v.y * v.y + v.z * v.z

/-- A division of the source on `float`: the quotient, or `none` when the
divisor is zero, where the `float` division gives no number (NaN or an
infinity). -/
def floatDiv {K : Type} [Field K] [DecidableEq K] (a b : K) : Option K :=
  if b = 0 then none else some (a / b)

/-- The source's `Normalize` (lines 347-356), with the `<cmath>` function
`sqrtf` as a parameter.  The three divisions are made whatever the value of
the length is; the result is `none` when one of them gives no number. -/
def Normalize {K : Type} [Field K] [DecidableEq K] (sqrtf : K → K) (v : Vector3Of K) :
    Option (Vector3Of K) :=
  let length := sqrtf (v.x * v.x + v.y * v.y + v.z * v.z)
  match floatDiv v.x length, floatDiv v.y length, floatDiv v.z length with
  | some x, some y, some z => some { x := x, y := y, z := z }
  | _, _, _ => none

/-- A stand-in for `sqrtf` on the rationals, used to evaluate `Normalize` at
concrete vectors: the square root at `0`, `1`, `4`, `9` and `25`. -/
def sampleSqrt : ℚ → ℚ :=
  fun x => if x = 25 then 5 else if x = 9 then 3 else if x = 4 then 2 else x

/-- The light direction as `WinMain` initialises it (lines 1851 and 1949). -/
def initialLightDirection : Vector3Of ℚ := ⟨0, -1, 0⟩

/-! ## The start-up calls of `WinMain` (`main.cpp` lines 1017-1155) -/

/-- The calls of the start-up that create, or fetch, a Direct3D object, from
the DXGI factory to the fence.  `EnumAdapterByGpuPreference` stands for the
adapter loop of lines 1024-1038, which reports failure when it leaves
`useAdapter` null, and `D3D12CreateDevice` for the loop over the three
feature levels of lines 1048-1060, which reports failure when all three
calls fail and leave `device` null. -/
inductive InitCall where
  | CreateDXGIFactory
  | EnumAdapterByGpuPreference
  | D3D12CreateDevice
  | CreateCommandQueue
  | CreateCommandAllocator
  | CreateCommandList
  | CreateSwapChainForHwnd
  | CreateDescriptorHeapRtv
  | CreateDescriptorHeapSrv
  | GetBuffer0
  | GetBuffer1
  | CreateFence
deriving DecidableEq, Repr

/-- A start-up call as the source makes it: the call, whether an `assert` on
what it reports follows it, and the earlier call whose object it is made
through (`dxgiFactory->`, `device->`, `swapChain->`). -/
structure InitStep where
  call : InitCall
  asserted : Bool
  receiver : Option InitCall
deriving DecidableEq, Repr

/-- The start-up calls of lines 1017-1155 in the order of the source.  The
call of `CreateSwapChainForHwnd` (line 1119) assigns `hr` and is followed by
no `assert`; the two descriptor heaps are created by `createDescriptorHeap`,
whose `assert` is at line 768. -/
def startUpSteps : List InitStep :=
  [ ⟨InitCall.CreateDXGIFactory, true, none⟩,
    ⟨InitCall.EnumAdapterByGpuPreference, true, some InitCall.CreateDXGIFactory⟩,
    ⟨InitCall.D3D12CreateDevice, true, none⟩,
    ⟨InitCall.CreateCommandQueue, true, some InitCall.D3D12CreateDevice⟩,
    ⟨InitCall.CreateCommandAllocator, true, some InitCall.D3D12CreateDevice⟩,
    ⟨InitCall.CreateCommandList, true, some InitCall.D3D12CreateDevice⟩,
    ⟨InitCall.CreateSwapChainForHwnd, false, some InitCall.CreateDXGIFactory⟩,
    ⟨InitCall.CreateDescriptorHeapRtv, true, some InitCall.D3D12CreateDevice⟩,
    ⟨InitCall.CreateDescriptorHeapSrv, true, some InitCall.D3D12CreateDevice⟩,
    ⟨InitCall.GetBuffer0, true, some InitCall.CreateSwapChainForHwnd⟩,
    ⟨InitCall.GetBuffer1, true, some InitCall.CreateSwapChainForHwnd⟩,
    ⟨InitCall.CreateFence, true, some InitCall.D3D12CreateDevice⟩ ]

/-- How a run of the start-up calls ends: a failed `assert` after a call, a
call through a null pointer, or the end of the sequence. -/
inductive InitEnd where
  | assertFailed (call : InitCall)
  | nullDereference (call : InitCall)
  | completed
deriving DecidableEq, Repr

/-- A run of the steps that are left.  `reports` tells which calls report
success, `failed` lists the calls that have reported failure so far (their
objects are null).  The result is the list of the calls made, in order, and
the way the run ends. -/
def runSteps (reports : InitCall → Bool) : List InitStep → List InitCall → List InitCall × InitEnd
  | [], _ => ([], InitEnd.completed)
  | step :: rest, failed =>
    if (match step.receiver with
        | some object => decide (object ∈ failed)
        | none => false) then
      ([], InitEnd.nullDereference step.call)
    else if reports step.call then
      let r := runSteps reports rest failed
      (step.call :: r.1, r.2)
    else if step.asserted then
      ([step.call], InitEnd.assertFailed step.call)
    else
      let r := runSteps reports rest (step.call :: failed)
      (step.call :: r.1, r.2)

/-- The start-up of lines 1017-1155 under the given reports. -/
def startUp (reports : InitCall → Bool) : List InitCall × InitEnd :=
  runSteps reports startUpSteps []

/-- The calls that the source makes before the call `c`. -/
def callsBefore (c : InitCall) : List InitCall :=
  (startUpSteps.map InitStep.call).takeWhile (fun d => decide (d ≠ c))

/-- Every call reports success except `CreateSwapChainForHwnd`. -/
def swapChainFails : InitCall → Bool :=
  fun c => decide (c ≠ InitCall.CreateSwapChainForHwnd)

/-! ## The particle loop in closed form -/

section Loop

variable (T : Trig) (useBillboard : Bool) (billboardMatrix viewMatrix : Matrix4x4)

theorem particleLoop_cons_dead (p : Particle) (rest : List Particle)
    (instancingData : Nat → ParticleForGPU) (numInstance : Nat)
    (h : p.lifeTime ≤ p.currentTime) :
    particleLoop T useBillboard billboardMatrix viewMatrix (p :: rest) instancingData numInstance
      = particleLoop T useBillboard billboardMatrix viewMatrix rest instancingData numInstance := by
  simp [particleLoop, h]

theorem particleLoop_cons_write (p : Particle) (rest : List Particle)
    (instancingData : Nat → ParticleForGPU) (numInstance : Nat)
    (h : p.currentTime < p.lifeTime) (hn : numInstance < kNumMaxInstance) :
    particleLoop T useBillboard billboardMatrix viewMatrix (p :: rest) instancingData numInstance
      = ⟨advance p ::
          (particleLoop T useBillboard billboardMatrix viewMatrix rest
            (Function.update instancingData numInstance
              (slotRecord T useBillboard billboardMatrix viewMatrix p)) (numInstance + 1)).Particles,
         (particleLoop T useBillboard billboardMatrix viewMatrix rest
            (Function.update instancingData numInstance
              (slotRecord T useBillboard billboardMatrix viewMatrix p)) (numInstance + 1)).instancingData,
         (particleLoop T useBillboard billboardMatrix viewMatrix rest
            (Function.update instancingData numInstance
              (slotRecord T useBillboard billboardMatrix viewMatrix p)) (numInstance + 1)).numInstance⟩ := by
  simp [particleLoop, not_le.mpr h, hn]

theorem particleLoop_cons_full (p : Particle) (rest : List Particle)
    (instancingData : Nat → ParticleForGPU) (numInstance : Nat)
    (h : p.currentTime < p.lifeTime) (hn : kNumMaxInstance ≤ numInstance) :
    particleLoop T useBillboard billboardMatrix viewMatrix (p :: rest) instancingData numInstance
      = ⟨p ::
          (particleLoop T useBillboard billboardMatrix viewMatrix rest instancingData numInstance).Particles,
         (particleLoop T useBillboard billboardMatrix viewMatrix rest instancingData numInstance).instancingData,
         (particleLoop T useBillboard billboardMatrix viewMatrix rest instancingData numInstance).numInstance⟩ := by
  simp [particleLoop, not_le.mpr h, not_lt.mpr hn]

theorem survivors_cons_dead (p : Particle) (rest : List Particle)
    (h : p.lifeTime ≤ p.currentTime) : survivors (p :: rest) = survivors rest := by
  simp [survivors, List.filter_cons, not_lt.mpr h]

theorem survivors_cons_alive (p : Particle) (rest : List Particle)
    (h : p.currentTime < p.lifeTime) : survivors (p :: rest) = p :: survivors rest := by
  simp [survivors, List.filter_cons, h]

/-- The live list after the loop: the first `kNumMaxInstance - numInstance`
survivors advanced, the later survivors as they were. -/
theorem particleLoop_Particles (ps : List Particle) (instancingData : Nat → ParticleForGPU)
    (numInstance : Nat) :
    (particleLoop T useBillboard billboardMatrix viewMatrix ps instancingData numInstance).Particles
      = ((survivors ps).take (kNumMaxInstance - numInstance)).map advance
          ++ (survivors ps).drop (kNumMaxInstance - numInstance) := by
  induction ps generalizing instancingData numInstance with
  | nil => simp [particleLoop, survivors]
  | cons p rest ih =>
    by_cases h : p.lifeTime ≤ p.currentTime
    · rw [particleLoop_cons_dead _ _ _ _ _ _ _ _ h, survivors_cons_dead _ _ h]
      exact ih _ _
    · have ha : p.currentTime < p.lifeTime := not_le.mp h
      by_cases hn : numInstance < kNumMaxInstance
      · rw [particleLoop_cons_write _ _ _ _ _ _ _ _ ha hn, survivors_cons_alive _ _ ha]
        have hk : kNumMaxInstance - numInstance = (kNumMaxInstance - (numInstance + 1)) + 1 := by
          omega
        simp only [ih]
        rw [hk]
        simp
      · have hn2 : kNumMaxInstance ≤ numInstance := not_lt.mp hn
        rw [particleLoop_cons_full _ _ _ _ _ _ _ _ ha hn2, survivors_cons_alive _ _ ha]
        have hk : kNumMaxInstance - numInstance = 0 := by omega
        simp only [ih]
        rw [hk]
        simp

/-- The counter after the loop. -/
theorem particleLoop_numInstance (ps : List Particle) (instancingData : Nat → ParticleForGPU)
    (numInstance : Nat) :
    (particleLoop T useBillboard billboardMatrix viewMatrix ps instancingData numInstance).numInstance
      = numInstance + min (kNumMaxInstance - numInstance) (survivors ps).length := by
  induction ps generalizing instancingData numInstance with
  | nil => simp [particleLoop, survivors]
  | cons p rest ih =>
    by_cases h : p.lifeTime ≤ p.currentTime
    · rw [particleLoop_cons_dead _ _ _ _ _ _ _ _ h, survivors_cons_dead _ _ h]
      exact ih _ _
    · have ha : p.currentTime < p.lifeTime := not_le.mp h
      by_cases hn : numInstance < kNumMaxInstance
      · rw [particleLoop_cons_write _ _ _ _ _ _ _ _ ha hn, survivors_cons_alive _ _ ha]
        simp only [ih, List.length_cons]
        omega
      · have hn2 : kNumMaxInstance ≤ numInstance := not_lt.mp hn
        rw [particleLoop_cons_full _ _ _ _ _ _ _ _ ha hn2, survivors_cons_alive _ _ ha]
        simp only [ih, List.length_cons]
        omega

/-- A slot outside the range the loop counts through keeps its record. -/
theorem particleLoop_instancingData_outside (ps : List Particle)
    (instancingData : Nat → ParticleForGPU) (numInstance i : Nat)
    (hi : i < numInstance ∨
      (particleLoop T useBillboard billboardMatrix viewMatrix ps instancingData numInstance).numInstance ≤ i) :
    (particleLoop T useBillboard billboardMatrix viewMatrix ps instancingData numInstance).instancingData i
      = instancingData i := by
  induction ps generalizing instancingData numInstance with
  | nil => simp [particleLoop]
  | cons p rest ih =>
    by_cases h : p.lifeTime ≤ p.currentTime
    · rw [particleLoop_cons_dead _ _ _ _ _ _ _ _ h] at hi ⊢
      exact ih _ _ hi
    · have ha : p.currentTime < p.lifeTime := not_le.mp h
      by_cases hn : numInstance < kNumMaxInstance
      · rw [particleLoop_cons_write _ _ _ _ _ _ _ _ ha hn] at hi ⊢
        simp only at hi ⊢
        have hne : i ≠ numInstance := by
          rcases hi with hi | hi
          · omega
          · rw [particleLoop_numInstance] at hi
            omega
        rw [ih _ _ (by rcases hi with hi | hi; exact Or.inl (by omega); exact Or.inr hi)]
        exact Function.update_noteq hne _ _
      · have hn2 : kNumMaxInstance ≤ numInstance := not_lt.mp hn
        rw [particleLoop_cons_full _ _ _ _ _ _ _ _ ha hn2] at hi ⊢
        exact ih _ _ hi

/-- A slot the loop counts through holds the record of the survivor it was
counted for. -/
theorem particleLoop_instancingData_written (ps : List Particle)
    (instancingData : Nat → ParticleForGPU) (numInstance i : Nat) (p : Particle)
    (hlo : numInstance ≤ i) (hhi : i < kNumMaxInstance)
    (hp : (survivors ps)[i - numInstance]? = some p) :
    (particleLoop T useBillboard billboardMatrix viewMatrix ps instancingData numInstance).instancingData i
      = slotRecord T useBillboard billboardMatrix viewMatrix p := by
  induction ps generalizing instancingData numInstance with
  | nil => simp [survivors] at hp
  | cons q rest ih =>
    by_cases h : q.lifeTime ≤ q.currentTime
    · rw [particleLoop_cons_dead _ _ _ _ _ _ _ _ h]
      rw [survivors_cons_dead _ _ h] at hp
      exact ih _ _ hlo hp
    · have ha : q.currentTime < q.lifeTime := not_le.mp h
      have hn : numInstance < kNumMaxInstance := by omega
      rw [particleLoop_cons_write _ _ _ _ _ _ _ _ ha hn]
      rw [survivors_cons_alive _ _ ha] at hp
      simp only
      by_cases hi : i = numInstance
      · subst hi
        simp at hp
        subst hp
        rw [particleLoop_instancingData_outside _ _ _ _ _ _ _ _ (Or.inl (by omega))]
        simp
      · have hsub : i - numInstance = (i - (numInstance + 1)) + 1 := by omega
        rw [hsub] at hp
        simp at hp
        exact ih _ _ (by omega) hp

end Loop

theorem particleLoop_Particles_get (T : Trig) (useBillboard : Bool)
    (billboardMatrix viewMatrix : Matrix4x4) (ps : List Particle)
    (instancingData : Nat → ParticleForGPU) (i : Nat) :
    (particleLoop T useBillboard billboardMatrix viewMatrix ps instancingData 0).Particles[i]?
      = ((survivors ps)[i]?).map (fun p => if i < kNumMaxInstance then advance p else p) := by
  rw [particleLoop_Particles]
  simp only [Nat.sub_zero]
  by_cases hi : i < kNumMaxInstance
  · simp only [hi, if_true]
    by_cases hl : i < (survivors ps).length
    · rw [List.getElem?_append_left (by simp; omega)]
      simp [List.getElem?_take, hi]
    · have h1 : (survivors ps)[i]? = none := List.getElem?_eq_none (by omega)
      rw [h1, List.getElem?_eq_none (by simp; omega)]
      rfl
  · simp only [hi, if_false, Option.map_id']
    have hN : kNumMaxInstance ≤ i := not_lt.mp hi
    by_cases hl : kNumMaxInstance ≤ (survivors ps).length
    · rw [List.getElem?_append_right (by simp; omega)]
      simp [List.getElem?_drop, Nat.min_eq_left hl]
      congr 1
      omega
    · have h1 : (survivors ps)[i]? = none := List.getElem?_eq_none (by omega)
      rw [h1, List.getElem?_eq_none (by simp; omega)]

/-! ## Claims about the particle loop -/

/-- C1 (as stated, refuted): with 101 live particles in the list, the 101st
passes the expiry check but leaves the loop exactly as it entered it: its
elapsed time stays `0` instead of becoming `1/60` and its translation stays
`(1, 0, 0)` instead of moving by `velocity * dt`. -/
theorem particleLoop_beyond_capacity_not_advanced :
    (List.replicate 101 sampleParticle)[100]? = some sampleParticle
    ∧ sampleParticle.currentTime < sampleParticle.lifeTime
    ∧ (particleLoop sampleTrig false MakeIdentity4x4 MakeIdentity4x4
        (List.replicate 101 sampleParticle) initialInstancingData 0).Particles[100]?
        = some sampleParticle
    ∧ sampleParticle.currentTime = 0
    ∧ sampleParticle.currentTime + kDeltaTime = 1 / 60
    ∧ sampleParticle.transform.translate.x = 1
    ∧ sampleParticle.transform.translate.x + sampleParticle.velocity.x * kDeltaTime = 61 / 60 := by
  have hs : survivors (List.replicate 101 sampleParticle) = List.replicate 101 sampleParticle := by
    simp [survivors, sampleParticle]
  refine ⟨by simp, by norm_num [sampleParticle], ?_, rfl, by norm_num [sampleParticle, kDeltaTime],
    rfl, by norm_num [sampleParticle, kDeltaTime]⟩
  rw [particleLoop_Particles_get, hs]
  simp [kNumMaxInstance]

/-- C1 (amended): after the loop of one frame the live list is the list of
survivors of the expiry check, the first `kNumMaxInstance` of them advanced
by `velocity * kDeltaTime` in translation and by `kDeltaTime` in elapsed
time and written to the slot of their rank, the survivors beyond the
capacity unchanged and no slot of their rank written. -/
theorem particleLoop_advances_first_capacity_survivors (T : Trig) (useBillboard : Bool)
    (billboardMatrix viewMatrix : Matrix4x4) (ps : List Particle)
    (instancingData : Nat → ParticleForGPU) :
    (particleLoop T useBillboard billboardMatrix viewMatrix ps instancingData 0).Particles
        = ((survivors ps).take kNumMaxInstance).map advance ++ (survivors ps).drop kNumMaxInstance
    ∧ (∀ i p, (survivors ps)[i]? = some p →
        (i < kNumMaxInstance →
          (particleLoop T useBillboard billboardMatrix viewMatrix ps instancingData
              0).Particles[i]? = some (advance p)
          ∧ (particleLoop T useBillboard billboardMatrix viewMatrix ps instancingData
              0).instancingData i = slotRecord T useBillboard billboardMatrix viewMatrix p)
        ∧ (kNumMaxInstance ≤ i →
          (particleLoop T useBillboard billboardMatrix viewMatrix ps instancingData
              0).Particles[i]? = some p
          ∧ (particleLoop T useBillboard billboardMatrix viewMatrix ps instancingData
              0).instancingData i = instancingData i))
    ∧ (∀ p : Particle,
        (advance p).transform.translate
            = ⟨p.transform.translate.x + p.velocity.x * kDeltaTime,
               p.transform.translate.y + p.velocity.y * kDeltaTime,
               p.transform.translate.z + p.velocity.z * kDeltaTime⟩
        ∧ (advance p).currentTime = p.currentTime + kDeltaTime)
    ∧ kDeltaTime = 1 / 60 ∧ kNumMaxInstance = 100 := by
  have h := particleLoop_Particles T useBillboard billboardMatrix viewMatrix ps instancingData 0
  have hn := particleLoop_numInstance T useBillboard billboardMatrix viewMatrix ps instancingData 0
  refine ⟨by simpa using h, fun i p hp => ⟨fun hi => ⟨?_, ?_⟩, fun hi => ⟨?_, ?_⟩⟩,
    fun p => ⟨rfl, rfl⟩, rfl, rfl⟩
  · rw [particleLoop_Particles_get, hp]
    simp [hi]
  · exact particleLoop_instancingData_written T useBillboard billboardMatrix viewMatrix ps
      instancingData 0 i p (Nat.zero_le _) hi (by simpa using hp)
  · rw [particleLoop_Particles_get, hp]
    simp [not_lt.mpr hi]
  · exact particleLoop_instancingData_outside T useBillboard billboardMatrix viewMatrix ps
      instancingData 0 i (Or.inr (by omega))

/-- C2: after the loop of one frame `numInstance` is the minimum of the number
`k` of particles with `currentTime < lifeTime` and the capacity `100`; slot
`i` below `numInstance` holds the record of the `i`-th survivor whatever it
held before, and every slot from `numInstance` on holds what it held before. -/
theorem particleLoop_numInstance_eq_min (T : Trig) (useBillboard : Bool)
    (billboardMatrix viewMatrix : Matrix4x4) (ps : List Particle)
    (instancingData : Nat → ParticleForGPU) :
    (particleLoop T useBillboard billboardMatrix viewMatrix ps instancingData 0).numInstance
        = min (ps.countP (fun p => decide (p.currentTime < p.lifeTime))) 100
    ∧ (100 < ps.countP (fun p => decide (p.currentTime < p.lifeTime)) →
        (particleLoop T useBillboard billboardMatrix viewMatrix ps instancingData 0).numInstance
          = 100)
    ∧ (ps.countP (fun p => decide (p.currentTime < p.lifeTime)) ≤ 100 →
        (particleLoop T useBillboard billboardMatrix viewMatrix ps instancingData 0).numInstance
          = ps.countP (fun p => decide (p.currentTime < p.lifeTime)))
    ∧ (∀ i, i < (particleLoop T useBillboard billboardMatrix viewMatrix ps instancingData
          0).numInstance →
        ∃ p, (survivors ps)[i]? = some p
          ∧ (particleLoop T useBillboard billboardMatrix viewMatrix ps instancingData
              0).instancingData i = slotRecord T useBillboard billboardMatrix viewMatrix p)
    ∧ (∀ i, (particleLoop T useBillboard billboardMatrix viewMatrix ps instancingData
          0).numInstance ≤ i →
        (particleLoop T useBillboard billboardMatrix viewMatrix ps instancingData
            0).instancingData i = instancingData i) := by
  have hk : ps.countP (fun p => decide (p.currentTime < p.lifeTime)) = (survivors ps).length := by
    simp [survivors, List.countP_eq_length_filter]
  have hn := particleLoop_numInstance T useBillboard billboardMatrix viewMatrix ps instancingData 0
  have hN : kNumMaxInstance = 100 := rfl
  rw [hk]
  refine ⟨by omega, fun h => by omega, fun h => by omega, fun i hi => ?_, fun i hi => ?_⟩
  · have hlt : i < (survivors ps).length := by omega
    refine ⟨(survivors ps)[i], List.getElem?_eq_getElem hlt, ?_⟩
    exact particleLoop_instancingData_written T useBillboard billboardMatrix viewMatrix ps
      instancingData 0 i _ (Nat.zero_le _) (by omega) (by simp [List.getElem?_eq_getElem hlt])
  · exact particleLoop_instancingData_outside T useBillboard billboardMatrix viewMatrix ps
      instancingData 0 i (Or.inr hi)

/-- C5: after the loop of one frame the live list is, position by position, the
list of the particles that had `currentTime < lifeTime` when the loop started
(each advanced when it is among the first 100, untouched otherwise); that list
is a sublist of the old live list, so the relative order is kept, and it has
no particle with `lifeTime ≤ currentTime`; every written slot holds the record
of a particle of that list. -/
theorem particleLoop_keeps_exactly_survivors (T : Trig) (useBillboard : Bool)
    (billboardMatrix viewMatrix : Matrix4x4) (ps : List Particle)
    (instancingData : Nat → ParticleForGPU) :
    (∀ i,
      (particleLoop T useBillboard billboardMatrix viewMatrix ps instancingData 0).Particles[i]?
        = ((survivors ps)[i]?).map (fun p => if i < kNumMaxInstance then advance p else p))
    ∧ (particleLoop T useBillboard billboardMatrix viewMatrix ps instancingData 0).Particles.length
        = (survivors ps).length
    ∧ List.Sublist (survivors ps) ps
    ∧ (∀ p, p ∈ survivors ps ↔ p ∈ ps ∧ p.currentTime < p.lifeTime)
    ∧ (∀ p, p ∈ ps → p.lifeTime ≤ p.currentTime → p ∉ survivors ps)
    ∧ (∀ i, i < (particleLoop T useBillboard billboardMatrix viewMatrix ps instancingData
          0).numInstance →
        ∃ p, (survivors ps)[i]? = some p ∧ p ∈ ps ∧ p.currentTime < p.lifeTime
          ∧ (particleLoop T useBillboard billboardMatrix viewMatrix ps instancingData
              0).instancingData i = slotRecord T useBillboard billboardMatrix viewMatrix p) := by
  have hmem : ∀ p, p ∈ survivors ps ↔ p ∈ ps ∧ p.currentTime < p.lifeTime := by
    intro p
    simp [survivors, List.mem_filter]
  refine ⟨particleLoop_Particles_get T useBillboard billboardMatrix viewMatrix ps
    instancingData, ?_, List.filter_sublist ps, hmem, ?_, ?_⟩
  · rw [particleLoop_Particles]
    simp only [List.length_append, List.length_map, List.length_take, List.length_drop,
      Nat.sub_zero]
    omega
  · intro p _ hdead hin
    exact absurd ((hmem p).mp hin).2 (not_lt.mpr hdead)
  · intro i hi
    have hn := particleLoop_numInstance T useBillboard billboardMatrix viewMatrix ps instancingData 0
    have hN : kNumMaxInstance = 100 := rfl
    have hlt : i < (survivors ps).length := by omega
    have hin : (survivors ps)[i] ∈ survivors ps := List.getElem_mem hlt
    refine ⟨(survivors ps)[i], List.getElem?_eq_getElem hlt, ((hmem _).mp hin).1,
      ((hmem _).mp hin).2, ?_⟩
    exact particleLoop_instancingData_written T useBillboard billboardMatrix viewMatrix ps
      instancingData 0 i _ (Nat.zero_le _) (by omega) (by simp [List.getElem?_eq_getElem hlt])

/-! ## Emission -/

theorem emitLoop_length {σ : Type} (D : UniformReal σ) (translate : Vector3) (n : Nat) (g : σ) :
    (emitLoop D translate n g).1.length = n := by
  induction n generalizing g with
  | zero => rfl
  | succ n ih => simp [emitLoop, ih]

theorem Emit_length {σ : Type} (D : UniformReal σ) (emitter : Emitter) (g : σ) :
    (Emit D emitter g).1.length = emitter.count :=
  emitLoop_length D _ _ g

/-- What `MakeNewParticle` guarantees of a particle made at `origin`. -/
theorem MakeNewParticle_fresh {σ : Type} (D : UniformReal σ) (hD : D.InRange) (g : σ)
    (origin : Vector3) :
    ((MakeNewParticle D g origin).1.transform.scale = ⟨1, 1, 1⟩
      ∧ (MakeNewParticle D g origin).1.transform.rotate = ⟨0, 0, 0⟩
      ∧ (MakeNewParticle D g origin).1.color.w = 1
      ∧ (MakeNewParticle D g origin).1.currentTime = 0)
    ∧ (origin.x - 1 ≤ (MakeNewParticle D g origin).1.transform.translate.x
      ∧ (MakeNewParticle D g origin).1.transform.translate.x ≤ origin.x + 1
      ∧ origin.y - 1 ≤ (MakeNewParticle D g origin).1.transform.translate.y
      ∧ (MakeNewParticle D g origin).1.transform.translate.y ≤ origin.y + 1
      ∧ origin.z - 1 ≤ (MakeNewParticle D g origin).1.transform.translate.z
      ∧ (MakeNewParticle D g origin).1.transform.translate.z ≤ origin.z + 1)
    ∧ (-1 ≤ (MakeNewParticle D g origin).1.velocity.x
      ∧ (MakeNewParticle D g origin).1.velocity.x ≤ 1
      ∧ -1 ≤ (MakeNewParticle D g origin).1.velocity.y
      ∧ (MakeNewParticle D g origin).1.velocity.y ≤ 1
      ∧ -1 ≤ (MakeNewParticle D g origin).1.velocity.z
      ∧ (MakeNewParticle D g origin).1.velocity.z ≤ 1)
    ∧ (0 ≤ (MakeNewParticle D g origin).1.color.x ∧ (MakeNewParticle D g origin).1.color.x ≤ 1
      ∧ 0 ≤ (MakeNewParticle D g origin).1.color.y ∧ (MakeNewParticle D g origin).1.color.y ≤ 1
      ∧ 0 ≤ (MakeNewParticle D g origin).1.color.z ∧ (MakeNewParticle D g origin).1.color.z ≤ 1)
    ∧ 1 ≤ (MakeNewParticle D g origin).1.lifeTime ∧ (MakeNewParticle D g origin).1.lifeTime ≤ 3 := by
  have hJ : ∀ g : σ, (-1 : ℚ) ≤ (D.sample (-1) 1 g).1 ∧ (D.sample (-1) 1 g).1 ≤ 1 :=
    fun g => hD (-1) 1 g (by norm_num)
  have hC : ∀ g : σ, (0 : ℚ) ≤ (D.sample 0 1 g).1 ∧ (D.sample 0 1 g).1 ≤ 1 :=
    fun g => hD 0 1 g (by norm_num)
  have hT : ∀ g : σ, (1 : ℚ) ≤ (D.sample 1 3 g).1 ∧ (D.sample 1 3 g).1 ≤ 3 :=
    fun g => hD 1 3 g (by norm_num)
  refine ⟨⟨rfl, rfl, rfl, rfl⟩, ⟨?_, ?_, ?_, ?_, ?_, ?_⟩, ⟨?_, ?_, ?_, ?_, ?_, ?_⟩,
    ⟨?_, ?_, ?_, ?_, ?_, ?_⟩, ?_, ?_⟩
  all_goals simp only [MakeNewParticle]
  · linarith [(hJ g).1]
  · linarith [(hJ g).2]
  · linarith [(hJ (D.sample (-1) 1 g).2).1]
  · linarith [(hJ (D.sample (-1) 1 g).2).2]
  · linarith [(hJ (D.sample (-1) 1 (D.sample (-1) 1 g).2).2).1]
  · linarith [(hJ (D.sample (-1) 1 (D.sample (-1) 1 g).2).2).2]
  · exact (hJ _).1
  · exact (hJ _).2
  · exact (hJ _).1
  · exact (hJ _).2
  · exact (hJ _).1
  · exact (hJ _).2
  · exact (hC _).1
  · exact (hC _).2
  · exact (hC _).1
  · exact (hC _).2
  · exact (hC _).1
  · exact (hC _).2
  · exact (hT _).1
  · exact (hT _).2

theorem mem_emitLoop {σ : Type} (D : UniformReal σ) (translate : Vector3) (n : Nat) (g : σ)
    (p : Particle) (hp : p ∈ (emitLoop D translate n g).1) :
    ∃ g' : σ, p = (MakeNewParticle D g' translate).1 := by
  induction n generalizing g with
  | zero => simp [emitLoop] at hp
  | succ n ih =>
    simp only [emitLoop, List.mem_cons] at hp
    rcases hp with hp | hp
    · exact ⟨g, hp⟩
    · exact ih _ hp

theorem fixedSource_InRange : fixedSource.InRange := by
  intro a b g hab
  simp only [fixedSource]
  constructor
  · have : 0 ≤ (b - a) / 240 := div_nonneg (by linarith) (by norm_num)
    linarith
  · have : (b - a) / 240 ≤ b - a := by
      rw [div_le_iff₀ (by norm_num : (0 : ℚ) < 240)]
      nlinarith
    linarith
/-! ## The bound on the elapsed time -/

theorem mem_survivors (ps : List Particle) (p : Particle) :
    p ∈ survivors ps ↔ p ∈ ps ∧ p.currentTime < p.lifeTime := by
  simp [survivors, List.mem_filter]

theorem advance_currentTime (p : Particle) : (advance p).currentTime = p.currentTime + kDeltaTime :=
  rfl

theorem advance_lifeTime (p : Particle) : (advance p).lifeTime = p.lifeTime := rfl

theorem kDeltaTime_pos : 0 < kDeltaTime := by norm_num [kDeltaTime]

/-- A particle of the live list after the loop is a survivor, advanced or not. -/
theorem mem_particleLoop_Particles (T : Trig) (useBillboard : Bool)
    (billboardMatrix viewMatrix : Matrix4x4) (ps : List Particle)
    (instancingData : Nat → ParticleForGPU) (numInstance : Nat) (q : Particle)
    (hq : q ∈ (particleLoop T useBillboard billboardMatrix viewMatrix ps instancingData
      numInstance).Particles) :
    (∃ p, p ∈ ps ∧ p.currentTime < p.lifeTime ∧ q = advance p)
      ∨ (q ∈ ps ∧ q.currentTime < q.lifeTime) := by
  rw [particleLoop_Particles, List.mem_append, List.mem_map] at hq
  rcases hq with ⟨p, hp, rfl⟩ | hq
  · have := (mem_survivors ps p).mp (List.mem_of_mem_take hp)
    exact Or.inl ⟨p, this.1, this.2, rfl⟩
  · exact Or.inr ((mem_survivors ps q).mp (List.mem_of_mem_drop hq))

theorem ElapsedBound_MakeNewParticle {σ : Type} (D : UniformReal σ) (hD : D.InRange) (g : σ)
    (origin : Vector3) : ElapsedBound (MakeNewParticle D g origin).1 := by
  have h := MakeNewParticle_fresh D hD g origin
  have hdt := kDeltaTime_pos
  constructor
  · rw [h.1.2.2.2]
  · rw [h.1.2.2.2]
    linarith [h.2.2.2.2.1]

theorem ElapsedBound_Emit {σ : Type} (D : UniformReal σ) (hD : D.InRange) (emitter : Emitter)
    (g : σ) (p : Particle) (hp : p ∈ (Emit D emitter g).1) : ElapsedBound p := by
  obtain ⟨g', rfl⟩ := mem_emitLoop D _ _ g p hp
  exact ElapsedBound_MakeNewParticle D hD g' _

theorem ElapsedBound_particlePass {σ : Type} (T : Trig) (s : Scene σ)
    (hs : ∀ p ∈ s.Particles, ElapsedBound p) :
    ∀ p ∈ (particlePass T s).Particles, ElapsedBound p := by
  intro q hq
  simp only [particlePass] at hq
  rcases mem_particleLoop_Particles _ _ _ _ _ _ _ q hq with ⟨p, hp, ha, rfl⟩ | ⟨hp, _⟩
  · have hb := hs p hp
    have hdt := kDeltaTime_pos
    constructor
    · rw [advance_currentTime]
      linarith [hb.1]
    · rw [advance_currentTime, advance_lifeTime]
      linarith
  · exact hs q hp

theorem ElapsedBound_emitterTick {σ : Type} (D : UniformReal σ) (hD : D.InRange) (deltaTime : ℚ)
    (s : Scene σ) (hs : ∀ p ∈ s.Particles, ElapsedBound p) :
    ∀ p ∈ (emitterTick D deltaTime s).Particles, ElapsedBound p := by
  intro q hq
  simp only [emitterTick] at hq
  split at hq
  · simp only [List.mem_append] at hq
    rcases hq with hq | hq
    · exact hs q hq
    · exact ElapsedBound_Emit D hD _ _ q hq
  · exact hs q hq

theorem ElapsedBound_uiPass {σ : Type} (D : UniformReal σ) (hD : D.InRange) (ui : UiInput)
    (s : Scene σ) (hs : ∀ p ∈ s.Particles, ElapsedBound p) :
    ∀ p ∈ (uiPass D ui s).Particles, ElapsedBound p := by
  have h1 : ∀ p ∈ (if ui.addParticleEmit then uiAddParticleEmit D s else s).Particles,
      ElapsedBound p := by
    intro q hq
    split at hq
    · simp only [uiAddParticleEmit, List.mem_append] at hq
      rcases hq with hq | hq
      · exact hs q hq
      · exact ElapsedBound_Emit D hD _ _ q hq
    · exact hs q hq
  intro q hq
  simp only [uiPass] at hq
  split at hq
  · simp only [uiAddParticleThree, List.mem_append, List.mem_cons, List.mem_singleton,
      List.not_mem_nil, or_false] at hq
    rcases hq with hq | rfl | rfl | rfl
    · exact h1 q hq
    · exact ElapsedBound_MakeNewParticle D hD _ _
    · exact ElapsedBound_MakeNewParticle D hD _ _
    · exact ElapsedBound_MakeNewParticle D hD _ _
  · exact h1 q hq

theorem ElapsedBound_frame {σ : Type} (T : Trig) (D : UniformReal σ) (hD : D.InRange)
    (ui : UiInput) (s : Scene σ) (hs : ∀ p ∈ s.Particles, ElapsedBound p) :
    ∀ p ∈ (frame T D ui s).Particles, ElapsedBound p :=
  ElapsedBound_emitterTick D hD _ _
    (ElapsedBound_particlePass T _ (ElapsedBound_uiPass D hD ui s hs))

theorem ElapsedBound_frames {σ : Type} (T : Trig) (D : UniformReal σ) (hD : D.InRange)
    (uis : List UiInput) (s : Scene σ) (hs : ∀ p ∈ s.Particles, ElapsedBound p) :
    ∀ p ∈ (frames T D uis s).Particles, ElapsedBound p := by
  induction uis generalizing s with
  | nil => exact hs
  | cons ui rest ih => exact ih _ (ElapsedBound_frame T D hD ui s hs)
/-! ## The head of the live list over a run of frames -/

theorem iterate_advance_currentTime (k : Nat) (p : Particle) :
    (advance^[k] p).currentTime = p.currentTime + k * kDeltaTime := by
  induction k generalizing p with
  | zero => simp
  | succ k ih =>
    rw [Function.iterate_succ_apply, ih, advance_currentTime]
    push_cast
    ring

theorem iterate_advance_lifeTime (k : Nat) (p : Particle) :
    (advance^[k] p).lifeTime = p.lifeTime := by
  induction k generalizing p with
  | zero => rfl
  | succ k ih => rw [Function.iterate_succ_apply, ih, advance_lifeTime]

theorem survivors_append (xs ys : List Particle) :
    survivors (xs ++ ys) = survivors xs ++ survivors ys := by
  simp [survivors]

theorem survivors_of_all_alive (xs : List Particle)
    (h : ∀ p ∈ xs, p.currentTime < p.lifeTime) : survivors xs = xs := by
  simp only [survivors, List.filter_eq_self]
  intro p hp
  simpa using h p hp

theorem survivors_of_all_dead (xs : List Particle)
    (h : ∀ p ∈ xs, p.lifeTime ≤ p.currentTime) : survivors xs = [] := by
  simp only [survivors, List.filter_eq_nil_iff]
  intro p hp
  simpa using h p hp

/-- A prefix of live particles that fits the buffer is advanced by the loop,
whatever follows it in the list. -/
theorem particleLoop_alive_front (T : Trig) (useBillboard : Bool)
    (billboardMatrix viewMatrix : Matrix4x4) (xs rest : List Particle)
    (instancingData : Nat → ParticleForGPU)
    (hlen : xs.length ≤ kNumMaxInstance) (h : ∀ p ∈ xs, p.currentTime < p.lifeTime) :
    ∃ rest', (particleLoop T useBillboard billboardMatrix viewMatrix (xs ++ rest)
      instancingData 0).Particles = xs.map advance ++ rest' := by
  rw [particleLoop_Particles, survivors_append, survivors_of_all_alive xs h, Nat.sub_zero,
    List.take_append_eq_append_take, List.take_of_length_le hlen, List.map_append,
    List.append_assoc]
  exact ⟨_, rfl⟩

theorem uiPass_Particles_front {σ : Type} (D : UniformReal σ) (ui : UiInput) (s : Scene σ) :
    ∃ extra, (uiPass D ui s).Particles = s.Particles ++ extra := by
  cases h1 : ui.addParticleEmit <;> cases h2 : ui.addParticleThree <;>
    simp [uiPass, uiAddParticleEmit, uiAddParticleThree, h1, h2, List.append_assoc]

theorem emitterTick_Particles_front {σ : Type} (D : UniformReal σ) (deltaTime : ℚ)
    (s : Scene σ) : ∃ extra, (emitterTick D deltaTime s).Particles = s.Particles ++ extra := by
  simp only [emitterTick]
  split
  · exact ⟨_, rfl⟩
  · exact ⟨[], by simp⟩

theorem particlePass_alive_front {σ : Type} (T : Trig) (s : Scene σ) (xs rest : List Particle)
    (hs : s.Particles = xs ++ rest) (hlen : xs.length ≤ kNumMaxInstance)
    (h : ∀ p ∈ xs, p.currentTime < p.lifeTime) :
    ∃ rest', (particlePass T s).Particles = xs.map advance ++ rest' := by
  simp only [particlePass, hs]
  exact particleLoop_alive_front T _ _ _ xs rest _ hlen h

/-- One frame advances a live prefix of the list that fits the buffer. -/
theorem frame_alive_front {σ : Type} (T : Trig) (D : UniformReal σ) (ui : UiInput)
    (s : Scene σ) (xs rest : List Particle) (hs : s.Particles = xs ++ rest)
    (hlen : xs.length ≤ kNumMaxInstance) (h : ∀ p ∈ xs, p.currentTime < p.lifeTime) :
    ∃ rest', (frame T D ui s).Particles = xs.map advance ++ rest' := by
  obtain ⟨e1, he1⟩ := uiPass_Particles_front D ui s
  rw [hs, List.append_assoc] at he1
  obtain ⟨r1, hr1⟩ := particlePass_alive_front T (uiPass D ui s) xs (rest ++ e1) he1 hlen h
  obtain ⟨e2, he2⟩ := emitterTick_Particles_front D kDeltaTime (particlePass T (uiPass D ui s))
  rw [hr1, List.append_assoc] at he2
  exact ⟨_, he2⟩

/-- A run of frames advances a prefix of the list once per frame as long as
the particles of the prefix pass the expiry check. -/
theorem frames_alive_front {σ : Type} (T : Trig) (D : UniformReal σ) (uis : List UiInput)
    (s : Scene σ) (xs rest : List Particle) (hs : s.Particles = xs ++ rest)
    (hlen : xs.length ≤ kNumMaxInstance)
    (h : ∀ p ∈ xs, ∀ j : Nat, j < uis.length → p.currentTime + j * kDeltaTime < p.lifeTime) :
    ∃ rest', (frames T D uis s).Particles = xs.map (advance^[uis.length]) ++ rest' := by
  induction uis generalizing s xs rest with
  | nil => exact ⟨rest, by simpa using hs⟩
  | cons ui uis ih =>
    have h0 : ∀ p ∈ xs, p.currentTime < p.lifeTime := by
      intro p hp
      simpa using h p hp 0 (by simp)
    obtain ⟨r1, hr1⟩ := frame_alive_front T D ui s xs rest hs hlen h0
    obtain ⟨r2, hr2⟩ := ih (frame T D ui s) (xs.map advance) r1 hr1 (by simpa using hlen) (by
      intro q hq j hj
      obtain ⟨p, hp, rfl⟩ := List.mem_map.mp hq
      have := h p hp (j + 1) (by simpa using hj)
      rw [advance_currentTime, advance_lifeTime]
      push_cast at this
      linarith)
    refine ⟨r2, ?_⟩
    rw [frames, hr2, List.map_map]
    rfl

theorem initialScene_fresh {σ : Type} (D : UniformReal σ) (hD : D.InRange) (g : σ) :
    ∀ p ∈ (initialScene D g).Particles, p.currentTime = 0 ∧ 1 ≤ p.lifeTime ∧ p.lifeTime ≤ 3 := by
  intro p hp
  simp only [initialScene, List.mem_cons, List.mem_singleton, List.not_mem_nil, or_false] at hp
  rcases hp with rfl | rfl | rfl
  all_goals
    exact ⟨(MakeNewParticle_fresh D hD _ _).1.2.2.2, (MakeNewParticle_fresh D hD _ _).2.2.2.2.1,
      (MakeNewParticle_fresh D hD _ _).2.2.2.2.2⟩

theorem ElapsedBound_of_fresh (p : Particle)
    (h : p.currentTime = 0 ∧ 1 ≤ p.lifeTime ∧ p.lifeTime ≤ 3) : ElapsedBound p := by
  have hdt := kDeltaTime_pos
  constructor
  · rw [h.1]
  · rw [h.1]
    linarith [h.2.1]

/-! ## Claims about the lifetime of particles over frames -/

/-- C3 (as stated, refuted): from the program's initial scene, with a random
source whose draws are in range (every lifetime drawn is `1 + 1/120`), after
61 idle frames the live list holds a particle with elapsed time `61/60`,
which is more than its lifetime `121/120`. -/
theorem frames_elapsed_exceeds_lifetime :
    fixedSource.InRange
    ∧ (∀ p ∈ (initialScene fixedSource 0).Particles,
        p.currentTime = 0 ∧ 1 ≤ p.lifeTime ∧ p.lifeTime ≤ 3)
    ∧ ∃ p, p ∈ (frames sampleTrig fixedSource (List.replicate 61 idleInput)
          (initialScene fixedSource 0)).Particles
        ∧ p.lifeTime = 121 / 120 ∧ p.currentTime = 61 / 60 ∧ p.lifeTime < p.currentTime := by
  refine ⟨fixedSource_InRange, initialScene_fresh fixedSource fixedSource_InRange 0, ?_⟩
  have hc : (MakeNewParticle fixedSource 0 initialEmitter.transform.translate).1.currentTime = 0 :=
    rfl
  have hl : (MakeNewParticle fixedSource 0 initialEmitter.transform.translate).1.lifeTime
      = 121 / 120 := by
    norm_num [MakeNewParticle, fixedSource]
  obtain ⟨rest', hrest⟩ := frames_alive_front sampleTrig fixedSource (List.replicate 61 idleInput)
    (initialScene fixedSource 0)
    [(MakeNewParticle fixedSource 0 initialEmitter.transform.translate).1]
    (initialScene fixedSource 0).Particles.tail rfl (by simp [kNumMaxInstance]) (by
      intro p hp j hj
      rw [List.mem_singleton] at hp
      subst hp
      rw [hc, hl]
      have hj' : (j : ℚ) ≤ 60 := by
        have : j ≤ 60 := by simpa using Nat.lt_succ_iff.mp (by simpa using hj)
        exact_mod_cast this
      norm_num [kDeltaTime]
      linarith)
  refine ⟨advance^[61] (MakeNewParticle fixedSource 0 initialEmitter.transform.translate).1,
    ?_, ?_, ?_, ?_⟩
  · rw [hrest]
    simp
  · rw [iterate_advance_lifeTime, hl]
  · rw [iterate_advance_currentTime, hc]
    norm_num [kDeltaTime]
  · rw [iterate_advance_lifeTime, iterate_advance_currentTime, hl, hc]
    norm_num [kDeltaTime]

/-- C3 (amended): starting from a live list of particles as `MakeNewParticle`
makes them (elapsed time `0`, lifetime in `[1, 3]`), with a random source
whose draws are in range, after any run of frames (whatever the UI does in
them) every particle of the live list has `0 ≤ currentTime` and
`currentTime < lifeTime + 1/60`. -/
theorem frames_elapsed_lt_lifetime_add_step {σ : Type} (T : Trig) (D : UniformReal σ)
    (hD : D.InRange) (uis : List UiInput) (s : Scene σ)
    (hs : ∀ p ∈ s.Particles, p.currentTime = 0 ∧ 1 ≤ p.lifeTime ∧ p.lifeTime ≤ 3) :
    ∀ p ∈ (frames T D uis s).Particles,
      0 ≤ p.currentTime ∧ p.currentTime < p.lifeTime + 1 / 60 := by
  intro p hp
  have h := ElapsedBound_frames T D hD uis s (fun q hq => ElapsedBound_of_fresh q (hs q hq)) p hp
  simpa [ElapsedBound, kDeltaTime] using h

/-- Witness for C3: 61 idle frames from the program's initial scene with the
deterministic random source. -/
theorem frames_elapsed_lt_lifetime_add_step_witness :
    fixedSource.InRange
    ∧ (∀ p ∈ (initialScene fixedSource 0).Particles,
        p.currentTime = 0 ∧ 1 ≤ p.lifeTime ∧ p.lifeTime ≤ 3)
    ∧ (∀ p ∈ (frames sampleTrig fixedSource (List.replicate 61 idleInput)
          (initialScene fixedSource 0)).Particles,
        0 ≤ p.currentTime ∧ p.currentTime < p.lifeTime + 1 / 60) :=
  ⟨fixedSource_InRange, initialScene_fresh fixedSource fixedSource_InRange 0,
    frames_elapsed_lt_lifetime_add_step sampleTrig fixedSource fixedSource_InRange
      (List.replicate 61 idleInput) (initialScene fixedSource 0)
      (initialScene_fresh fixedSource fixedSource_InRange 0)⟩

theorem emitterTick_quiet {σ : Type} (D : UniformReal σ) (deltaTime : ℚ) (s : Scene σ)
    (h : ¬ s.emitter.frequency ≤ s.emitter.ferquencyTime + deltaTime) :
    emitterTick D deltaTime s
      = { s with
          emitter := { s.emitter with ferquencyTime := s.emitter.ferquencyTime + deltaTime } } := by
  simp [emitterTick, h]

theorem emitterTick_fire {σ : Type} (D : UniformReal σ) (deltaTime : ℚ) (s : Scene σ)
    (h : s.emitter.frequency ≤ s.emitter.ferquencyTime + deltaTime) :
    emitterTick D deltaTime s
      = { s with
          Particles := s.Particles ++ (Emit D s.emitter s.randomEngine).1
          emitter :=
            { s.emitter with
              ferquencyTime := s.emitter.ferquencyTime + deltaTime - s.emitter.frequency }
          randomEngine := (Emit D s.emitter s.randomEngine).2 } := by
  simp [emitterTick, h, Emit]

/-- With interval `1/2`, accumulator `0` and step `1/10`, after `k` ticks the
accumulator is `(k mod 5) / 10` and `k / 5` emissions have happened. -/
theorem emitterTick_iterate_tenth {σ : Type} (D : UniformReal σ) (s : Scene σ)
    (hf : s.emitter.frequency = 1 / 2) (ha : s.emitter.ferquencyTime = 0) (k : Nat) :
    ((emitterTick D (1 / 10))^[k] s).emitter
        = { s.emitter with ferquencyTime := ((k % 5 : Nat) : ℚ) / 10 }
    ∧ ((emitterTick D (1 / 10))^[k] s).Particles.length
        = s.Particles.length + (k / 5) * s.emitter.count := by
  induction k with
  | zero =>
    constructor
    · cases hs : s.emitter
      simp [hs] at ha ⊢
      exact ha
    · simp
  | succ k ih =>
    rw [Function.iterate_succ_apply']
    obtain ⟨he, hl⟩ := ih
    have hk5 : k % 5 < 5 := Nat.mod_lt _ (by norm_num)
    by_cases h4 : k % 5 = 4
    · have hfire : ((emitterTick D (1 / 10))^[k] s).emitter.frequency
          ≤ ((emitterTick D (1 / 10))^[k] s).emitter.ferquencyTime + 1 / 10 := by
        rw [he]
        simp only [hf, h4]
        norm_num
      rw [emitterTick_fire D _ _ hfire]
      have h1 : (k + 1) % 5 = 0 := by omega
      have h2 : (k + 1) / 5 = k / 5 + 1 := by omega
      constructor
      · simp only [he, hf, h4, h1]
        norm_num
      · simp only [List.length_append, Emit_length, hl, he, h2]
        ring
    · have hquiet : ¬ ((emitterTick D (1 / 10))^[k] s).emitter.frequency
          ≤ ((emitterTick D (1 / 10))^[k] s).emitter.ferquencyTime + 1 / 10 := by
        rw [he]
        simp only [hf, not_le]
        have : ((k % 5 : Nat) : ℚ) ≤ 3 := by
          have : k % 5 ≤ 3 := by omega
          exact_mod_cast this
        linarith
      rw [emitterTick_quiet D _ _ hquiet]
      have h1 : (k + 1) % 5 = k % 5 + 1 := by omega
      have h2 : (k + 1) / 5 = k / 5 := by omega
      constructor
      · simp only [he, h1]
        congr 1
        push_cast
        ring
      · simp only [hl, h2]

/-- C6: with interval `1/2` and accumulator `0`, twelve emitter ticks with
time step `1/10` emit exactly twice, on the 5th and on the 10th tick (the
tick with index `k`, counted from `0`, emits exactly when `k` is `4` or `9`,
and the live list grows by `count` at those two ticks only), and the
accumulator ends at `1/5`. -/
theorem emitterTick_phase_preserved {σ : Type} (D : UniformReal σ) (s : Scene σ)
    (hf : s.emitter.frequency = 1 / 2) (ha : s.emitter.ferquencyTime = 0) :
    (∀ k, k < 12 →
      emitterFires (1 / 10) ((emitterTick D (1 / 10))^[k] s).emitter = decide (k = 4 ∨ k = 9))
    ∧ (∀ k, k < 12 →
      ((emitterTick D (1 / 10))^[k + 1] s).Particles.length
        = ((emitterTick D (1 / 10))^[k] s).Particles.length
          + if k = 4 ∨ k = 9 then s.emitter.count else 0)
    ∧ ((emitterTick D (1 / 10))^[12] s).Particles.length
        = s.Particles.length + 2 * s.emitter.count
    ∧ ((emitterTick D (1 / 10))^[12] s).emitter.ferquencyTime = 1 / 5 := by
  refine ⟨fun k hk => ?_, fun k hk => ?_, ?_, ?_⟩
  · rw [emitterFires, (emitterTick_iterate_tenth D s hf ha k).1]
    simp only [hf]
    interval_cases k <;> norm_num
  · rw [(emitterTick_iterate_tenth D s hf ha (k + 1)).2, (emitterTick_iterate_tenth D s hf ha k).2]
    interval_cases k <;> (simp; try omega)
  · rw [(emitterTick_iterate_tenth D s hf ha 12).2]
  · rw [(emitterTick_iterate_tenth D s hf ha 12).1]
    norm_num

/-- Witness for C6: the program's initial scene, whose emitter has interval
`1/2` and accumulator `0`. -/
theorem emitterTick_phase_preserved_witness :
    (initialScene fixedSource 0).emitter.frequency = 1 / 2
    ∧ (initialScene fixedSource 0).emitter.ferquencyTime = 0
    ∧ ((∀ k, k < 12 →
        emitterFires (1 / 10) ((emitterTick fixedSource (1 / 10))^[k]
          (initialScene fixedSource 0)).emitter = decide (k = 4 ∨ k = 9))
      ∧ (∀ k, k < 12 →
        ((emitterTick fixedSource (1 / 10))^[k + 1] (initialScene fixedSource 0)).Particles.length
          = ((emitterTick fixedSource (1 / 10))^[k] (initialScene fixedSource 0)).Particles.length
            + if k = 4 ∨ k = 9 then (initialScene fixedSource 0).emitter.count else 0)
      ∧ ((emitterTick fixedSource (1 / 10))^[12] (initialScene fixedSource 0)).Particles.length
          = (initialScene fixedSource 0).Particles.length
            + 2 * (initialScene fixedSource 0).emitter.count
      ∧ ((emitterTick fixedSource (1 / 10))^[12]
          (initialScene fixedSource 0)).emitter.ferquencyTime = 1 / 5) :=
  ⟨rfl, rfl, emitterTick_phase_preserved fixedSource (initialScene fixedSource 0) rfl rfl⟩

/-- C7: the emitter tick adds `deltaTime` to the accumulator; when the interval
is reached it appends the `emitter.count` particles of `Emit` at the end of
the live list and stores the sum minus the interval, otherwise it leaves the
list as it is and stores the sum. -/
theorem emitterTick_accumulates_and_emits {σ : Type} (D : UniformReal σ) (deltaTime : ℚ)
    (s : Scene σ) :
    (s.emitter.frequency ≤ s.emitter.ferquencyTime + deltaTime →
      (emitterTick D deltaTime s).Particles = s.Particles ++ (Emit D s.emitter s.randomEngine).1
      ∧ (Emit D s.emitter s.randomEngine).1.length = s.emitter.count
      ∧ (emitterTick D deltaTime s).emitter.ferquencyTime
          = s.emitter.ferquencyTime + deltaTime - s.emitter.frequency)
    ∧ (¬ s.emitter.frequency ≤ s.emitter.ferquencyTime + deltaTime →
      (emitterTick D deltaTime s).Particles = s.Particles
      ∧ (emitterTick D deltaTime s).emitter.ferquencyTime
          = s.emitter.ferquencyTime + deltaTime) := by
  constructor
  · intro h
    rw [emitterTick_fire D deltaTime s h]
    exact ⟨rfl, Emit_length D _ _, rfl⟩
  · intro h
    rw [emitterTick_quiet D deltaTime s h]
    exact ⟨rfl, rfl⟩

/-- C8: with a random source whose draws lie in the ranges of the
distributions, `Emit` returns exactly `emitter.count` particles, each with
translation within `1` of the emitter's on every axis, velocity components
in `[-1, 1]`, red, green and blue in `[0, 1]`, alpha `1`, lifetime in
`[1, 3]`, elapsed time `0`, scale `(1, 1, 1)` and rotation `(0, 0, 0)`. -/
theorem Emit_count_and_ranges {σ : Type} (D : UniformReal σ) (hD : D.InRange)
    (emitter : Emitter) (randomEngine : σ) :
    (Emit D emitter randomEngine).1.length = emitter.count
    ∧ ∀ p ∈ (Emit D emitter randomEngine).1,
        (emitter.transform.translate.x - 1 ≤ p.transform.translate.x
          ∧ p.transform.translate.x ≤ emitter.transform.translate.x + 1
          ∧ emitter.transform.translate.y - 1 ≤ p.transform.translate.y
          ∧ p.transform.translate.y ≤ emitter.transform.translate.y + 1
          ∧ emitter.transform.translate.z - 1 ≤ p.transform.translate.z
          ∧ p.transform.translate.z ≤ emitter.transform.translate.z + 1)
        ∧ (-1 ≤ p.velocity.x ∧ p.velocity.x ≤ 1 ∧ -1 ≤ p.velocity.y ∧ p.velocity.y ≤ 1
          ∧ -1 ≤ p.velocity.z ∧ p.velocity.z ≤ 1)
        ∧ (0 ≤ p.color.x ∧ p.color.x ≤ 1 ∧ 0 ≤ p.color.y ∧ p.color.y ≤ 1
          ∧ 0 ≤ p.color.z ∧ p.color.z ≤ 1)
        ∧ p.color.w = 1
        ∧ (1 ≤ p.lifeTime ∧ p.lifeTime ≤ 3)
        ∧ p.currentTime = 0
        ∧ p.transform.scale = ⟨1, 1, 1⟩
        ∧ p.transform.rotate = ⟨0, 0, 0⟩ := by
  refine ⟨Emit_length D emitter randomEngine, fun p hp => ?_⟩
  obtain ⟨g', rfl⟩ := mem_emitLoop D _ _ randomEngine p hp
  have h := MakeNewParticle_fresh D hD g' emitter.transform.translate
  exact ⟨h.2.1, h.2.2.1, h.2.2.2.1, h.1.2.2.1, h.2.2.2.2, h.1.2.2.2, h.1.1, h.1.2.1⟩

/-- Witness for C8: the program's initial emitter and the deterministic random
source. -/
theorem Emit_count_and_ranges_witness :
    fixedSource.InRange
    ∧ ((Emit fixedSource initialEmitter 0).1.length = initialEmitter.count
      ∧ ∀ p ∈ (Emit fixedSource initialEmitter 0).1,
          (initialEmitter.transform.translate.x - 1 ≤ p.transform.translate.x
            ∧ p.transform.translate.x ≤ initialEmitter.transform.translate.x + 1
            ∧ initialEmitter.transform.translate.y - 1 ≤ p.transform.translate.y
            ∧ p.transform.translate.y ≤ initialEmitter.transform.translate.y + 1
            ∧ initialEmitter.transform.translate.z - 1 ≤ p.transform.translate.z
            ∧ p.transform.translate.z ≤ initialEmitter.transform.translate.z + 1)
          ∧ (-1 ≤ p.velocity.x ∧ p.velocity.x ≤ 1 ∧ -1 ≤ p.velocity.y ∧ p.velocity.y ≤ 1
            ∧ -1 ≤ p.velocity.z ∧ p.velocity.z ≤ 1)
          ∧ (0 ≤ p.color.x ∧ p.color.x ≤ 1 ∧ 0 ≤ p.color.y ∧ p.color.y ≤ 1
            ∧ 0 ≤ p.color.z ∧ p.color.z ≤ 1)
          ∧ p.color.w = 1
          ∧ (1 ≤ p.lifeTime ∧ p.lifeTime ≤ 3)
          ∧ p.currentTime = 0
          ∧ p.transform.scale = ⟨1, 1, 1⟩
          ∧ p.transform.rotate = ⟨0, 0, 0⟩) :=
  ⟨fixedSource_InRange, Emit_count_and_ranges fixedSource fixedSource_InRange initialEmitter 0⟩

/-! ## Claims about the blend table and the billboard -/

/-- C9: `CreateBlendDesc` maps each of the six blend modes to the row of the
blend table (enabled, source factor, operation, destination factor), and two
calls with the same mode return equal descriptors. -/
theorem CreateBlendDesc_table :
    (CreateBlendDesc kBlendModeNone).RenderTarget0.BlendEnable = false
    ∧ ((CreateBlendDesc kBlendModeNormal).RenderTarget0.BlendEnable = true
      ∧ (CreateBlendDesc kBlendModeNormal).RenderTarget0.SrcBlend = D3D12_BLEND_SRC_ALPHA
      ∧ (CreateBlendDesc kBlendModeNormal).RenderTarget0.BlendOp = D3D12_BLEND_OP_ADD
      ∧ (CreateBlendDesc kBlendModeNormal).RenderTarget0.DestBlend = D3D12_BLEND_INV_SRC_ALPHA)
    ∧ ((CreateBlendDesc kBlendModeAdd).RenderTarget0.BlendEnable = true
      ∧ (CreateBlendDesc kBlendModeAdd).RenderTarget0.SrcBlend = D3D12_BLEND_SRC_ALPHA
      ∧ (CreateBlendDesc kBlendModeAdd).RenderTarget0.BlendOp = D3D12_BLEND_OP_ADD
      ∧ (CreateBlendDesc kBlendModeAdd).RenderTarget0.DestBlend = D3D12_BLEND_ONE)
    ∧ ((CreateBlendDesc kBlendModeSubtract).RenderTarget0.BlendEnable = true
      ∧ (CreateBlendDesc kBlendModeSubtract).RenderTarget0.SrcBlend = D3D12_BLEND_SRC_ALPHA
      ∧ (CreateBlendDesc kBlendModeSubtract).RenderTarget0.BlendOp = D3D12_BLEND_OP_REV_SUBTRACT
      ∧ (CreateBlendDesc kBlendModeSubtract).RenderTarget0.DestBlend = D3D12_BLEND_ONE)
    ∧ ((CreateBlendDesc kBlendModeMultily).RenderTarget0.BlendEnable = true
      ∧ (CreateBlendDesc kBlendModeMultily).RenderTarget0.SrcBlend = D3D12_BLEND_ZERO
      ∧ (CreateBlendDesc kBlendModeMultily).RenderTarget0.BlendOp = D3D12_BLEND_OP_ADD
      ∧ (CreateBlendDesc kBlendModeMultily).RenderTarget0.DestBlend = D3D12_BLEND_SRC_COLOR)
    ∧ ((CreateBlendDesc kBlendModeScreen).RenderTarget0.BlendEnable = true
      ∧ (CreateBlendDesc kBlendModeScreen).RenderTarget0.SrcBlend = D3D12_BLEND_INV_DEST_COLOR
      ∧ (CreateBlendDesc kBlendModeScreen).RenderTarget0.BlendOp = D3D12_BLEND_OP_ADD
      ∧ (CreateBlendDesc kBlendModeScreen).RenderTarget0.DestBlend = D3D12_BLEND_ONE)
    ∧ ∀ m1 m2 : BlendMode, m1 = m2 → CreateBlendDesc m1 = CreateBlendDesc m2 := by
  refine ⟨rfl, ⟨rfl, rfl, rfl, rfl⟩, ⟨rfl, rfl, rfl, rfl⟩, ⟨rfl, rfl, rfl, rfl⟩,
    ⟨rfl, rfl, rfl, rfl⟩, ⟨rfl, rfl, rfl, rfl⟩, fun m1 m2 h => by rw [h]⟩

/-- The translation row of the world matrix with billboarding on: the
particle's translation multiplied by the upper-left block of the billboard
matrix. -/
theorem worldMatrixpori_billboard_row (T : Trig) (billboardMatrix : Matrix4x4) (p : Particle) :
    (worldMatrixpori T true billboardMatrix p).m30
        = p.transform.translate.x * billboardMatrix.m00
          + p.transform.translate.y * billboardMatrix.m10
          + p.transform.translate.z * billboardMatrix.m20 + 1 * billboardMatrix.m30
    ∧ (worldMatrixpori T true billboardMatrix p).m31
        = p.transform.translate.x * billboardMatrix.m01
          + p.transform.translate.y * billboardMatrix.m11
          + p.transform.translate.z * billboardMatrix.m21 + 1 * billboardMatrix.m31
    ∧ (worldMatrixpori T true billboardMatrix p).m32
        = p.transform.translate.x * billboardMatrix.m02
          + p.transform.translate.y * billboardMatrix.m12
          + p.transform.translate.z * billboardMatrix.m22 + 1 * billboardMatrix.m32 :=
  ⟨rfl, rfl, rfl⟩

/-- C10 (the code at the failing input): billboarding on, camera at
`(0, 4, 10)` with rotation `(0, 0, 0)`, particle at `(1, 0, 0)` with scale
`(1, 1, 1)` and rotation `(0, 0, 0)`: the translation row of the world matrix
written to the slot is `(-1, 0, 0x1.777a5cp-24)`, not `(1, 0, 0)`. -/
theorem billboard_world_translation_row_at_failing_input :
    sampleParticle.transform.translate = ⟨1, 0, 0⟩
    ∧ (slotRecord sampleTrig true
        (billboardMatrixOf sampleTrig (MakeAffineMatrix sampleTrig ⟨1, 1, 1⟩ ⟨0, 0, 0⟩ ⟨0, 4, 10⟩))
        (Inverse (MakeAffineMatrix sampleTrig ⟨1, 1, 1⟩ ⟨0, 0, 0⟩ ⟨0, 4, 10⟩))
        sampleParticle).world
      = Multiply
          (MakeAffineMatrix sampleTrig sampleParticle.transform.scale
            sampleParticle.transform.rotate sampleParticle.transform.translate)
          (billboardMatrixOf sampleTrig (MakeAffineMatrix sampleTrig ⟨1, 1, 1⟩ ⟨0, 0, 0⟩ ⟨0, 4, 10⟩))
    ∧ (Multiply
          (MakeAffineMatrix sampleTrig sampleParticle.transform.scale
            sampleParticle.transform.rotate sampleParticle.transform.translate)
          (billboardMatrixOf sampleTrig
            (MakeAffineMatrix sampleTrig ⟨1, 1, 1⟩ ⟨0, 0, 0⟩ ⟨0, 4, 10⟩))).m30 = -1
    ∧ (Multiply
          (MakeAffineMatrix sampleTrig sampleParticle.transform.scale
            sampleParticle.transform.rotate sampleParticle.transform.translate)
          (billboardMatrixOf sampleTrig
            (MakeAffineMatrix sampleTrig ⟨1, 1, 1⟩ ⟨0, 0, 0⟩ ⟨0, 4, 10⟩))).m31 = 0
    ∧ (Multiply
          (MakeAffineMatrix sampleTrig sampleParticle.transform.scale
            sampleParticle.transform.rotate sampleParticle.transform.translate)
          (billboardMatrixOf sampleTrig
            (MakeAffineMatrix sampleTrig ⟨1, 1, 1⟩ ⟨0, 0, 0⟩ ⟨0, 4, 10⟩))).m32
        = 12303662 / 140737488355328 := by
  refine ⟨rfl, rfl, ?_, ?_, ?_⟩ <;>
    norm_num [Multiply, MakeAffineMatrix, billboardMatrixOf, MakeRotateXMatrix, MakeRotateYMatrix,
      MakeRotateZMatrix, sampleTrig, sampleParticle, pi_v]

/-! ## Claims about the slot records -/

theorem slotRecord_color_w (T : Trig) (useBillboard : Bool)
    (billboardMatrix viewMatrix : Matrix4x4) (p : Particle) :
    (slotRecord T useBillboard billboardMatrix viewMatrix p).color.w
      = fadeAlpha (p.currentTime + kDeltaTime) p.lifeTime := rfl

theorem Multiply_assoc (a b c : Matrix4x4) :
    Multiply a (Multiply b c) = Multiply (Multiply a b) c := by
  simp only [Multiply, Matrix4x4.mk.injEq]
  refine ⟨?_, ?_, ?_, ?_, ?_, ?_, ?_, ?_, ?_, ?_, ?_, ?_, ?_, ?_, ?_, ?_⟩ <;> ring

/-- A generic invariant of the live list: a property that `advance` keeps on
particles that pass the expiry check, and that every new particle has, holds
of every particle after a frame when it held before. -/
theorem frame_invariant {σ : Type} (T : Trig) (D : UniformReal σ) (P : Particle → Prop)
    (hadv : ∀ p, P p → p.currentTime < p.lifeTime → P (advance p))
    (hnew : ∀ (g : σ) (origin : Vector3), P (MakeNewParticle D g origin).1)
    (ui : UiInput) (s : Scene σ) (hs : ∀ p ∈ s.Particles, P p) :
    (∀ p ∈ (uiPass D ui s).Particles, P p) ∧ (∀ p ∈ (frame T D ui s).Particles, P p) := by
  have hemit : ∀ (e : Emitter) (g : σ), ∀ p ∈ (Emit D e g).1, P p := by
    intro e g p hp
    obtain ⟨g', rfl⟩ := mem_emitLoop D _ _ g p hp
    exact hnew g' _
  have h1 : ∀ p ∈ (if ui.addParticleEmit then uiAddParticleEmit D s else s).Particles, P p := by
    intro q hq
    split at hq
    · simp only [uiAddParticleEmit, List.mem_append] at hq
      rcases hq with hq | hq
      · exact hs q hq
      · exact hemit _ _ q hq
    · exact hs q hq
  have h2 : ∀ p ∈ (uiPass D ui s).Particles, P p := by
    intro q hq
    simp only [uiPass] at hq
    split at hq
    · simp only [uiAddParticleThree, List.mem_append, List.mem_cons, List.mem_singleton,
        List.not_mem_nil, or_false] at hq
      rcases hq with hq | rfl | rfl | rfl
      · exact h1 q hq
      · exact hnew _ _
      · exact hnew _ _
      · exact hnew _ _
    · exact h1 q hq
  have h3 : ∀ p ∈ (particlePass T (uiPass D ui s)).Particles, P p := by
    intro q hq
    simp only [particlePass] at hq
    rcases mem_particleLoop_Particles _ _ _ _ _ _ _ q hq with ⟨p, hp, ha, rfl⟩ | ⟨hp, _⟩
    · exact hadv p (h2 p hp) ha
    · exact h2 q hp
  refine ⟨h2, ?_⟩
  intro q hq
  simp only [frame, emitterTick] at hq
  split at hq
  · simp only [List.mem_append] at hq
    rcases hq with hq | hq
    · exact h3 q hq
    · exact hemit _ _ q hq
  · exact h3 q hq

theorem frames_invariant {σ : Type} (T : Trig) (D : UniformReal σ) (P : Particle → Prop)
    (hadv : ∀ p, P p → p.currentTime < p.lifeTime → P (advance p))
    (hnew : ∀ (g : σ) (origin : Vector3), P (MakeNewParticle D g origin).1)
    (uis : List UiInput) (s : Scene σ) (hs : ∀ p ∈ s.Particles, P p) :
    ∀ p ∈ (frames T D uis s).Particles, P p := by
  induction uis generalizing s with
  | nil => exact hs
  | cons ui rest ih => exact ih _ (frame_invariant T D P hadv hnew ui s hs).2

theorem emitterTick_instancingData {σ : Type} (D : UniformReal σ) (deltaTime : ℚ) (s : Scene σ) :
    (emitterTick D deltaTime s).instancingData = s.instancingData
      ∧ (emitterTick D deltaTime s).numInstance = s.numInstance := by
  simp only [emitterTick]
  split <;> exact ⟨rfl, rfl⟩

theorem uiPass_instancingData {σ : Type} (D : UniformReal σ) (ui : UiInput) (s : Scene σ) :
    (uiPass D ui s).instancingData = s.instancingData := by
  cases h1 : ui.addParticleEmit <;> cases h2 : ui.addParticleThree <;>
    simp [uiPass, uiAddParticleEmit, uiAddParticleThree, h1, h2]

/-- Every slot a frame counts holds the record of a particle that was in the
live list after the UI pass and passed the expiry check. -/
theorem frame_written_slot {σ : Type} (T : Trig) (D : UniformReal σ) (ui : UiInput)
    (s : Scene σ) (i : Nat) (hi : i < (frame T D ui s).numInstance) :
    ∃ p, p ∈ (uiPass D ui s).Particles ∧ p.currentTime < p.lifeTime
      ∧ ((frame T D ui s).instancingData i).color.w
          = fadeAlpha (p.currentTime + kDeltaTime) p.lifeTime := by
  rw [frame, (emitterTick_instancingData D kDeltaTime _).1] at *
  rw [(emitterTick_instancingData D kDeltaTime _).2] at hi
  simp only [particlePass] at hi ⊢
  have hn := particleLoop_numInstance T (uiPass D ui s).useBillboard
    (billboardMatrixOf T (MakeAffineMatrix T (uiPass D ui s).cameratransform.scale
      (uiPass D ui s).cameratransform.rotate (uiPass D ui s).cameratransform.translate))
    (Inverse (MakeAffineMatrix T (uiPass D ui s).cameratransform.scale
      (uiPass D ui s).cameratransform.rotate (uiPass D ui s).cameratransform.translate))
    (uiPass D ui s).Particles (uiPass D ui s).instancingData 0
  have hN : kNumMaxInstance = 100 := rfl
  have hlt : i < (survivors (uiPass D ui s).Particles).length := by omega
  have hmem := (mem_survivors _ _).mp (List.getElem_mem hlt)
  refine ⟨(survivors (uiPass D ui s).Particles)[i], hmem.1, hmem.2, ?_⟩
  rw [particleLoop_instancingData_written _ _ _ _ _ _ 0 i
    ((survivors (uiPass D ui s).Particles)[i]) (Nat.zero_le _) (by omega)
    (by simp [List.getElem?_eq_getElem hlt])]
  rfl

theorem fadeAlpha_bounds (c L : ℚ) (hc : 0 ≤ c) (hL : 1 ≤ L) (ha : c < L) :
    -(1 / 60) < fadeAlpha (c + kDeltaTime) L ∧ fadeAlpha (c + kDeltaTime) L ≤ 1 := by
  have hLpos : 0 < L := by linarith
  have hdt : kDeltaTime = 1 / 60 := rfl
  simp only [fadeAlpha, hdt]
  constructor
  · have h1 : (c + 1 / 60) / L < 1 + 1 / 60 := by
      rw [div_lt_iff₀ hLpos]
      nlinarith
    linarith
  · have h2 : 0 ≤ (c + 1 / 60) / L := div_nonneg (by linarith) hLpos.le
    linarith

/-- The slot that a frame writes for the head of the live list. -/
theorem frame_slot_zero {σ : Type} (T : Trig) (D : UniformReal σ) (ui : UiInput)
    (s : Scene σ) (p : Particle) (rest : List Particle) (hs : s.Particles = p :: rest)
    (ha : p.currentTime < p.lifeTime) :
    0 < (frame T D ui s).numInstance
    ∧ ((frame T D ui s).instancingData 0).color.w
        = fadeAlpha (p.currentTime + kDeltaTime) p.lifeTime := by
  obtain ⟨extra, he⟩ := uiPass_Particles_front D ui s
  rw [hs] at he
  have hsurv : survivors (uiPass D ui s).Particles = p :: survivors (rest ++ extra) := by
    rw [he, List.cons_append, survivors_cons_alive _ _ ha]
  rw [frame, (emitterTick_instancingData D kDeltaTime _).1,
    (emitterTick_instancingData D kDeltaTime _).2]
  simp only [particlePass]
  constructor
  · rw [particleLoop_numInstance, hsurv]
    simp [kNumMaxInstance]
  · rw [particleLoop_instancingData_written _ _ _ _ _ _ 0 0 p (Nat.zero_le _)
      (by simp [kNumMaxInstance]) (by simp [hsurv])]
    rfl

/-- C11 (as stated, refuted): from the program's initial scene, with a random
source whose draws are in range (every lifetime drawn is `1 + 1/120`), the
61st idle frame writes slot `0` with alpha `-1/121`, below `0`. -/
theorem frame_61_writes_negative_alpha :
    fixedSource.InRange
    ∧ (∀ p ∈ (initialScene fixedSource 0).Particles,
        p.currentTime = 0 ∧ 1 ≤ p.lifeTime ∧ p.lifeTime ≤ 3)
    ∧ 0 < (frame sampleTrig fixedSource idleInput
        (frames sampleTrig fixedSource (List.replicate 60 idleInput)
          (initialScene fixedSource 0))).numInstance
    ∧ ((frame sampleTrig fixedSource idleInput
        (frames sampleTrig fixedSource (List.replicate 60 idleInput)
          (initialScene fixedSource 0))).instancingData 0).color.w = -(1 / 121) := by
  refine ⟨fixedSource_InRange, initialScene_fresh fixedSource fixedSource_InRange 0, ?_⟩
  have hc : (MakeNewParticle fixedSource 0 initialEmitter.transform.translate).1.currentTime = 0 :=
    rfl
  have hl : (MakeNewParticle fixedSource 0 initialEmitter.transform.translate).1.lifeTime
      = 121 / 120 := by
    norm_num [MakeNewParticle, fixedSource]
  obtain ⟨rest', hrest⟩ := frames_alive_front sampleTrig fixedSource (List.replicate 60 idleInput)
    (initialScene fixedSource 0)
    [(MakeNewParticle fixedSource 0 initialEmitter.transform.translate).1]
    (initialScene fixedSource 0).Particles.tail rfl (by simp [kNumMaxInstance]) (by
      intro p hp j hj
      rw [List.mem_singleton] at hp
      subst hp
      rw [hc, hl]
      have hj' : (j : ℚ) ≤ 59 := by
        have : j ≤ 59 := by
          have := hj
          simp only [List.length_replicate] at this
          omega
        exact_mod_cast this
      norm_num [kDeltaTime]
      linarith)
  simp only [List.length_replicate, List.map_cons, List.map_nil, List.singleton_append] at hrest
  have halive : (advance^[60] (MakeNewParticle fixedSource 0
      initialEmitter.transform.translate).1).currentTime
      < (advance^[60] (MakeNewParticle fixedSource 0
        initialEmitter.transform.translate).1).lifeTime := by
    rw [iterate_advance_currentTime, iterate_advance_lifeTime, hc, hl]
    norm_num [kDeltaTime]
  have h := frame_slot_zero sampleTrig fixedSource idleInput _ _ _ hrest halive
  refine ⟨h.1, ?_⟩
  rw [h.2, iterate_advance_currentTime, iterate_advance_lifeTime, hc, hl]
  norm_num [fadeAlpha, kDeltaTime]

/-- C11 (amended): starting from a live list of particles as `MakeNewParticle`
makes them (elapsed time `0`, lifetime in `[1, 3]`), with a random source
whose draws are in range, every alpha that a frame of any run writes to a
slot is greater than `-1/60` and at most `1`. -/
theorem frame_written_alpha_bounds {σ : Type} (T : Trig) (D : UniformReal σ) (hD : D.InRange)
    (uis : List UiInput) (ui : UiInput) (s : Scene σ)
    (hs : ∀ p ∈ s.Particles, p.currentTime = 0 ∧ 1 ≤ p.lifeTime ∧ p.lifeTime ≤ 3) :
    ∀ i, i < (frame T D ui (frames T D uis s)).numInstance →
      -(1 / 60) < ((frame T D ui (frames T D uis s)).instancingData i).color.w
      ∧ ((frame T D ui (frames T D uis s)).instancingData i).color.w ≤ 1 := by
  intro i hi
  have hadv : ∀ p : Particle, (0 ≤ p.currentTime ∧ 1 ≤ p.lifeTime) →
      p.currentTime < p.lifeTime → (0 ≤ (advance p).currentTime ∧ 1 ≤ (advance p).lifeTime) := by
    intro p hp _
    rw [advance_currentTime, advance_lifeTime]
    exact ⟨by linarith [hp.1, kDeltaTime_pos], hp.2⟩
  have hnew : ∀ (g : σ) (origin : Vector3),
      0 ≤ (MakeNewParticle D g origin).1.currentTime ∧ 1 ≤ (MakeNewParticle D g origin).1.lifeTime := by
    intro g origin
    have h := MakeNewParticle_fresh D hD g origin
    exact ⟨by rw [h.1.2.2.2], h.2.2.2.2.1⟩
  have hinv := frames_invariant T D (fun p => 0 ≤ p.currentTime ∧ 1 ≤ p.lifeTime) hadv hnew uis s
    (fun p hp => ⟨by rw [(hs p hp).1], (hs p hp).2.1⟩)
  have hinv2 := (frame_invariant T D (fun p => 0 ≤ p.currentTime ∧ 1 ≤ p.lifeTime) hadv hnew ui
    (frames T D uis s) hinv).1
  obtain ⟨p, hp, ha, hw⟩ := frame_written_slot T D ui (frames T D uis s) i hi
  rw [hw]
  exact fadeAlpha_bounds _ _ (hinv2 p hp).1 (hinv2 p hp).2 ha

/-- Witness for C11: the frame after 60 idle frames from the program's initial
scene, slot `0`. -/
theorem frame_written_alpha_bounds_witness :
    fixedSource.InRange
    ∧ (∀ p ∈ (initialScene fixedSource 0).Particles,
        p.currentTime = 0 ∧ 1 ≤ p.lifeTime ∧ p.lifeTime ≤ 3)
    ∧ (∀ i, i < (frame sampleTrig fixedSource idleInput
          (frames sampleTrig fixedSource (List.replicate 60 idleInput)
            (initialScene fixedSource 0))).numInstance →
        -(1 / 60) < ((frame sampleTrig fixedSource idleInput
          (frames sampleTrig fixedSource (List.replicate 60 idleInput)
            (initialScene fixedSource 0))).instancingData i).color.w
        ∧ ((frame sampleTrig fixedSource idleInput
          (frames sampleTrig fixedSource (List.replicate 60 idleInput)
            (initialScene fixedSource 0))).instancingData i).color.w ≤ 1) :=
  ⟨fixedSource_InRange, initialScene_fresh fixedSource fixedSource_InRange 0,
    frame_written_alpha_bounds sampleTrig fixedSource fixedSource_InRange
      (List.replicate 60 idleInput) idleInput (initialScene fixedSource 0)
      (initialScene_fresh fixedSource fixedSource_InRange 0)⟩

/-- C12: for each slot that the particle loop of a frame writes (slot `i` for
the `i`-th particle that passes the expiry check, `i < 100`), `world` is the
particle's world matrix (its affine matrix, multiplied by the billboard
matrix when billboarding is on), `WVP` is `world * view * projection` with
`view` the inverse of the camera's affine matrix and `projection` the
perspective matrix of `0.45, 1280/720, 0.1, 100`, in either grouping, and the
colour has the particle's red, green and blue; `Multiply` is associative. -/
theorem particlePass_slot_world_WVP_color {σ : Type} (T : Trig) (s : Scene σ) :
    (∀ i p, (survivors s.Particles)[i]? = some p → i < 100 →
      ((particlePass T s).instancingData i).world
          = worldMatrixpori T s.useBillboard
              (billboardMatrixOf T (MakeAffineMatrix T s.cameratransform.scale
                s.cameratransform.rotate s.cameratransform.translate)) p
      ∧ (s.useBillboard = false →
          ((particlePass T s).instancingData i).world
            = MakeAffineMatrix T p.transform.scale p.transform.rotate p.transform.translate)
      ∧ (s.useBillboard = true →
          ((particlePass T s).instancingData i).world
            = Multiply
                (MakeAffineMatrix T p.transform.scale p.transform.rotate p.transform.translate)
                (billboardMatrixOf T (MakeAffineMatrix T s.cameratransform.scale
                  s.cameratransform.rotate s.cameratransform.translate)))
      ∧ ((particlePass T s).instancingData i).WVP
          = Multiply
              (Multiply ((particlePass T s).instancingData i).world
                (Inverse (MakeAffineMatrix T s.cameratransform.scale
                  s.cameratransform.rotate s.cameratransform.translate)))
              (MakePrespectiveFovMatrix T (45 / 100) (1280 / 720) (1 / 10) 100)
      ∧ ((particlePass T s).instancingData i).WVP
          = Multiply ((particlePass T s).instancingData i).world
              (Multiply
                (Inverse (MakeAffineMatrix T s.cameratransform.scale
                  s.cameratransform.rotate s.cameratransform.translate))
                (MakePrespectiveFovMatrix T (45 / 100) (1280 / 720) (1 / 10) 100))
      ∧ ((particlePass T s).instancingData i).color.x = p.color.x
      ∧ ((particlePass T s).instancingData i).color.y = p.color.y
      ∧ ((particlePass T s).instancingData i).color.z = p.color.z)
    ∧ ∀ a b c : Matrix4x4, Multiply a (Multiply b c) = Multiply (Multiply a b) c := by
  refine ⟨fun i p hp hi => ?_, Multiply_assoc⟩
  have hw : (particlePass T s).instancingData i
      = slotRecord T s.useBillboard
          (billboardMatrixOf T (MakeAffineMatrix T s.cameratransform.scale
            s.cameratransform.rotate s.cameratransform.translate))
          (Inverse (MakeAffineMatrix T s.cameratransform.scale
            s.cameratransform.rotate s.cameratransform.translate)) p := by
    simp only [particlePass]
    exact particleLoop_instancingData_written _ _ _ _ _ _ 0 i p (Nat.zero_le _)
      (by simpa [kNumMaxInstance] using hi) (by simpa using hp)
  have hproj : kWindowWidth / kWindowHeight = 1280 / 720 := rfl
  rw [hw]
  refine ⟨rfl, fun hb => ?_, fun hb => ?_, ?_, ?_, rfl, rfl, rfl⟩
  · simp [slotRecord, worldMatrixpori, hb]
  · simp [slotRecord, worldMatrixpori, hb]
  · rw [← Multiply_assoc]
    simp only [slotRecord, hproj]
  · simp only [slotRecord, hproj]

/-- C14: after the particle loop of a frame every slot with index from
`numInstance` on holds the record it held before the loop; a slot whose
record differs has an index below `numInstance`, and `numInstance` is at
most `100`. The same holds of the whole frame. -/
theorem particlePass_slots_from_numInstance_unchanged {σ : Type} (T : Trig)
    (D : UniformReal σ) (ui : UiInput) (s : Scene σ) :
    (∀ i, (particlePass T s).numInstance ≤ i →
      (particlePass T s).instancingData i = s.instancingData i)
    ∧ (∀ i, (particlePass T s).instancingData i ≠ s.instancingData i →
      i < (particlePass T s).numInstance)
    ∧ (particlePass T s).numInstance ≤ 100
    ∧ (∀ i, (frame T D ui s).numInstance ≤ i →
      (frame T D ui s).instancingData i = s.instancingData i) := by
  have h1 : ∀ (t : Scene σ) (i : Nat), (particlePass T t).numInstance ≤ i →
      (particlePass T t).instancingData i = t.instancingData i := by
    intro t i hi
    simp only [particlePass] at hi ⊢
    exact particleLoop_instancingData_outside _ _ _ _ _ _ 0 i (Or.inr hi)
  refine ⟨h1 s, fun i hne => ?_, ?_, fun i hi => ?_⟩
  · by_contra hlt
    exact hne (h1 s i (not_lt.mp hlt))
  · simp only [particlePass, particleLoop_numInstance, kNumMaxInstance]
    omega
  · rw [frame, (emitterTick_instancingData D kDeltaTime _).1] at *
    rw [(emitterTick_instancingData D kDeltaTime _).2] at hi
    rw [h1 _ i hi, uiPass_instancingData]

/-- C15: for a lifetime `L > 0` the fade factor `1 - e / L` of line 2178 is
strictly decreasing in the elapsed time `e` on `[0, L]`, is `1` at `e = 0`
and `0` at `e = L`; it is the alpha that the loop stores in a slot. -/
theorem fadeAlpha_strictly_decreasing (L : ℚ) (hL : 0 < L) :
    (∀ e1 e2 : ℚ, 0 ≤ e1 → e1 < e2 → e2 ≤ L → fadeAlpha e2 L < fadeAlpha e1 L)
    ∧ fadeAlpha 0 L = 1
    ∧ fadeAlpha L L = 0
    ∧ (∀ e : ℚ, fadeAlpha e L = 1 - e / L)
    ∧ (∀ (T : Trig) (useBillboard : Bool) (billboardMatrix viewMatrix : Matrix4x4)
        (p : Particle),
        (slotRecord T useBillboard billboardMatrix viewMatrix p).color.w
          = fadeAlpha (advance p).currentTime (advance p).lifeTime) := by
  refine ⟨fun e1 e2 _ h12 _ => ?_, by simp [fadeAlpha], ?_, fun e => rfl,
    fun T ub B V p => rfl⟩
  · simp only [fadeAlpha]
    have : e1 / L < e2 / L := div_lt_div_of_pos_right h12 hL
    linarith
  · simp only [fadeAlpha]
    rw [div_self hL.ne']
    norm_num

/-- Witness for C15: the lifetime `2`. -/
theorem fadeAlpha_strictly_decreasing_witness :
    (0 : ℚ) < 2
    ∧ ((∀ e1 e2 : ℚ, 0 ≤ e1 → e1 < e2 → e2 ≤ 2 → fadeAlpha e2 2 < fadeAlpha e1 2)
      ∧ fadeAlpha 0 2 = 1
      ∧ fadeAlpha 2 2 = 0
      ∧ (∀ e : ℚ, fadeAlpha e 2 = 1 - e / 2)
      ∧ (∀ (T : Trig) (useBillboard : Bool) (billboardMatrix viewMatrix : Matrix4x4)
          (p : Particle),
          (slotRecord T useBillboard billboardMatrix viewMatrix p).color.w
            = fadeAlpha (advance p).currentTime (advance p).lifeTime)) :=
  ⟨by norm_num, fadeAlpha_strictly_decreasing 2 (by norm_num)⟩

/-! ## Claims about the manual spawn -/

theorem uiPass_emitter_count {σ : Type} (D : UniformReal σ) (ui : UiInput) (s : Scene σ) :
    (uiPass D ui s).emitter.count = s.emitter.count
      ∧ (uiPass D ui s).emitter.frequency = s.emitter.frequency
      ∧ (uiPass D ui s).emitter.ferquencyTime = s.emitter.ferquencyTime := by
  cases h1 : ui.addParticleEmit <;> cases h2 : ui.addParticleThree <;>
    simp [uiPass, uiAddParticleEmit, uiAddParticleThree, h1, h2]

theorem emitterTick_emitter_count {σ : Type} (D : UniformReal σ) (deltaTime : ℚ) (s : Scene σ) :
    (emitterTick D deltaTime s).emitter.count = s.emitter.count
      ∧ (emitterTick D deltaTime s).emitter.frequency = s.emitter.frequency
      ∧ (emitterTick D deltaTime s).emitter.transform = s.emitter.transform := by
  simp only [emitterTick]
  split <;> exact ⟨rfl, rfl, rfl⟩

theorem frame_emitter_count {σ : Type} (T : Trig) (D : UniformReal σ) (ui : UiInput)
    (s : Scene σ) : (frame T D ui s).emitter.count = s.emitter.count := by
  rw [frame, (emitterTick_emitter_count D kDeltaTime _).1]
  exact (uiPass_emitter_count D ui s).1

theorem frames_emitter_count {σ : Type} (T : Trig) (D : UniformReal σ) (uis : List UiInput)
    (s : Scene σ) : (frames T D uis s).emitter.count = s.emitter.count := by
  induction uis generalizing s with
  | nil => rfl
  | cons ui rest ih => rw [frames, ih, frame_emitter_count]

theorem MakeNewParticle_currentTime {σ : Type} (D : UniformReal σ) (g : σ) (origin : Vector3) :
    (MakeNewParticle D g origin).1.currentTime = 0 := rfl

/-- C18: the first "add particle" button appends the `emitter.count` particles
of `Emit`, each with elapsed time `0`, at the end of the live list; the
second one appends three new particles with elapsed time `0`, which is
`emitter.count` because the count is `3` from the start and no frame changes
it. Either way the particles already in the list keep their values and
positions, and the emitter, so its `ferquencyTime`, is unchanged. -/
theorem manual_spawn_appends_count_particles {σ : Type} (D : UniformReal σ) (s : Scene σ) :
    ((uiAddParticleEmit D s).Particles = s.Particles ++ (Emit D s.emitter s.randomEngine).1
      ∧ (Emit D s.emitter s.randomEngine).1.length = s.emitter.count
      ∧ (∀ p ∈ (Emit D s.emitter s.randomEngine).1, p.currentTime = 0)
      ∧ (∀ i, i < s.Particles.length → (uiAddParticleEmit D s).Particles[i]? = s.Particles[i]?)
      ∧ (uiAddParticleEmit D s).emitter = s.emitter)
    ∧ (∃ new : List Particle,
        (uiAddParticleThree D s).Particles = s.Particles ++ new
        ∧ new.length = 3
        ∧ (s.emitter.count = 3 → new.length = s.emitter.count)
        ∧ (∀ p ∈ new, p.currentTime = 0)
        ∧ (∀ i, i < s.Particles.length →
            (uiAddParticleThree D s).Particles[i]? = s.Particles[i]?)
        ∧ (uiAddParticleThree D s).emitter = s.emitter)
    ∧ initialEmitter.count = 3
    ∧ (∀ (T : Trig) (uis : List UiInput), (frames T D uis s).emitter.count = s.emitter.count) := by
  refine ⟨⟨rfl, Emit_length D _ _, fun p hp => ?_, fun i hi => ?_, rfl⟩,
    ⟨_, rfl, rfl, fun h => h.symm, fun p hp => ?_, fun i hi => ?_, rfl⟩, rfl,
    fun T uis => frames_emitter_count T D uis s⟩
  · obtain ⟨g', rfl⟩ := mem_emitLoop D _ _ _ p hp
    rfl
  · simp only [uiAddParticleEmit]
    exact List.getElem?_append_left hi
  · simp only [List.mem_cons, List.mem_singleton, List.not_mem_nil, or_false] at hp
    rcases hp with rfl | rfl | rfl <;> rfl
  · simp only [uiAddParticleThree]
    exact List.getElem?_append_left hi


/-! ## Claims about the pipeline and the command list -/

/-- C19: in a frame, `CreateGraphicsPipelineState` is called (the object
pipeline state is rebuilt) exactly when the blend mode selected in the combo
box differs from the mode before the edit; the rebuilt pipeline state has the
blend descriptor `CreateBlendDesc` of the new mode, and when the mode is
unchanged the pipeline state object is the one it was. -/
theorem blendPass_rebuilds_iff_mode_changed (selected : BlendMode) (s : PipelineScene) :
    (∀ (succeeded : Bool) (s' : PipelineScene), blendPass selected succeeded s = some s' →
      (s'.createCalls = s.createCalls + 1 ↔ selected ≠ s.blendMode)
      ∧ (selected ≠ s.blendMode →
          s'.graphicsPipelineState.desc.BlendState = CreateBlendDesc selected)
      ∧ (selected = s.blendMode →
          s'.graphicsPipelineState = s.graphicsPipelineState ∧ s'.createCalls = s.createCalls)
      ∧ s'.blendMode = selected)
    ∧ (selected = s.blendMode → ∀ succeeded : Bool,
        blendPass selected succeeded s
          = some { s with blendMode := selected, prevMode := s.blendMode })
    ∧ (selected ≠ s.blendMode →
        (∃ s', blendPass selected true s = some s'
          ∧ s'.graphicsPipelineState.desc.BlendState = CreateBlendDesc selected
          ∧ s'.createCalls = s.createCalls + 1)
        ∧ blendPass selected false s = none) := by
  refine ⟨fun succeeded s' h => ?_, fun h succeeded => ?_, fun h => ⟨?_, ?_⟩⟩
  · by_cases hm : selected = s.blendMode
    · simp only [blendPass, hm, ne_eq, not_true_eq_false, if_false, Option.some.injEq] at h
      subst h
      simp [hm]
    · cases succeeded
      · simp [blendPass, hm, CreateGraphicsPipelineState] at h
      · simp only [blendPass, ne_eq, hm, not_false_eq_true, if_true, CreateGraphicsPipelineState,
          Option.some.injEq] at h
        subst h
        simp [hm]
  · simp [blendPass, h]
  · refine ⟨{ blendMode := selected
              prevMode := selected
              graphicsPipelineState :=
          ⟨{ pRootSignature := StartupObject.rootSignature
             InputLayout := StartupObject.inputLayoutDesc
             VS := StartupObject.vertexShaderBlob
             PS := StartupObject.pixeShaderBlob
             BlendState := CreateBlendDesc selected
             RasterizerState := StartupObject.rasterizerDesc
             DepthStencilState := StartupObject.depthStencilDesc
             NumRenderTargets := 1
             SampleDescCount := 1 }⟩
              createCalls := s.createCalls + 1 }, ?_, rfl, rfl⟩
    simp [blendPass, h, CreateGraphicsPipelineState]
  · simp [blendPass, h, CreateGraphicsPipelineState]

theorem recordCommands_draws (backBufferIndex : Nat) (useMonsterBall : Bool)
    (pipelineState : ID3D12PipelineState) :
    (∀ c ∈ recordCommands backBufferIndex useMonsterBall pipelineState,
      ∀ v n x y : Nat, c ≠ Command.DrawInstanced v n x y)
    ∧ (recordCommands backBufferIndex useMonsterBall pipelineState).filter Command.isDraw
        = [Command.DrawIndexedInstanced 1536 1 0 0 0]
    ∧ Command.SetPipelineState ParticlegraphicsPipelineState
        ∈ recordCommands backBufferIndex useMonsterBall pipelineState
    ∧ Command.SetGraphicsRootDescriptorTable 1 StartupObject.instancingSrvHandleGPU6
        ∈ recordCommands backBufferIndex useMonsterBall pipelineState := by
  refine ⟨?_, ?_, ?_, ?_⟩
  · intro c hc v n x y
    simp only [recordCommands, List.mem_cons, List.mem_singleton, List.not_mem_nil,
      or_false] at hc
    rcases hc with h | h | h | h | h | h | h | h | h | h | h | h | h | h | h | h | h | h | h | h
      | h | h | h | h | h | h | h | h | h | h | h | h <;> rw [h] <;> exact Command.noConfusion
  · simp [recordCommands, Command.isDraw, List.filter, spherindexNum, kSubdivision]
  · simp [recordCommands]
  · simp [recordCommands]

theorem renderFrame_some {σ : Type} (T : Trig) (D : UniformReal σ) (input : FrameInput)
    (a a' : App σ) (cmds : List Command) (h : renderFrame T D input a = some (a', cmds)) :
    a'.scene = frame T D input.ui a.scene
    ∧ ∃ pipeline, blendPass input.selectedMode input.pipelineCreated a.pipeline = some pipeline
      ∧ a'.pipeline = pipeline
      ∧ cmds = recordCommands input.backBufferIndex input.useMonsterBall
          pipeline.graphicsPipelineState := by
  simp only [renderFrame] at h
  cases hb : blendPass input.selectedMode input.pipelineCreated a.pipeline with
  | none => simp [hb] at h
  | some pipeline =>
    simp only [hb, Option.some.injEq, Prod.mk.injEq] at h
    obtain ⟨h1, h2⟩ := h
    subst h1
    exact ⟨rfl, pipeline, rfl, rfl, h2.symm⟩

theorem frame_numInstance {σ : Type} (T : Trig) (D : UniformReal σ) (ui : UiInput)
    (s : Scene σ) :
    (frame T D ui s).numInstance = min (survivors (uiPass D ui s).Particles).length 100 := by
  rw [frame, (emitterTick_instancingData D kDeltaTime _).2]
  simp only [particlePass, particleLoop_numInstance, kNumMaxInstance]
  omega

theorem uiPass_idleInput_Particles {σ : Type} (D : UniformReal σ) (s : Scene σ) :
    (uiPass D idleInput s).Particles = s.Particles := by
  simp [uiPass, idleInput]

/-- C13 (as stated, refuted): the first frame from the program's initial state
writes three slots (`numInstance = 3`), and the command list it records holds
no `DrawInstanced` call at all, so none with instance count `3`. -/
theorem first_frame_records_no_particle_draw :
    ∃ a' cmds, renderFrame sampleTrig fixedSource idleFrameInput (initialApp fixedSource 0)
        = some (a', cmds)
      ∧ a'.scene.numInstance = 3
      ∧ (∀ c ∈ cmds, ∀ v n x y : Nat, c ≠ Command.DrawInstanced v n x y)
      ∧ cmds.filter Command.isDraw = [Command.DrawIndexedInstanced 1536 1 0 0 0] := by
  refine ⟨_, _, rfl, ?_, (recordCommands_draws _ _ _).1, (recordCommands_draws _ _ _).2.1⟩
  show (frame sampleTrig fixedSource idleInput (initialScene fixedSource 0)).numInstance = 3
  rw [frame_numInstance, uiPass_idleInput_Particles,
    survivors_of_all_alive _ (fun p hp => by
      have h := initialScene_fresh fixedSource fixedSource_InRange 0 p hp
      rw [h.1]
      linarith [h.2.1])]
  rfl

/-- C13 (amended): in every rendered frame the recorded command list binds the
particle root signature, pipeline state, vertex buffer and instancing
descriptor table but holds no `DrawInstanced` call: the only draw call of the
program in it is the sphere's `DrawIndexedInstanced` with 1536 indices and
instance count `1` (the draws of the debug UI apart). The written count
`numInstance`, the minimum of the number of alive particles and `100`, is
passed to no draw call. -/
theorem renderFrame_records_no_particle_draw {σ : Type} (T : Trig) (D : UniformReal σ)
    (input : FrameInput) (a a' : App σ) (cmds : List Command)
    (h : renderFrame T D input a = some (a', cmds)) :
    (∀ c ∈ cmds, ∀ v n x y : Nat, c ≠ Command.DrawInstanced v n x y)
    ∧ cmds.filter Command.isDraw = [Command.DrawIndexedInstanced 1536 1 0 0 0]
    ∧ Command.SetPipelineState ParticlegraphicsPipelineState ∈ cmds
    ∧ Command.SetGraphicsRootDescriptorTable 1 StartupObject.instancingSrvHandleGPU6 ∈ cmds
    ∧ a'.scene.numInstance
        = min ((uiPass D input.ui a.scene).Particles.countP
            (fun p => decide (p.currentTime < p.lifeTime))) 100 := by
  obtain ⟨hscene, pipeline, _, _, hcmds⟩ := renderFrame_some T D input a a' cmds h
  have hd := recordCommands_draws input.backBufferIndex input.useMonsterBall
    pipeline.graphicsPipelineState
  rw [hcmds, hscene, frame_numInstance]
  refine ⟨hd.1, hd.2.1, hd.2.2.1, hd.2.2.2, ?_⟩
  simp [survivors, List.countP_eq_length_filter]

/-- Witness for C13: the first frame from the program's initial state. -/
theorem renderFrame_records_no_particle_draw_witness :
    renderFrame sampleTrig fixedSource idleFrameInput (initialApp fixedSource 0)
      = some
          ({ scene := frame sampleTrig fixedSource idleInput (initialScene fixedSource 0)
             pipeline := initialPipelineScene
             useMonsterBall := true },
            recordCommands 0 true initialGraphicsPipelineState)
    ∧ ((∀ c ∈ recordCommands 0 true initialGraphicsPipelineState,
          ∀ v n x y : Nat, c ≠ Command.DrawInstanced v n x y)
      ∧ (recordCommands 0 true initialGraphicsPipelineState).filter Command.isDraw
          = [Command.DrawIndexedInstanced 1536 1 0 0 0]
      ∧ Command.SetPipelineState ParticlegraphicsPipelineState
          ∈ recordCommands 0 true initialGraphicsPipelineState
      ∧ Command.SetGraphicsRootDescriptorTable 1 StartupObject.instancingSrvHandleGPU6
          ∈ recordCommands 0 true initialGraphicsPipelineState
      ∧ (frame sampleTrig fixedSource idleInput (initialScene fixedSource 0)).numInstance
          = min ((uiPass fixedSource idleInput (initialScene fixedSource 0)).Particles.countP
              (fun p => decide (p.currentTime < p.lifeTime))) 100) :=
  ⟨rfl, renderFrame_records_no_particle_draw sampleTrig fixedSource idleFrameInput
    (initialApp fixedSource 0) _ _ rfl⟩


/-! ## Claims about the fence -/

theorem FenceInv_initial : FenceInv 0 initialFenceState := by
  simp [FenceInv, initialFenceState]

theorem FenceInv_step (n : Nat) (hn : n + 1 < 2 ^ 64) (who : Actor) (s s' : FenceState)
    (hs : FenceInv n s) (h : fenceStep who s = some s') : FenceInv (n + 1) s' := by
  obtain ⟨h1, h2, h3, h5, h4⟩ := hs
  cases who with
  | cpuStep =>
    simp only [fenceStep, cpuStep] at h
    cases hc : s.cpu with
    | frameStart =>
      simp only [hc, Option.some.injEq] at h
      obtain ⟨hq, hcomp⟩ := h3 (Or.inl hc)
      subst h
      simp only [FenceInv, hq, List.nil_append]
      refine ⟨by omega, h2, ?_, ?_, ?_⟩
      · intro hh
        rcases hh with hh | hh <;> simp at hh
      · intro _
        exact ⟨Or.inl (by first | rfl | trivial), hcomp⟩
      · intro hh
        rcases hh with hh | hh <;> simp at hh
    | afterExecute =>
      simp only [hc, Option.some.injEq] at h
      obtain ⟨hq, hcomp⟩ := h5 hc
      have hmod : (s.fenceValue + 1) % 2 ^ 64 = s.fenceValue + 1 :=
        Nat.mod_eq_of_lt (by omega)
      subst h
      simp only [FenceInv, hmod]
      refine ⟨by omega, by omega, ?_, ?_, ?_⟩
      · intro hh
        rcases hh with hh | hh <;> simp at hh
      · intro hh
        simp at hh
      · intro _
        rcases hq with hq | hq
        · exact Or.inl ⟨by simp [hq], by omega⟩
        · exact Or.inr (Or.inl ⟨by simp [hq], by omega⟩)
    | afterSignal =>
      simp only [hc] at h
      have h4' := h4 (Or.inl hc)
      by_cases hlt : s.completed < s.fenceValue
      · simp only [hlt, if_true, Option.some.injEq] at h
        subst h
        refine ⟨by simp; omega, h2, ?_, ?_, ?_⟩
        · intro hh
          rcases hh with hh | hh <;> simp at hh
        · intro hh
          simp at hh
        · intro _
          exact h4'
      · simp only [hlt, if_false, Option.some.injEq] at h
        subst h
        refine ⟨by simp; omega, h2, ?_, ?_, ?_⟩
        · intro _
          rcases h4' with ⟨_, hh⟩ | ⟨_, hh⟩ | hh
          · exact absurd (show s.completed < s.fenceValue by omega) hlt
          · exact absurd (show s.completed < s.fenceValue by omega) hlt
          · exact hh
        · intro hh
          simp at hh
        · intro hh
          rcases hh with hh | hh <;> simp at hh
    | waiting =>
      simp only [hc] at h
      have h4' := h4 (Or.inr hc)
      by_cases hle : s.fenceValue ≤ s.completed
      · simp only [hle, if_true, Option.some.injEq] at h
        subst h
        refine ⟨by simp; omega, h2, ?_, ?_, ?_⟩
        · intro _
          rcases h4' with ⟨_, hh⟩ | ⟨_, hh⟩ | hh
          · exact absurd hle (by omega)
          · exact absurd hle (by omega)
          · exact hh
        · intro hh
          simp at hh
        · intro hh
          rcases hh with hh | hh <;> simp at hh
      · simp [hle] at h
    | beforeReset =>
      simp only [hc, Option.some.injEq] at h
      have h3' := h3 (Or.inr hc)
      subst h
      refine ⟨by simp; omega, h2, ?_, ?_, ?_⟩
      · intro _
        exact h3'
      · intro hh
        simp at hh
      · intro hh
        rcases hh with hh | hh <;> simp at hh
  | gpuStep =>
    simp only [fenceStep, gpuStep] at h
    cases hc : s.cpu with
    | frameStart =>
      rw [(h3 (Or.inl hc)).1] at h
      simp at h
    | beforeReset =>
      rw [(h3 (Or.inr hc)).1] at h
      simp at h
    | afterExecute =>
      obtain ⟨hq, hcomp⟩ := h5 hc
      rcases hq with hq | hq
      · rw [hq] at h
        simp only [Option.some.injEq] at h
        subst h
        refine ⟨by simp; omega, h2, ?_, ?_, ?_⟩
        · intro hx
          rcases hx with hx | hx <;> simp [hc] at hx
        · intro _
          exact ⟨Or.inr rfl, hcomp⟩
        · intro hx
          rcases hx with hx | hx <;> simp [hc] at hx
      · rw [hq] at h
        simp at h
    | afterSignal =>
      rcases h4 (Or.inl hc) with ⟨hq, hh⟩ | ⟨hq, hh⟩ | ⟨hq, hh⟩
      · rw [hq] at h
        simp only [Option.some.injEq] at h
        subst h
        refine ⟨by simp; omega, h2, ?_, ?_, ?_⟩
        · intro hx
          rcases hx with hx | hx <;> simp [hc] at hx
        · intro hx
          simp [hc] at hx
        · intro _
          exact Or.inr (Or.inl ⟨rfl, hh⟩)
      · rw [hq] at h
        simp only [Option.some.injEq] at h
        subst h
        refine ⟨by simp; omega, h2, ?_, ?_, ?_⟩
        · intro hx
          rcases hx with hx | hx <;> simp [hc] at hx
        · intro hx
          simp [hc] at hx
        · intro _
          exact Or.inr (Or.inr ⟨rfl, rfl⟩)
      · rw [hq] at h
        simp at h
    | waiting =>
      rcases h4 (Or.inr hc) with ⟨hq, hh⟩ | ⟨hq, hh⟩ | ⟨hq, hh⟩
      · rw [hq] at h
        simp only [Option.some.injEq] at h
        subst h
        refine ⟨by simp; omega, h2, ?_, ?_, ?_⟩
        · intro hx
          rcases hx with hx | hx <;> simp [hc] at hx
        · intro hx
          simp [hc] at hx
        · intro _
          exact Or.inr (Or.inl ⟨rfl, hh⟩)
      · rw [hq] at h
        simp only [Option.some.injEq] at h
        subst h
        refine ⟨by simp; omega, h2, ?_, ?_, ?_⟩
        · intro hx
          rcases hx with hx | hx <;> simp [hc] at hx
        · intro hx
          simp [hc] at hx
        · intro _
          exact Or.inr (Or.inr ⟨rfl, rfl⟩)
      · rw [hq] at h
        simp at h

theorem FenceInv_run (schedule : List Actor) (n : Nat) (s s' : FenceState)
    (hn : n + schedule.length < 2 ^ 64) (hs : FenceInv n s)
    (h : fenceRun schedule s = some s') : FenceInv (n + schedule.length) s' := by
  induction schedule generalizing n s with
  | nil =>
    simp only [fenceRun, Option.some.injEq] at h
    subst h
    simpa using hs
  | cons who rest ih =>
    simp only [fenceRun] at h
    cases hstep : fenceStep who s with
    | none => simp [hstep] at h
    | some s1 =>
      simp only [hstep] at h
      simp only [List.length_cons] at hn ⊢
      have h1 := FenceInv_step n (by omega) who s s1 hs hstep
      have := ih (n + 1) s1 (by omega) h1 h
      rwa [show n + (rest.length + 1) = n + 1 + rest.length by omega]

theorem fenceStep_fenceValue (who : Actor) (s s' : FenceState) (hbound : s.fenceValue + 1 < 2 ^ 64)
    (h : fenceStep who s = some s') :
    ((who = Actor.cpuStep ∧ s.cpu = CpuPoint.afterExecute) →
      s'.fenceValue = s.fenceValue + 1 ∧ s'.frames = s.frames + 1)
    ∧ (¬ (who = Actor.cpuStep ∧ s.cpu = CpuPoint.afterExecute) →
      s'.fenceValue = s.fenceValue ∧ s'.frames = s.frames) := by
  have hmod : (s.fenceValue + 1) % 2 ^ 64 = s.fenceValue + 1 := Nat.mod_eq_of_lt hbound
  cases who with
  | cpuStep =>
    simp only [fenceStep, cpuStep] at h
    cases hc : s.cpu with
    | frameStart =>
      simp only [hc, Option.some.injEq] at h
      subst h
      simp [hc]
    | afterExecute =>
      simp only [hc, Option.some.injEq] at h
      subst h
      exact ⟨fun _ => ⟨hmod, rfl⟩, fun hx => absurd ⟨rfl, rfl⟩ hx⟩
    | afterSignal =>
      simp only [hc] at h
      split at h <;> (simp only [Option.some.injEq] at h; subst h; simp [hc])
    | waiting =>
      simp only [hc] at h
      split at h
      · simp only [Option.some.injEq] at h
        subst h
        simp [hc]
      · simp at h
    | beforeReset =>
      simp only [hc, Option.some.injEq] at h
      subst h
      simp [hc]
  | gpuStep =>
    simp only [fenceStep, gpuStep] at h
    split at h
    · simp at h
    · simp only [Option.some.injEq] at h
      subst h
      simp
    · simp only [Option.some.injEq] at h
      subst h
      simp

/-- C16: in every run of the step model of the frame loop (CPU steps and GPU
completions in any order, fewer than `2^64` steps), when the CPU is about to
reset the command allocator and the command list the fence's completed value
has reached the value signalled for the frame and the GPU has nothing left in
the queue; while the completed value is below the signalled one the CPU is
after the signal or blocked in the wait, and blocked it cannot step. -/
theorem fence_completed_before_reset (schedule : List Actor) (s : FenceState)
    (hlen : schedule.length < 2 ^ 64) (h : fenceRun schedule initialFenceState = some s) :
    (s.cpu = CpuPoint.beforeReset → s.fenceValue ≤ s.completed ∧ s.queue = [])
    ∧ (s.completed < s.fenceValue →
        (s.cpu = CpuPoint.afterSignal ∨ s.cpu = CpuPoint.waiting) ∧ s.cpu ≠ CpuPoint.beforeReset)
    ∧ (s.cpu = CpuPoint.waiting → s.completed < s.fenceValue → fenceStep Actor.cpuStep s = none)
    ∧ (s.cpu = CpuPoint.afterSignal → s.completed < s.fenceValue →
        fenceStep Actor.cpuStep s = some { s with cpu := CpuPoint.waiting })
    ∧ s.fenceValue = s.frames := by
  have hinv := FenceInv_run schedule 0 initialFenceState s (by simpa using hlen)
    FenceInv_initial h
  obtain ⟨_, h2, h3, h5, h4⟩ := hinv
  refine ⟨fun hc => ?_, fun hlt => ?_, fun hc hlt => ?_, fun hc hlt => ?_, h2.symm⟩
  · have := h3 (Or.inr hc)
    exact ⟨by omega, this.1⟩
  · cases hc : s.cpu with
    | frameStart => have := h3 (Or.inl hc); omega
    | beforeReset => have := h3 (Or.inr hc); omega
    | afterExecute => have := h5 hc; omega
    | afterSignal => simp
    | waiting => simp
  · simp [fenceStep, cpuStep, hc, not_le.mpr hlt]
  · simp [fenceStep, cpuStep, hc, hlt]

/-- Witness for C16: one frame in which the GPU finishes before the CPU tests
the fence; without GPU steps the fourth CPU step is blocked. -/
theorem fence_completed_before_reset_witness :
    [Actor.cpuStep, Actor.gpuStep, Actor.cpuStep, Actor.gpuStep, Actor.cpuStep].length < 2 ^ 64
    ∧ fenceRun [Actor.cpuStep, Actor.gpuStep, Actor.cpuStep, Actor.gpuStep, Actor.cpuStep]
        initialFenceState = some fenceBeforeFirstReset
    ∧ fenceRun [Actor.cpuStep, Actor.cpuStep, Actor.cpuStep, Actor.cpuStep] initialFenceState
        = none
    ∧ ((fenceBeforeFirstReset.cpu = CpuPoint.beforeReset →
          fenceBeforeFirstReset.fenceValue
            ≤ fenceBeforeFirstReset.completed
          ∧ fenceBeforeFirstReset.queue = [])
      ∧ (fenceBeforeFirstReset.completed
          < fenceBeforeFirstReset.fenceValue →
          (fenceBeforeFirstReset.cpu = CpuPoint.afterSignal
            ∨ fenceBeforeFirstReset.cpu = CpuPoint.waiting)
          ∧ fenceBeforeFirstReset.cpu ≠ CpuPoint.beforeReset)
      ∧ (fenceBeforeFirstReset.cpu = CpuPoint.waiting →
          fenceBeforeFirstReset.completed
            < fenceBeforeFirstReset.fenceValue →
          fenceStep Actor.cpuStep fenceBeforeFirstReset = none)
      ∧ (fenceBeforeFirstReset.cpu = CpuPoint.afterSignal →
          fenceBeforeFirstReset.completed
            < fenceBeforeFirstReset.fenceValue →
          fenceStep Actor.cpuStep fenceBeforeFirstReset
            = some { fenceBeforeFirstReset with
                cpu := CpuPoint.waiting })
      ∧ fenceBeforeFirstReset.fenceValue
          = fenceBeforeFirstReset.frames) :=
  ⟨by decide, by decide, by decide,
    fence_completed_before_reset
      [Actor.cpuStep, Actor.gpuStep, Actor.cpuStep, Actor.gpuStep, Actor.cpuStep]
      fenceBeforeFirstReset (by decide) (by decide)⟩

/-- C17: the CPU's fence value starts at `0` like the completed value; in every
run of the step model shorter than `2^64` steps it equals the number of
rendered frames, is at most one ahead of the completed value and never behind
it, and equals it at the start of each frame; a step that submits a frame
raises it by exactly `1` (the CPU step of lines 2301-2303) and no other step
changes it. -/
theorem fence_counter_invariant (schedule : List Actor) (who : Actor) (s s' : FenceState)
    (hlen : schedule.length + 1 < 2 ^ 64) (h : fenceRun schedule initialFenceState = some s)
    (hstep : fenceStep who s = some s') :
    (initialFenceState.fenceValue = 0 ∧ initialFenceState.completed = 0)
    ∧ (s.completed ≤ s.fenceValue ∧ s.fenceValue ≤ s.completed + 1)
    ∧ (s'.completed ≤ s'.fenceValue ∧ s'.fenceValue ≤ s'.completed + 1)
    ∧ (s.cpu = CpuPoint.frameStart → s.fenceValue = s.completed)
    ∧ s.fenceValue = s.frames
    ∧ s.fenceValue ≤ s'.fenceValue
    ∧ ((who = Actor.cpuStep ∧ s.cpu = CpuPoint.afterExecute) →
        s'.fenceValue = s.fenceValue + 1 ∧ s'.frames = s.frames + 1)
    ∧ (¬ (who = Actor.cpuStep ∧ s.cpu = CpuPoint.afterExecute) →
        s'.fenceValue = s.fenceValue ∧ s'.frames = s.frames) := by
  have hinv := FenceInv_run schedule 0 initialFenceState s (by omega) FenceInv_initial h
  have hinv' := FenceInv_step (0 + schedule.length) (by omega) who s s' hinv hstep
  have hgap : ∀ (n : Nat) (t : FenceState), FenceInv n t →
      t.completed ≤ t.fenceValue ∧ t.fenceValue ≤ t.completed + 1 := by
    intro n t ⟨_, _, h3, h5, h4⟩
    cases hc : t.cpu with
    | frameStart => have := h3 (Or.inl hc); omega
    | beforeReset => have := h3 (Or.inr hc); omega
    | afterExecute => have := h5 hc; omega
    | afterSignal => rcases h4 (Or.inl hc) with ⟨_, hh⟩ | ⟨_, hh⟩ | ⟨_, hh⟩ <;> omega
    | waiting => rcases h4 (Or.inr hc) with ⟨_, hh⟩ | ⟨_, hh⟩ | ⟨_, hh⟩ <;> omega
  have hb : s.fenceValue + 1 < 2 ^ 64 := by
    have := hinv.1
    omega
  have hfv := fenceStep_fenceValue who s s' hb hstep
  refine ⟨⟨rfl, rfl⟩, hgap _ s hinv, hgap _ s' hinv', fun hc => ?_, hinv.2.1.symm, ?_, hfv.1,
    hfv.2⟩
  · exact (hinv.2.2.1 (Or.inl hc)).2.symm
  · by_cases hx : who = Actor.cpuStep ∧ s.cpu = CpuPoint.afterExecute
    · have := (hfv.1 hx).1
      omega
    · have := (hfv.2 hx).1
      omega

/-- Witness for C17: the step that signals the second frame, after a first
frame in which the CPU had to wait for the GPU. -/
theorem fence_counter_invariant_witness :
    [Actor.cpuStep, Actor.cpuStep, Actor.cpuStep, Actor.gpuStep, Actor.gpuStep, Actor.cpuStep,
        Actor.cpuStep, Actor.cpuStep].length + 1 < 2 ^ 64
    ∧ fenceRun [Actor.cpuStep, Actor.cpuStep, Actor.cpuStep, Actor.gpuStep, Actor.gpuStep,
        Actor.cpuStep, Actor.cpuStep, Actor.cpuStep] initialFenceState
        = some fenceSecondFrameExecuted
    ∧ fenceStep Actor.cpuStep fenceSecondFrameExecuted = some fenceSecondFrameSignalled
    ∧ fenceSecondFrameSignalled.fenceValue = fenceSecondFrameExecuted.fenceValue + 1
    ∧ (fenceSecondFrameExecuted.completed ≤ fenceSecondFrameExecuted.fenceValue
      ∧ fenceSecondFrameExecuted.fenceValue ≤ fenceSecondFrameExecuted.completed + 1)
    ∧ (fenceSecondFrameSignalled.completed ≤ fenceSecondFrameSignalled.fenceValue
      ∧ fenceSecondFrameSignalled.fenceValue ≤ fenceSecondFrameSignalled.completed + 1) :=
  ⟨by decide, by decide, by decide,
    ((fence_counter_invariant
      [Actor.cpuStep, Actor.cpuStep, Actor.cpuStep, Actor.gpuStep, Actor.gpuStep, Actor.cpuStep,
        Actor.cpuStep, Actor.cpuStep]
      Actor.cpuStep fenceSecondFrameExecuted fenceSecondFrameSignalled
      (by decide) (by decide) (by decide)).2.2.2.2.2.2.1 ⟨rfl, rfl⟩).1,
    (fence_counter_invariant
      [Actor.cpuStep, Actor.cpuStep, Actor.cpuStep, Actor.gpuStep, Actor.gpuStep, Actor.cpuStep,
        Actor.cpuStep, Actor.cpuStep]
      Actor.cpuStep fenceSecondFrameExecuted fenceSecondFrameSignalled
      (by decide) (by decide) (by decide)).2.1,
    (fence_counter_invariant
      [Actor.cpuStep, Actor.cpuStep, Actor.cpuStep, Actor.gpuStep, Actor.gpuStep, Actor.cpuStep,
        Actor.cpuStep, Actor.cpuStep]
      Actor.cpuStep fenceSecondFrameExecuted fenceSecondFrameSignalled
      (by decide) (by decide) (by decide)).2.2.1⟩


/-! ## Claims about the OBJ loader -/

theorem positionsOf_append (a b : List ObjLine) :
    positionsOf (a ++ b) = positionsOf a ++ positionsOf b := by
  induction a with
  | nil => rfl
  | cons l a ih => cases l <;> simp [positionsOf, ih]

theorem texcoordsOf_append (a b : List ObjLine) :
    texcoordsOf (a ++ b) = texcoordsOf a ++ texcoordsOf b := by
  induction a with
  | nil => rfl
  | cons l a ih => cases l <;> simp [texcoordsOf, ih]

theorem normalsOf_append (a b : List ObjLine) :
    normalsOf (a ++ b) = normalsOf a ++ normalsOf b := by
  induction a with
  | nil => rfl
  | cons l a ih => cases l <;> simp [normalsOf, ih]

theorem positionsOf_w (lines : List ObjLine) : ∀ p ∈ positionsOf lines, p.w = 1 := by
  induction lines with
  | nil => simp [positionsOf]
  | cons l rest ih =>
    cases l <;> simp only [positionsOf, List.mem_cons] <;> intro p hp
    · rcases hp with rfl | hp
      · rfl
      · exact ih p hp
    all_goals exact ih p hp

theorem elementIndex_of_pos (i : Int) (h1 : 1 ≤ i) (h2 : i < 2 ^ 31) :
    elementIndex i = (i - 1).toNat := by
  have h32 : (2 : Int) ^ 32 = 4294967296 := by norm_num
  have h31 : (2 : Int) ^ 31 = 2147483648 := by norm_num
  rw [h31] at h2
  simp only [elementIndex, h32]
  congr 1
  omega

theorem getElem?_of_index {α : Type} (xs : List α) (d : α) (i : Int) (h1 : 1 ≤ i)
    (h2 : i ≤ xs.length) : xs[(i - 1).toNat]? = some (xs.getD (i - 1).toNat d) := by
  have hlt : (i - 1).toNat < xs.length := by omega
  rw [List.getD_eq_getElem?_getD, List.getElem?_eq_getElem hlt]
  rfl

theorem faceVertex_of_InRange (st : ObjState) (before : List ObjLine) (d : VertexDefinition)
    (hp : st.positions = positionsOf before) (ht : st.texcoords = texcoordsOf before)
    (hn : st.normals = normalsOf before) (h : d.InRange before) :
    faceVertex st d = some (referredVertex before d)
      ∧ (referredVertex before d).position.w = 1 := by
  obtain ⟨⟨a1, a2, a3⟩, ⟨b1, b2, b3⟩, ⟨c1, c2, c3⟩⟩ := h
  have e1 := getElem?_of_index (positionsOf before) ⟨0, 0, 0, 0⟩ d.positionIndex a1 a2
  have e2 := getElem?_of_index (texcoordsOf before) ⟨0, 0⟩ d.texcoordIndex b1 b2
  have e3 := getElem?_of_index (normalsOf before) ⟨0, 0, 0⟩ d.normalIndex c1 c2
  constructor
  · simp only [faceVertex, hp, ht, hn, elementIndex_of_pos _ a1 a3, elementIndex_of_pos _ b1 b3,
      elementIndex_of_pos _ c1 c3, e1, e2, e3]
    rfl
  · have hmem : (positionsOf before).getD (d.positionIndex - 1).toNat ⟨0, 0, 0, 0⟩
        ∈ positionsOf before := by
      exact List.getElem?_mem e1
    exact positionsOf_w before _ hmem

theorem MaterialFilesOpen_cons (files : String → Option (List MtlLine)) (directoryPath : String)
    (line : ObjLine) (rest : List ObjLine)
    (h : MaterialFilesOpen files directoryPath (line :: rest)) :
    MaterialFilesOpen files directoryPath rest :=
  fun name hname => h name (List.mem_cons_of_mem _ hname)

theorem MaterialFilesOpen_append (files : String → Option (List MtlLine))
    (directoryPath : String) (xs ys : List ObjLine)
    (h : MaterialFilesOpen files directoryPath (xs ++ ys)) :
    MaterialFilesOpen files directoryPath xs ∧ MaterialFilesOpen files directoryPath ys :=
  ⟨fun name hname => h name (List.mem_append_left _ hname),
    fun name hname => h name (List.mem_append_right _ hname)⟩

/-- The loop of `LoadObjFile` on lines whose faces are in range and whose
material files can be opened: it does not fail, it appends the referred
vertices, and it keeps the three vectors equal to what the lines read so far
define. -/
theorem loadObjLines_of_FacesInRange (files : String → Option (List MtlLine))
    (directoryPath : String) (lines before : List ObjLine) (st : ObjState)
    (hp : st.positions = positionsOf before) (ht : st.texcoords = texcoordsOf before)
    (hn : st.normals = normalsOf before) (h : FacesInRange before lines)
    (hm : MaterialFilesOpen files directoryPath lines) :
    ∃ st', loadObjLines files directoryPath st lines = some st'
      ∧ st'.modelData.vertices = st.modelData.vertices ++ referredVertices before lines
      ∧ (∀ v ∈ referredVertices before lines, v.position.w = 1)
      ∧ (referredVertices before lines).length = 3 * lines.countP ObjLine.isFace := by
  induction lines generalizing before st with
  | nil => exact ⟨st, rfl, by simp [referredVertices], by simp [referredVertices], by simp [referredVertices]⟩
  | cons l rest ih =>
    have hm' := MaterialFilesOpen_cons files directoryPath l rest hm
    cases l with
    | v x y z =>
      simp only [FacesInRange] at h
      obtain ⟨st', h1, h2, h3, h4⟩ := ih (before ++ [ObjLine.v x y z])
        { st with positions := st.positions ++ [⟨x, y, z, 1⟩] }
        (by simp [positionsOf_append, positionsOf, hp])
        (by simp [texcoordsOf_append, texcoordsOf, ht])
        (by simp [normalsOf_append, normalsOf, hn]) h hm'
      exact ⟨st', by simpa [loadObjLines, loadObjLine] using h1,
        by simpa [referredVertices] using h2, by simpa [referredVertices] using h3,
        by simpa [referredVertices, ObjLine.isFace] using h4⟩
    | vt x y =>
      simp only [FacesInRange] at h
      obtain ⟨st', h1, h2, h3, h4⟩ := ih (before ++ [ObjLine.vt x y])
        { st with texcoords := st.texcoords ++ [⟨x, y⟩] }
        (by simp [positionsOf_append, positionsOf, hp])
        (by simp [texcoordsOf_append, texcoordsOf, ht])
        (by simp [normalsOf_append, normalsOf, hn]) h hm'
      exact ⟨st', by simpa [loadObjLines, loadObjLine] using h1,
        by simpa [referredVertices] using h2, by simpa [referredVertices] using h3,
        by simpa [referredVertices, ObjLine.isFace] using h4⟩
    | vn x y z =>
      simp only [FacesInRange] at h
      obtain ⟨st', h1, h2, h3, h4⟩ := ih (before ++ [ObjLine.vn x y z])
        { st with normals := st.normals ++ [⟨x, y, z⟩] }
        (by simp [positionsOf_append, positionsOf, hp])
        (by simp [texcoordsOf_append, texcoordsOf, ht])
        (by simp [normalsOf_append, normalsOf, hn]) h hm'
      exact ⟨st', by simpa [loadObjLines, loadObjLine] using h1,
        by simpa [referredVertices] using h2, by simpa [referredVertices] using h3,
        by simpa [referredVertices, ObjLine.isFace] using h4⟩
    | f d0 d1 d2 =>
      simp only [FacesInRange] at h
      obtain ⟨⟨r0, r1, r2⟩, hrest⟩ := h
      have f0 := faceVertex_of_InRange st before d0 hp ht hn r0
      have f1 := faceVertex_of_InRange st before d1 hp ht hn r1
      have f2 := faceVertex_of_InRange st before d2 hp ht hn r2
      obtain ⟨st', h1, h2, h3, h4⟩ := ih (before ++ [ObjLine.f d0 d1 d2])
        { st with
          modelData :=
            { st.modelData with
              vertices := st.modelData.vertices
                ++ [referredVertex before d2, referredVertex before d1,
                    referredVertex before d0] } }
        (by simp [positionsOf_append, positionsOf, hp])
        (by simp [texcoordsOf_append, texcoordsOf, ht])
        (by simp [normalsOf_append, normalsOf, hn]) hrest hm'
      refine ⟨st', ?_, ?_, ?_, ?_⟩
      · simp only [loadObjLines, loadObjLine, f0.1, f1.1, f2.1]
        exact h1
      · simpa [referredVertices, List.append_assoc] using h2
      · intro v hv
        simp only [referredVertices, List.mem_append, List.mem_cons, List.mem_singleton,
          List.not_mem_nil, or_false] at hv
        rcases hv with (rfl | rfl | rfl) | hv
        · exact f2.2
        · exact f1.2
        · exact f0.2
        · exact h3 v hv
      · simp only [referredVertices, List.length_append, List.length_cons, List.length_nil, h4,
          List.countP_cons, ObjLine.isFace]
        simp
        ring
    | mtllib name =>
      simp only [FacesInRange] at h
      have hopen := hm name (List.mem_cons_self _ _)
      obtain ⟨materialLines, hfile⟩ := Option.isSome_iff_exists.mp hopen
      obtain ⟨st', h1, h2, h3, h4⟩ := ih (before ++ [ObjLine.mtllib name])
        { st with
          modelData :=
            { st.modelData with
              material :=
                loadMaterialLines directoryPath { textureFilePath := "" } materialLines } }
        (by simp [positionsOf_append, positionsOf, hp])
        (by simp [texcoordsOf_append, texcoordsOf, ht])
        (by simp [normalsOf_append, normalsOf, hn]) h hm'
      exact ⟨st', by simpa [loadObjLines, loadObjLine, LoadMaterialTemplateFile, hfile] using h1,
        by simpa [referredVertices] using h2, by simpa [referredVertices] using h3,
        by simpa [referredVertices, ObjLine.isFace] using h4⟩
    | other =>
      simp only [FacesInRange] at h
      obtain ⟨st', h1, h2, h3, h4⟩ := ih (before ++ [ObjLine.other]) st
        (by simp [positionsOf_append, positionsOf, hp])
        (by simp [texcoordsOf_append, texcoordsOf, ht])
        (by simp [normalsOf_append, normalsOf, hn]) h hm'
      exact ⟨st', by simpa [loadObjLines, loadObjLine] using h1,
        by simpa [referredVertices] using h2, by simpa [referredVertices] using h3,
        by simpa [referredVertices, ObjLine.isFace] using h4⟩

/-- On a file whose faces are in range and whose material files can be
opened, `LoadObjFile` returns the referred vertices of the file. -/
theorem LoadObjFile_eq_referredVertices (files : String → Option (List MtlLine))
    (directoryPath : String) (lines : List ObjLine) (h : FacesInRange [] lines)
    (hm : MaterialFilesOpen files directoryPath lines) :
    ∃ modelData, LoadObjFile files directoryPath lines = some modelData
      ∧ modelData.vertices = referredVertices [] lines
      ∧ modelData.vertices.length = 3 * lines.countP ObjLine.isFace
      ∧ (∀ v ∈ modelData.vertices, v.position.w = 1) := by
  obtain ⟨st', h1, h2, h3, h4⟩ := loadObjLines_of_FacesInRange files directoryPath lines []
    { modelData := { vertices := [], material := { textureFilePath := "" } }
      positions := []
      normals := []
      texcoords := [] } rfl rfl rfl h hm
  simp only [List.nil_append] at h2
  refine ⟨st'.modelData, by simp [LoadObjFile, h1], h2, by rw [h2, h4], ?_⟩
  rw [h2]
  exact h3

/-- A `mtllib` line that names a file that cannot be opened ends the load
with the failed assertion of line 536: there is no result. -/
theorem LoadObjFile_material_file_not_open :
    FacesInRange [] sampleObjWithMaterial
      ∧ LoadObjFile noFiles "resources" sampleObjWithMaterial = none
      ∧ LoadObjFile sampleFiles "resources" sampleObjWithMaterial
          = some
              { vertices :=
                  [⟨⟨1, 2, 3, 1⟩, ⟨0, 1⟩, ⟨0, 0, 1⟩⟩, ⟨⟨1, 2, 3, 1⟩, ⟨0, 1⟩, ⟨0, 0, 1⟩⟩,
                    ⟨⟨1, 2, 3, 1⟩, ⟨0, 1⟩, ⟨0, 0, 1⟩⟩]
                material := { textureFilePath := "resources/uvChecker.png" } } := by
  refine ⟨?_, ?_, ?_⟩
  · simp [FacesInRange, sampleObjWithMaterial, sampleObj, VertexDefinition.InRange, positionsOf,
      texcoordsOf, normalsOf]
  · simp [LoadObjFile, loadObjLines, loadObjLine, sampleObjWithMaterial, LoadMaterialTemplateFile,
      noFiles]
  · simp [LoadObjFile, loadObjLines, loadObjLine, sampleObjWithMaterial, sampleObj,
      LoadMaterialTemplateFile, sampleFiles, loadMaterialLines, faceVertex, elementIndex]

/-- C20 (as stated, refuted): an OBJ file with one `v`, one `vt 0 0`, one `vn`
and a face `1/1/1 1/1/1 1/1/1`; every returned vertex has texture coordinate
`(0, 1)`, while the `vt` line its definition refers to gives `(0, 0)`. -/
theorem LoadObjFile_texcoord_not_the_referred_one :
    sampleObj.countP ObjLine.isFace = 1
    ∧ FacesInRange [] sampleObj
    ∧ texcoordsOf sampleObj = [⟨0, 0⟩]
    ∧ LoadObjFile noFiles "resources" sampleObj
        = some
            { vertices :=
                [⟨⟨1, 2, 3, 1⟩, ⟨0, 1⟩, ⟨0, 0, 1⟩⟩, ⟨⟨1, 2, 3, 1⟩, ⟨0, 1⟩, ⟨0, 0, 1⟩⟩,
                  ⟨⟨1, 2, 3, 1⟩, ⟨0, 1⟩, ⟨0, 0, 1⟩⟩]
              material := { textureFilePath := "" } }
    ∧ (⟨0, 1⟩ : Vector2) ≠ ⟨0, 0⟩ := by
  refine ⟨by decide, ?_, rfl, ?_, by decide⟩
  · simp [FacesInRange, sampleObj, VertexDefinition.InRange, positionsOf, texcoordsOf, normalsOf]
  · simp [LoadObjFile, loadObjLines, loadObjLine, sampleObj, faceVertex, elementIndex]

/-- C20 (amended): for every OBJ file in which each face line has three
`v/vt/vn` definitions whose 1-based indices refer to `v`, `vt` and `vn` lines
that precede the face line, and in which each `mtllib` line names a material
file that can be opened, `LoadObjFile` returns exactly `3 * F` vertices for
`F` face lines; each face line gives three vertices, for its third, second
and first definition in that order, each with the position (with `w = 1`)
and the normal its definition refers to and with the referred texture
coordinate whose `y` is replaced by `1 - y`. -/
theorem LoadObjFile_vertices_of_FacesInRange (files : String → Option (List MtlLine))
    (directoryPath : String) (lines : List ObjLine) (h : FacesInRange [] lines)
    (hm : MaterialFilesOpen files directoryPath lines) :
    ∃ modelData, LoadObjFile files directoryPath lines = some modelData
      ∧ modelData.vertices.length = 3 * lines.countP ObjLine.isFace
      ∧ modelData.vertices = referredVertices [] lines
      ∧ (∀ v ∈ modelData.vertices, v.position.w = 1) := by
  obtain ⟨modelData, h1, h2, h3, h4⟩ :=
    LoadObjFile_eq_referredVertices files directoryPath lines h hm
  exact ⟨modelData, h1, h3, h2, h4⟩

/-- Witness for C20: the file with a `mtllib` line and one face, with its
material file present. -/
theorem LoadObjFile_vertices_of_FacesInRange_witness :
    FacesInRange [] sampleObjWithMaterial
    ∧ MaterialFilesOpen sampleFiles "resources" sampleObjWithMaterial
    ∧ ∃ modelData, LoadObjFile sampleFiles "resources" sampleObjWithMaterial = some modelData
      ∧ modelData.vertices.length = 3 * sampleObjWithMaterial.countP ObjLine.isFace
      ∧ modelData.vertices = referredVertices [] sampleObjWithMaterial
      ∧ (∀ v ∈ modelData.vertices, v.position.w = 1) :=
  ⟨by simp [FacesInRange, sampleObjWithMaterial, sampleObj, VertexDefinition.InRange, positionsOf,
      texcoordsOf, normalsOf],
    by
      intro name hname
      simp [sampleObjWithMaterial, sampleObj] at hname
      subst hname
      simp [sampleFiles],
    LoadObjFile_vertices_of_FacesInRange sampleFiles "resources" sampleObjWithMaterial
      (by simp [FacesInRange, sampleObjWithMaterial, sampleObj, VertexDefinition.InRange,
        positionsOf, texcoordsOf, normalsOf])
      (by
        intro name hname
        simp [sampleObjWithMaterial, sampleObj] at hname
        subst hname
        simp [sampleFiles])⟩

/-! ## Claims about the face lines of an OBJ file -/

theorem referredVertices_append (before xs ys : List ObjLine) :
    referredVertices before (xs ++ ys)
      = referredVertices before xs ++ referredVertices (before ++ xs) ys := by
  induction xs generalizing before with
  | nil => simp [referredVertices]
  | cons l xs ih =>
    cases l <;>
      simp [referredVertices, ih, List.append_assoc]

theorem FacesInRange_append (before xs ys : List ObjLine) :
    FacesInRange before (xs ++ ys)
      ↔ FacesInRange before xs ∧ FacesInRange (before ++ xs) ys := by
  induction xs generalizing before with
  | nil => simp [FacesInRange]
  | cons l xs ih =>
    cases l <;>
      simp [FacesInRange, ih, List.append_assoc, and_assoc]

/-- The vertex that a definition in range refers to: its position, normal and
texture coordinate are those of the `v`, `vn` and `vt` lines that the
1-based indices name, the texture coordinate with `y` replaced by `1 - y`. -/
theorem referredVertex_of_InRange (before : List ObjLine) (d : VertexDefinition)
    (h : d.InRange before) :
    ∃ position texcoord normal,
      (positionsOf before)[(d.positionIndex - 1).toNat]? = some position
        ∧ (texcoordsOf before)[(d.texcoordIndex - 1).toNat]? = some texcoord
        ∧ (normalsOf before)[(d.normalIndex - 1).toNat]? = some normal
        ∧ (referredVertex before d).position = position
        ∧ (referredVertex before d).texcoord.x = texcoord.x
        ∧ (referredVertex before d).texcoord.y = 1 - texcoord.y
        ∧ (referredVertex before d).normal = normal := by
  obtain ⟨⟨a1, a2, _⟩, ⟨b1, b2, _⟩, ⟨c1, c2, _⟩⟩ := h
  exact ⟨_, _, _, getElem?_of_index (positionsOf before) ⟨0, 0, 0, 0⟩ d.positionIndex a1 a2,
    getElem?_of_index (texcoordsOf before) ⟨0, 0⟩ d.texcoordIndex b1 b2,
    getElem?_of_index (normalsOf before) ⟨0, 0, 0⟩ d.normalIndex c1 c2, rfl, rfl, rfl, rfl⟩

/-- C29: let an OBJ file consist of the lines `before`, a face line with the
vertex definitions `d0 d1 d2`, and the lines `after`, with every face in
range and every material file present.  `LoadObjFile` on the lines up to and
including the face line returns the vertices it returns on `before`
followed by the three vertices of the face in reversed order: the one for
`d2`, the one for `d1`, the one for `d0`; on the whole file it returns these
followed by the vertices of `after`.  The vertex for a definition has the
position and the normal of the `v` and `vn` lines of `before` that the
definition names, and the texture coordinate of the `vt` line of `before`
that it names with `x` as it is and `y` replaced by `1 - y`. -/
theorem LoadObjFile_face_line_reversed_and_flipped (files : String → Option (List MtlLine))
    (directoryPath : String) (before after : List ObjLine) (d0 d1 d2 : VertexDefinition)
    (h : FacesInRange [] (before ++ ObjLine.f d0 d1 d2 :: after))
    (hm : MaterialFilesOpen files directoryPath (before ++ ObjLine.f d0 d1 d2 :: after)) :
    ∃ (m m' m'' : ModelData),
      LoadObjFile files directoryPath before = some m
        ∧ LoadObjFile files directoryPath (before ++ [ObjLine.f d0 d1 d2]) = some m'
        ∧ LoadObjFile files directoryPath (before ++ ObjLine.f d0 d1 d2 :: after) = some m''
        ∧ m'.vertices
            = m.vertices
              ++ [referredVertex before d2, referredVertex before d1, referredVertex before d0]
        ∧ (∃ later, m''.vertices
              = m.vertices
                ++ [referredVertex before d2, referredVertex before d1, referredVertex before d0]
                ++ later
            ∧ later.length = 3 * after.countP ObjLine.isFace)
        ∧ (∀ d, (d = d0 ∨ d = d1 ∨ d = d2) →
            ∃ position texcoord normal,
              (positionsOf before)[(d.positionIndex - 1).toNat]? = some position
                ∧ (texcoordsOf before)[(d.texcoordIndex - 1).toNat]? = some texcoord
                ∧ (normalsOf before)[(d.normalIndex - 1).toNat]? = some normal
                ∧ (referredVertex before d).position = position
                ∧ (referredVertex before d).texcoord.x = texcoord.x
                ∧ (referredVertex before d).texcoord.y = 1 - texcoord.y
                ∧ (referredVertex before d).normal = normal) := by
  have hsplit : before ++ ObjLine.f d0 d1 d2 :: after
      = (before ++ [ObjLine.f d0 d1 d2]) ++ after := by simp
  have hr := (FacesInRange_append [] before (ObjLine.f d0 d1 d2 :: after)).mp h
  have hface : (d0.InRange before ∧ d1.InRange before ∧ d2.InRange before)
      ∧ FacesInRange (before ++ [ObjLine.f d0 d1 d2]) after := by
    simpa [FacesInRange] using hr.2
  have hr' : FacesInRange [] (before ++ [ObjLine.f d0 d1 d2]) := by
    rw [FacesInRange_append]
    exact ⟨hr.1, by simpa [FacesInRange] using hface.1⟩
  have hm1 := (MaterialFilesOpen_append files directoryPath before _ hm).1
  have hm2 : MaterialFilesOpen files directoryPath (before ++ [ObjLine.f d0 d1 d2]) := by
    rw [hsplit] at hm
    exact (MaterialFilesOpen_append files directoryPath _ after hm).1
  obtain ⟨m, e, v, _, _⟩ := LoadObjFile_eq_referredVertices files directoryPath before hr.1 hm1
  obtain ⟨m', e', v', _, _⟩ :=
    LoadObjFile_eq_referredVertices files directoryPath _ hr' hm2
  obtain ⟨m'', e'', v'', _, _⟩ :=
    LoadObjFile_eq_referredVertices files directoryPath _ h hm
  have hafter := loadObjLines_of_FacesInRange files directoryPath after
    (before ++ [ObjLine.f d0 d1 d2])
    { modelData := { vertices := [], material := { textureFilePath := "" } }
      positions := positionsOf (before ++ [ObjLine.f d0 d1 d2])
      normals := normalsOf (before ++ [ObjLine.f d0 d1 d2])
      texcoords := texcoordsOf (before ++ [ObjLine.f d0 d1 d2]) } rfl rfl rfl hface.2
    (MaterialFilesOpen_append files directoryPath _ after (hsplit ▸ hm)).2
  obtain ⟨_, _, _, _, hcount⟩ := hafter
  refine ⟨m, m', m'', e, e', e'', ?_, ⟨referredVertices (before ++ [ObjLine.f d0 d1 d2])
      after, ?_, hcount⟩, ?_⟩
  · rw [v', v, referredVertices_append]
    simp [referredVertices]
  · rw [v'', v, hsplit, referredVertices_append, referredVertices_append]
    simp [referredVertices]
  · intro d hd
    rcases hd with rfl | rfl | rfl
    · exact referredVertex_of_InRange before d hface.1.1
    · exact referredVertex_of_InRange before d hface.1.2.1
    · exact referredVertex_of_InRange before d hface.1.2.2

/-- Witness for C29: the file `sampleTriangleObj`, whose face
`f 1/1/1 2/2/2 3/3/3` follows three distinct positions, texture coordinates
and normals and is followed by one more line. -/
theorem LoadObjFile_face_line_reversed_and_flipped_witness :
    FacesInRange [] (sampleTriangleObj.take 9
        ++ ObjLine.f ⟨1, 1, 1⟩ ⟨2, 2, 2⟩ ⟨3, 3, 3⟩ :: sampleTriangleObj.drop 10)
      ∧ MaterialFilesOpen noFiles "resources" (sampleTriangleObj.take 9
        ++ ObjLine.f ⟨1, 1, 1⟩ ⟨2, 2, 2⟩ ⟨3, 3, 3⟩ :: sampleTriangleObj.drop 10)
      ∧ ∃ (m m' m'' : ModelData),
        LoadObjFile noFiles "resources" (sampleTriangleObj.take 9) = some m
          ∧ LoadObjFile noFiles "resources"
              (sampleTriangleObj.take 9 ++ [ObjLine.f ⟨1, 1, 1⟩ ⟨2, 2, 2⟩ ⟨3, 3, 3⟩]) = some m'
          ∧ LoadObjFile noFiles "resources" (sampleTriangleObj.take 9
              ++ ObjLine.f ⟨1, 1, 1⟩ ⟨2, 2, 2⟩ ⟨3, 3, 3⟩ :: sampleTriangleObj.drop 10) = some m''
          ∧ m'.vertices
              = m.vertices
                ++ [referredVertex (sampleTriangleObj.take 9) ⟨3, 3, 3⟩,
                    referredVertex (sampleTriangleObj.take 9) ⟨2, 2, 2⟩,
                    referredVertex (sampleTriangleObj.take 9) ⟨1, 1, 1⟩]
          ∧ (∃ later, m''.vertices
                = m.vertices
                  ++ [referredVertex (sampleTriangleObj.take 9) ⟨3, 3, 3⟩,
                      referredVertex (sampleTriangleObj.take 9) ⟨2, 2, 2⟩,
                      referredVertex (sampleTriangleObj.take 9) ⟨1, 1, 1⟩]
                  ++ later
              ∧ later.length = 3 * (sampleTriangleObj.drop 10).countP ObjLine.isFace)
          ∧ (∀ d : VertexDefinition, (d = ⟨1, 1, 1⟩ ∨ d = ⟨2, 2, 2⟩ ∨ d = ⟨3, 3, 3⟩) →
              ∃ position texcoord normal,
                (positionsOf (sampleTriangleObj.take 9))[(d.positionIndex - 1).toNat]?
                    = some position
                  ∧ (texcoordsOf (sampleTriangleObj.take 9))[(d.texcoordIndex - 1).toNat]?
                    = some texcoord
                  ∧ (normalsOf (sampleTriangleObj.take 9))[(d.normalIndex - 1).toNat]?
                    = some normal
                  ∧ (referredVertex (sampleTriangleObj.take 9) d).position = position
                  ∧ (referredVertex (sampleTriangleObj.take 9) d).texcoord.x = texcoord.x
                  ∧ (referredVertex (sampleTriangleObj.take 9) d).texcoord.y = 1 - texcoord.y
                  ∧ (referredVertex (sampleTriangleObj.take 9) d).normal = normal) :=
  ⟨by simp [FacesInRange, sampleTriangleObj, VertexDefinition.InRange, positionsOf, texcoordsOf,
      normalsOf],
    by
      intro name hname
      simp [sampleTriangleObj] at hname,
    LoadObjFile_face_line_reversed_and_flipped noFiles "resources" (sampleTriangleObj.take 9)
      (sampleTriangleObj.drop 10) ⟨1, 1, 1⟩ ⟨2, 2, 2⟩ ⟨3, 3, 3⟩
      (by simp [FacesInRange, sampleTriangleObj, VertexDefinition.InRange, positionsOf,
        texcoordsOf, normalsOf])
      (by
        intro name hname
        simp [sampleTriangleObj] at hname)⟩

/-- The vertices that `LoadObjFile` returns on `sampleTriangleObj`: the third,
the second and the first vertex of the face, each with `y` flipped. -/
theorem LoadObjFile_sampleTriangleObj :
    LoadObjFile noFiles "resources" sampleTriangleObj
      = some
          { vertices :=
              [⟨⟨0, 0, 1, 1⟩, ⟨1 / 4, 1 / 4⟩, ⟨0, 0, 1⟩⟩,
                ⟨⟨0, 1, 0, 1⟩, ⟨1 / 2, 3 / 4⟩, ⟨0, 1, 0⟩⟩,
                ⟨⟨1, 0, 0, 1⟩, ⟨1 / 4, 3 / 4⟩, ⟨1, 0, 0⟩⟩]
            material := { textureFilePath := "" } } := by
  have e : elementIndex 1 = 0 ∧ elementIndex 2 = 1 ∧ elementIndex 3 = 2 := by decide
  norm_num [LoadObjFile, loadObjLines, loadObjLine, sampleTriangleObj, faceVertex, e]


/-! ## Claims about the matrix helpers -/

/-- C22: for all scale, rotate and translate vectors `MakeAffineMatrix` equals
the product of the scale matrix, the rotation `X * (Y * Z)` and the
translation matrix, taken with `Multiply` in that order, and its last column
is `(0, 0, 0, 1)`. -/
theorem MakeAffineMatrix_eq_scale_rotate_translate (T : Trig)
    (scale rotate translate : Vector3) :
    MakeAffineMatrix T scale rotate translate
        = Multiply
            (Multiply (MakeScaleMatrix scale)
              (Multiply (MakeRotateXMatrix T rotate.x)
                (Multiply (MakeRotateYMatrix T rotate.y) (MakeRotateZMatrix T rotate.z))))
            (MakeTranslateMatrix translate)
      ∧ (MakeAffineMatrix T scale rotate translate).m03 = 0
      ∧ (MakeAffineMatrix T scale rotate translate).m13 = 0
      ∧ (MakeAffineMatrix T scale rotate translate).m23 = 0
      ∧ (MakeAffineMatrix T scale rotate translate).m33 = 1 := by
  refine ⟨?_, ?_, ?_, ?_, ?_⟩
  · simp only [MakeAffineMatrix, Multiply, MakeScaleMatrix, MakeRotateXMatrix, MakeRotateYMatrix,
      MakeRotateZMatrix, MakeTranslateMatrix, Matrix4x4.mk.injEq]
    refine ⟨?_, ?_, ?_, ?_, ?_, ?_, ?_, ?_, ?_, ?_, ?_, ?_, ?_, ?_, ?_, ?_⟩ <;> ring
  all_goals simp [MakeAffineMatrix]

theorem sum_div_right (a b c e A B C E d r : ℚ) (hd : d ≠ 0)
    (h : a * A + b * B + c * C + e * E = r * d) :
    a * (A / d) + b * (B / d) + c * (C / d) + e * (E / d) = r := by
  have : a * (A / d) + b * (B / d) + c * (C / d) + e * (E / d)
      = (a * A + b * B + c * C + e * E) / d := by ring
  rw [this, h, mul_div_assoc, div_self hd, mul_one]

theorem sum_div_left (a b c e A B C E d r : ℚ) (hd : d ≠ 0)
    (h : A * a + B * b + C * c + E * e = r * d) :
    A / d * a + B / d * b + C / d * c + E / d * e = r := by
  have : A / d * a + B / d * b + C / d * c + E / d * e
      = (A * a + B * b + C * c + E * e) / d := by ring
  rw [this, h, mul_div_assoc, div_self hd, mul_one]

theorem Multiply_Inverse (m : Matrix4x4) (h : determinant m ≠ 0) :
    Multiply m (Inverse m) = MakeIdentity4x4 := by
  simp only [Inverse, h, if_false, Multiply, MakeIdentity4x4, Matrix4x4.mk.injEq]
  refine ⟨?_, ?_, ?_, ?_, ?_, ?_, ?_, ?_, ?_, ?_, ?_, ?_, ?_, ?_, ?_, ?_⟩ <;>
    (refine sum_div_right _ _ _ _ _ _ _ _ _ _ h ?_; simp only [determinant]; ring)

theorem Inverse_Multiply (m : Matrix4x4) (h : determinant m ≠ 0) :
    Multiply (Inverse m) m = MakeIdentity4x4 := by
  simp only [Inverse, h, if_false, Multiply, MakeIdentity4x4, Matrix4x4.mk.injEq]
  refine ⟨?_, ?_, ?_, ?_, ?_, ?_, ?_, ?_, ?_, ?_, ?_, ?_, ?_, ?_, ?_, ?_⟩ <;>
    (refine sum_div_left _ _ _ _ _ _ _ _ _ _ h ?_; simp only [determinant]; ring)

theorem determinant_sampleMatrix : determinant sampleMatrix = 44 := by
  norm_num [determinant, sampleMatrix]

/-- C25: for every matrix `m` whose determinant, as `Inverse` computes it, is
not zero, `Multiply m (Inverse m)` and `Multiply (Inverse m) m` are both
`MakeIdentity4x4`. -/
theorem Inverse_two_sided (m : Matrix4x4) (h : determinant m ≠ 0) :
    Multiply m (Inverse m) = MakeIdentity4x4 ∧ Multiply (Inverse m) m = MakeIdentity4x4 :=
  ⟨Multiply_Inverse m h, Inverse_Multiply m h⟩

/-- Witness for C25: the matrix `sampleMatrix`, of determinant `44`. -/
theorem Inverse_two_sided_witness :
    determinant sampleMatrix ≠ 0
      ∧ Multiply sampleMatrix (Inverse sampleMatrix) = MakeIdentity4x4
      ∧ Multiply (Inverse sampleMatrix) sampleMatrix = MakeIdentity4x4 :=
  ⟨by rw [determinant_sampleMatrix]; norm_num,
    Inverse_two_sided sampleMatrix (by rw [determinant_sampleMatrix]; norm_num)⟩


/-! ## The emitter accumulator over frames -/

theorem particlePass_emitter {σ : Type} (T : Trig) (s : Scene σ) :
    (particlePass T s).emitter = s.emitter := rfl

theorem emitterTick_accumulator_bounds {σ : Type} (D : UniformReal σ) (deltaTime : ℚ)
    (s : Scene σ) (hd : 0 < deltaTime) (hf : deltaTime ≤ s.emitter.frequency)
    (h0 : 0 ≤ s.emitter.ferquencyTime) (h1 : s.emitter.ferquencyTime < s.emitter.frequency) :
    0 ≤ (emitterTick D deltaTime s).emitter.ferquencyTime
      ∧ (emitterTick D deltaTime s).emitter.ferquencyTime
          < (emitterTick D deltaTime s).emitter.frequency := by
  by_cases h : s.emitter.frequency ≤ s.emitter.ferquencyTime + deltaTime
  · rw [emitterTick_fire D deltaTime s h]
    simp only
    constructor <;> linarith
  · rw [emitterTick_quiet D deltaTime s h]
    simp only
    constructor <;> linarith

theorem frame_accumulator_bounds {σ : Type} (T : Trig) (D : UniformReal σ) (ui : UiInput)
    (s : Scene σ) (hf : s.emitter.frequency = 1 / 2)
    (h : 0 ≤ s.emitter.ferquencyTime ∧ s.emitter.ferquencyTime < s.emitter.frequency) :
    (frame T D ui s).emitter.frequency = 1 / 2
      ∧ 0 ≤ (frame T D ui s).emitter.ferquencyTime
      ∧ (frame T D ui s).emitter.ferquencyTime < (frame T D ui s).emitter.frequency := by
  have hu := uiPass_emitter_count D ui s
  have hfreq : (particlePass T (uiPass D ui s)).emitter.frequency = 1 / 2 := by
    rw [particlePass_emitter, hu.2.1, hf]
  have hacc : (particlePass T (uiPass D ui s)).emitter.ferquencyTime = s.emitter.ferquencyTime := by
    rw [particlePass_emitter, hu.2.2]
  refine ⟨?_, ?_⟩
  · rw [frame, (emitterTick_emitter_count D kDeltaTime _).2.1, hfreq]
  · refine emitterTick_accumulator_bounds D kDeltaTime _ kDeltaTime_pos ?_ ?_ ?_
    · rw [hfreq]; norm_num [kDeltaTime]
    · rw [hacc]; exact h.1
    · rw [hacc, hfreq, ← hf]; exact h.2

theorem frames_accumulator_bounds {σ : Type} (T : Trig) (D : UniformReal σ)
    (uis : List UiInput) (s : Scene σ) (hf : s.emitter.frequency = 1 / 2)
    (h : 0 ≤ s.emitter.ferquencyTime ∧ s.emitter.ferquencyTime < s.emitter.frequency) :
    (frames T D uis s).emitter.frequency = 1 / 2
      ∧ 0 ≤ (frames T D uis s).emitter.ferquencyTime
      ∧ (frames T D uis s).emitter.ferquencyTime < (frames T D uis s).emitter.frequency := by
  induction uis generalizing s with
  | nil => exact ⟨hf, h⟩
  | cons ui rest ih =>
    have hfr := frame_accumulator_bounds T D ui s hf h
    exact ih (frame T D ui s) hfr.1 hfr.2

/-- C24: when `0 < deltaTime ≤ frequency` and `0 ≤ ferquencyTime < frequency`
hold before the emitter tick, `0 ≤ ferquencyTime < frequency` holds after it,
and the tick emits at most once: the live list is left as it is or gets the
particles of one call of `Emit`.  With the program's step `1/60` and interval
`1/2` the bounds hold before and after the tick of every frame of every run
from the initial state. -/
theorem emitterTick_keeps_accumulator_below_frequency {σ : Type} (D : UniformReal σ)
    (deltaTime : ℚ) (s : Scene σ) (hd : 0 < deltaTime) (hf : deltaTime ≤ s.emitter.frequency)
    (h0 : 0 ≤ s.emitter.ferquencyTime) (h1 : s.emitter.ferquencyTime < s.emitter.frequency) :
    (0 ≤ (emitterTick D deltaTime s).emitter.ferquencyTime
      ∧ (emitterTick D deltaTime s).emitter.ferquencyTime
          < (emitterTick D deltaTime s).emitter.frequency)
    ∧ ((emitterTick D deltaTime s).Particles = s.Particles
        ∨ (emitterTick D deltaTime s).Particles
            = s.Particles ++ (Emit D s.emitter s.randomEngine).1)
    ∧ (∀ (T : Trig) (g : σ) (uis : List UiInput) (ui : UiInput),
        (0 < kDeltaTime
          ∧ kDeltaTime ≤ (particlePass T (uiPass D ui
              (frames T D uis (initialScene D g)))).emitter.frequency
          ∧ 0 ≤ (particlePass T (uiPass D ui
              (frames T D uis (initialScene D g)))).emitter.ferquencyTime
          ∧ (particlePass T (uiPass D ui
              (frames T D uis (initialScene D g)))).emitter.ferquencyTime
              < (particlePass T (uiPass D ui
                  (frames T D uis (initialScene D g)))).emitter.frequency)
        ∧ (frame T D ui (frames T D uis (initialScene D g))).emitter.frequency = 1 / 2
        ∧ 0 ≤ (frame T D ui (frames T D uis (initialScene D g))).emitter.ferquencyTime
        ∧ (frame T D ui (frames T D uis (initialScene D g))).emitter.ferquencyTime
            < (frame T D ui (frames T D uis (initialScene D g))).emitter.frequency) := by
  refine ⟨emitterTick_accumulator_bounds D deltaTime s hd hf h0 h1, ?_, ?_⟩
  · by_cases h : s.emitter.frequency ≤ s.emitter.ferquencyTime + deltaTime
    · exact Or.inr (by rw [emitterTick_fire D deltaTime s h])
    · exact Or.inl (by rw [emitterTick_quiet D deltaTime s h])
  · intro T g uis ui
    have hinit : (initialScene D g).emitter.frequency = 1 / 2 := rfl
    have hacc0 : 0 ≤ (initialScene D g).emitter.ferquencyTime
        ∧ (initialScene D g).emitter.ferquencyTime < (initialScene D g).emitter.frequency := by
      have : (initialScene D g).emitter.ferquencyTime = 0 := rfl
      rw [this, hinit]
      norm_num
    have hb := frames_accumulator_bounds T D uis (initialScene D g) hinit hacc0
    have hu := uiPass_emitter_count D ui (frames T D uis (initialScene D g))
    refine ⟨⟨kDeltaTime_pos, ?_, ?_, ?_⟩, frame_accumulator_bounds T D ui _ hb.1 hb.2⟩
    · rw [particlePass_emitter, hu.2.1, hb.1]; norm_num [kDeltaTime]
    · rw [particlePass_emitter, hu.2.2]; exact hb.2.1
    · rw [particlePass_emitter, hu.2.2, hu.2.1]; exact hb.2.2

/-- Witness for C24: the first tick of the program, from the initial scene. -/
theorem emitterTick_keeps_accumulator_below_frequency_witness :
    (0 : ℚ) < kDeltaTime
      ∧ kDeltaTime ≤ (initialScene fixedSource 0).emitter.frequency
      ∧ 0 ≤ (initialScene fixedSource 0).emitter.ferquencyTime
      ∧ (initialScene fixedSource 0).emitter.ferquencyTime
          < (initialScene fixedSource 0).emitter.frequency
      ∧ (0 ≤ (emitterTick fixedSource kDeltaTime
            (initialScene fixedSource 0)).emitter.ferquencyTime
          ∧ (emitterTick fixedSource kDeltaTime
              (initialScene fixedSource 0)).emitter.ferquencyTime
              < (emitterTick fixedSource kDeltaTime
                  (initialScene fixedSource 0)).emitter.frequency) :=
  ⟨kDeltaTime_pos, by norm_num [kDeltaTime, initialScene, initialEmitter],
    by norm_num [initialScene, initialEmitter], by norm_num [initialScene, initialEmitter],
    (emitterTick_keeps_accumulator_below_frequency fixedSource kDeltaTime
      (initialScene fixedSource 0) kDeltaTime_pos
      (by norm_num [kDeltaTime, initialScene, initialEmitter])
      (by norm_num [initialScene, initialEmitter])
      (by norm_num [initialScene, initialEmitter])).1⟩


/-! ## What a frame changes of a particle and of the emitter -/

theorem particlePass_Particles_get {σ : Type} (T : Trig) (s : Scene σ) (i : Nat) :
    (particlePass T s).Particles[i]?
      = ((survivors s.Particles)[i]?).map (fun p => if i < kNumMaxInstance then advance p else p) := by
  simp only [particlePass]
  exact particleLoop_Particles_get T _ _ _ _ _ i

theorem emitterTick_Particles_get {σ : Type} (D : UniformReal σ) (deltaTime : ℚ)
    (s : Scene σ) (i : Nat) (q : Particle) (h : s.Particles[i]? = some q) :
    (emitterTick D deltaTime s).Particles[i]? = some q := by
  obtain ⟨extra, he⟩ := emitterTick_Particles_front D deltaTime s
  rw [he]
  have hi : i < s.Particles.length := by
    by_contra hn
    rw [List.getElem?_eq_none (not_lt.mp hn)] at h
    exact Option.noConfusion h
  rw [List.getElem?_append_left hi]
  exact h

/-- C26: in a frame without billboarding, for each slot that the particle loop
writes (slot `i` for the `i`-th particle `p` that passes the expiry check,
`i < 100`), the translation row of the slot's world matrix is the translation
that `p` has before the velocity step of the frame; the particle stored at
position `i` of the list after the loop, and after the emitter tick, has the
slot's translation plus `velocity * kDeltaTime` and the elapsed time of `p`
plus `kDeltaTime`; and the slot's alpha is `1 - currentTime / lifeTime` of
that stored particle, the elapsed time after the increment. -/
theorem particlePass_slot_translation_before_step {σ : Type} (T : Trig) (D : UniformReal σ)
    (s : Scene σ) (i : Nat) (p : Particle) (hb : s.useBillboard = false)
    (hp : (survivors s.Particles)[i]? = some p) (hi : i < 100) :
    ((particlePass T s).instancingData i).world.m30 = p.transform.translate.x
      ∧ ((particlePass T s).instancingData i).world.m31 = p.transform.translate.y
      ∧ ((particlePass T s).instancingData i).world.m32 = p.transform.translate.z
      ∧ ∃ q, (particlePass T s).Particles[i]? = some q
        ∧ (emitterTick D kDeltaTime (particlePass T s)).Particles[i]? = some q
        ∧ q.transform.translate.x
            = ((particlePass T s).instancingData i).world.m30 + p.velocity.x * kDeltaTime
        ∧ q.transform.translate.y
            = ((particlePass T s).instancingData i).world.m31 + p.velocity.y * kDeltaTime
        ∧ q.transform.translate.z
            = ((particlePass T s).instancingData i).world.m32 + p.velocity.z * kDeltaTime
        ∧ q.velocity = p.velocity
        ∧ q.currentTime = p.currentTime + kDeltaTime
        ∧ q.lifeTime = p.lifeTime
        ∧ ((particlePass T s).instancingData i).color.w = 1 - q.currentTime / q.lifeTime := by
  have hw : (particlePass T s).instancingData i
      = slotRecord T s.useBillboard
          (billboardMatrixOf T (MakeAffineMatrix T s.cameratransform.scale
            s.cameratransform.rotate s.cameratransform.translate))
          (Inverse (MakeAffineMatrix T s.cameratransform.scale
            s.cameratransform.rotate s.cameratransform.translate)) p := by
    simp only [particlePass]
    exact particleLoop_instancingData_written _ _ _ _ _ _ 0 i p (Nat.zero_le _)
      (by simpa [kNumMaxInstance] using hi) (by simpa using hp)
  have hq : (particlePass T s).Particles[i]? = some (advance p) := by
    rw [particlePass_Particles_get, hp]
    simp [kNumMaxInstance, hi]
  have hworld : ((particlePass T s).instancingData i).world
      = MakeAffineMatrix T p.transform.scale p.transform.rotate p.transform.translate := by
    rw [hw]
    simp [slotRecord, worldMatrixpori, hb]
  refine ⟨?_, ?_, ?_, advance p, hq, emitterTick_Particles_get D kDeltaTime _ i _ hq,
    ?_, ?_, ?_, rfl, rfl, rfl, ?_⟩
  · rw [hworld]; rfl
  · rw [hworld]; rfl
  · rw [hworld]; rfl
  · rw [hworld]; rfl
  · rw [hworld]; rfl
  · rw [hworld]; rfl
  · rw [hw]; rfl

/-- Witness for C26: the first particle of the initial scene, slot `0`. -/
theorem particlePass_slot_translation_before_step_witness :
    (initialScene fixedSource 0).useBillboard = false
      ∧ (survivors (initialScene fixedSource 0).Particles)[0]?
          = some (MakeNewParticle fixedSource 0 initialEmitter.transform.translate).1
      ∧ 0 < 100
      ∧ ((particlePass sampleTrig (initialScene fixedSource 0)).instancingData 0).world.m30
          = (MakeNewParticle fixedSource 0
              initialEmitter.transform.translate).1.transform.translate.x :=
  ⟨rfl, by
      simp only [initialScene, survivors]
      rw [List.filter_cons_of_pos (by norm_num [MakeNewParticle, fixedSource])]
      exact List.getElem?_cons_zero,
    by decide,
    (particlePass_slot_translation_before_step sampleTrig fixedSource
      (initialScene fixedSource 0) 0
      (MakeNewParticle fixedSource 0 initialEmitter.transform.translate).1 rfl
      (by
        simp only [initialScene, survivors]
        rw [List.filter_cons_of_pos (by norm_num [MakeNewParticle, fixedSource])]
        exact List.getElem?_cons_zero)
      (by decide)).1⟩

/-- C27: the particle loop and the emitter tick of a frame keep, of each
particle that passes the expiry check, the velocity, the colour, the lifetime,
the scale and the rotation (the particle at position `i` of the list after
them is the `i`-th such particle with at most `transform.translate` and
`currentTime` changed), and keep the emitter's transform, count and
frequency. -/
theorem frame_changes_only_translate_and_times {σ : Type} (T : Trig) (D : UniformReal σ)
    (s : Scene σ) :
    (∀ (i : Nat) (p : Particle), (survivors s.Particles)[i]? = some p →
      ∃ q : Particle, (emitterTick D kDeltaTime (particlePass T s)).Particles[i]? = some q
        ∧ q.velocity = p.velocity
        ∧ q.color = p.color
        ∧ q.lifeTime = p.lifeTime
        ∧ q.transform.scale = p.transform.scale
        ∧ q.transform.rotate = p.transform.rotate
        ∧ q = { p with
                transform := { p.transform with translate := q.transform.translate }
                currentTime := q.currentTime })
    ∧ (emitterTick D kDeltaTime (particlePass T s)).emitter.transform = s.emitter.transform
    ∧ (emitterTick D kDeltaTime (particlePass T s)).emitter.count = s.emitter.count
    ∧ (emitterTick D kDeltaTime (particlePass T s)).emitter.frequency = s.emitter.frequency
    ∧ (emitterTick D kDeltaTime (particlePass T s)).emitter
        = { s.emitter with
            ferquencyTime :=
              (emitterTick D kDeltaTime (particlePass T s)).emitter.ferquencyTime } := by
  have he := emitterTick_emitter_count D kDeltaTime (particlePass T s)
  rw [particlePass_emitter] at he
  refine ⟨fun i p hp => ?_, he.2.2, he.1, he.2.1, ?_⟩
  · by_cases hi : i < kNumMaxInstance
    · have hq : (particlePass T s).Particles[i]? = some (advance p) := by
        rw [particlePass_Particles_get, hp]
        simp [hi]
      exact ⟨advance p, emitterTick_Particles_get D kDeltaTime _ i _ hq,
        rfl, rfl, rfl, rfl, rfl, rfl⟩
    · have hq : (particlePass T s).Particles[i]? = some p := by
        rw [particlePass_Particles_get, hp]
        simp [hi]
      exact ⟨p, emitterTick_Particles_get D kDeltaTime _ i _ hq, rfl, rfl, rfl, rfl, rfl, rfl⟩
  · simp only [emitterTick]
    split <;> rfl

/-! ## Claims about the sphere mesh -/

theorem range_flatMap_map (n m : Nat) :
    (List.range n).flatMap (fun i => (List.range m).map (fun j => i * m + j))
      = List.range (n * m) := by
  induction n with
  | zero => simp
  | succ n ih =>
    rw [List.range_succ, List.flatMap_append, List.flatMap_singleton, ih, Nat.succ_mul,
      List.range_add]

theorem range_flatMap_flatMap {α : Type} (n m : Nat) (g : Nat → List α) :
    (List.range n).flatMap (fun i => (List.range m).flatMap (fun j => g (i * m + j)))
      = (List.range (n * m)).flatMap g := by
  rw [← range_flatMap_map, List.flatMap_assoc]
  refine List.flatMap_congr fun i _ => ?_
  rw [List.flatMap_map]

theorem sphereIndexWrites_positions :
    sphereIndexWrites.map Prod.fst = List.range 1536 := by
  have h1 : sphereIndexWrites.map Prod.fst
      = (List.range 16).flatMap (fun lat => (List.range 16).flatMap (fun lon =>
          (List.range 6).map (fun k => (lat * 16 + lon) * 6 + k))) := by
    simp only [sphereIndexWrites, List.map_flatMap, kSubdivision]
    refine List.flatMap_congr fun lat hlat => ?_
    refine List.flatMap_congr fun lon hlon => ?_
    have hlat' : lat < 16 := List.mem_range.mp hlat
    have hlon' : lon < 16 := List.mem_range.mp hlon
    have hr : List.range 6 = [0, 1, 2, 3, 4, 5] := rfl
    rw [hr]
    simp only [List.map_cons, List.map_nil, List.cons.injEq, and_true]
    refine ⟨?_, ?_, ?_, ?_, ?_, ?_⟩ <;> omega
  rw [h1, range_flatMap_flatMap 16 16 (fun i => (List.range 6).map (fun k => i * 6 + k)),
    range_flatMap_map]

theorem sphereIndexWrites_values : ∀ w ∈ sphereIndexWrites, w.2 < 289 := by
  intro w hw
  simp only [sphereIndexWrites, kSubdivision, List.mem_flatMap, List.mem_range] at hw
  obtain ⟨lat, hlat, lon, hlon, hmem⟩ := hw
  simp only [List.mem_cons, List.mem_singleton, List.not_mem_nil, or_false] at hmem
  rcases hmem with h | h | h | h | h | h <;>
    (rw [h]; exact lt_of_le_of_lt (Nat.mod_le _ _) (by omega))

theorem sphereVertexWrites_positions (T : Trig) :
    (sphereVertexWrites T).map Prod.fst = List.range 289 := by
  have h1 : (sphereVertexWrites T).map Prod.fst
      = (List.range 17).flatMap (fun i => (List.range 17).map (fun j => i * 17 + j)) := by
    simp only [sphereVertexWrites, List.map_flatMap, List.map_map, kSubdivision]
    refine List.flatMap_congr fun latIndex hlat => ?_
    refine List.map_congr_left fun lonIndex hlon => ?_
    have hlat' : latIndex < 17 := List.mem_range.mp hlat
    have hlon' : lonIndex < 17 := List.mem_range.mp hlon
    simp only [Function.comp]
    omega
  rw [h1, range_flatMap_map]

/-- C28: with `kSubdivision = 16` the sphere has `289` vertices and `1536`
indices; every value that the index loop writes (`lb`, `lt`, `rt`, `rb`) is
below `289`; the positions `start + 0 .. start + 5` that the index loop writes
are, in the order of the loop, `0, 1, .., 1535`, so each of them is written
exactly once; and the positions `latIndex * 17 + lonIndex` that the vertex
loop writes are, in the order of the loop, `0, 1, .., 288`, so each of them
is written exactly once.  No `uint32_t` computation wraps. -/
theorem sphere_writes_in_bounds (T : Trig) :
    kSubdivision = 16 ∧ sphervertexNum = 289 ∧ spherindexNum = 1536
      ∧ (∀ w ∈ sphereIndexWrites, w.2 < sphervertexNum)
      ∧ sphereIndexWrites.map Prod.fst = List.range spherindexNum
      ∧ (∀ k, k < spherindexNum → (sphereIndexWrites.map Prod.fst).count k = 1)
      ∧ (∀ k, spherindexNum ≤ k → (sphereIndexWrites.map Prod.fst).count k = 0)
      ∧ (sphereVertexWrites T).map Prod.fst = List.range sphervertexNum
      ∧ (∀ k, k < sphervertexNum → ((sphereVertexWrites T).map Prod.fst).count k = 1)
      ∧ (∀ k, sphervertexNum ≤ k → ((sphereVertexWrites T).map Prod.fst).count k = 0) := by
  have hv : sphervertexNum = 289 := rfl
  have hi : spherindexNum = 1536 := rfl
  rw [hv, hi, sphereIndexWrites_positions, sphereVertexWrites_positions]
  refine ⟨rfl, rfl, rfl, sphereIndexWrites_values, rfl, fun k hk => ?_, fun k hk => ?_, rfl,
    fun k hk => ?_, fun k hk => ?_⟩
  · exact List.count_eq_one_of_mem (List.nodup_range _) (List.mem_range.mpr hk)
  · exact List.count_eq_zero_of_not_mem (fun h => absurd (List.mem_range.mp h) (by omega))
  · exact List.count_eq_one_of_mem (List.nodup_range _) (List.mem_range.mpr hk)
  · exact List.count_eq_zero_of_not_mem (fun h => absurd (List.mem_range.mp h) (by omega))


/-! ## Claims about `Normalize` -/

/-- `Normalize` gives a vector exactly when the length it divides by is not
zero; the vector is then the three quotients. -/
theorem Normalize_eq_some {K : Type} [Field K] [DecidableEq K] (sqrtf : K → K)
    (v : Vector3Of K) (h : sqrtf (lengthSquared v) ≠ 0) :
    Normalize sqrtf v
      = some ⟨v.x / sqrtf (lengthSquared v), v.y / sqrtf (lengthSquared v),
          v.z / sqrtf (lengthSquared v)⟩ := by
  have h' : sqrtf (v.x * v.x + v.y * v.y + v.z * v.z) ≠ 0 := h
  simp [Normalize, floatDiv, lengthSquared, h']

theorem Normalize_eq_none {K : Type} [Field K] [DecidableEq K] (sqrtf : K → K)
    (v : Vector3Of K) (h : sqrtf (lengthSquared v) = 0) : Normalize sqrtf v = none := by
  have h' : sqrtf (v.x * v.x + v.y * v.y + v.z * v.z) = 0 := h
  simp [Normalize, floatDiv, h']

theorem lengthSquared_nonneg (v : Vector3Of ℝ) : 0 ≤ lengthSquared v := by
  simp only [lengthSquared]
  nlinarith [mul_self_nonneg v.x, mul_self_nonneg v.y, mul_self_nonneg v.z]

/-- C30: in exact real arithmetic, with the real square root for `sqrtf`, for
every vector `v` whose Euclidean length is not zero `Normalize v` is a
vector `n` of Euclidean length `1` that is `v` multiplied by the positive
scalar `1 / length`.  The division by the length has no guard: `Normalize`
gives a vector only when the length is not zero, and at the zero vector,
where every quotient is `0 / 0`, it gives none. -/
theorem Normalize_unit_positive_multiple (v : Vector3Of ℝ)
    (h : Real.sqrt (lengthSquared v) ≠ 0) :
    (∃ n : Vector3Of ℝ, Normalize Real.sqrt v = some n
      ∧ Real.sqrt (lengthSquared n) = 1
      ∧ ∃ k : ℝ, 0 < k ∧ k = 1 / Real.sqrt (lengthSquared v)
          ∧ n.x = k * v.x ∧ n.y = k * v.y ∧ n.z = k * v.z)
    ∧ (∀ w : Vector3Of ℝ, (Normalize Real.sqrt w).isSome = true
        ↔ Real.sqrt (lengthSquared w) ≠ 0)
    ∧ Normalize Real.sqrt (⟨0, 0, 0⟩ : Vector3Of ℝ) = none := by
  have hpos : 0 < Real.sqrt (lengthSquared v) :=
    lt_of_le_of_ne (Real.sqrt_nonneg _) (Ne.symm h)
  have hexact : Real.sqrt (lengthSquared v) * Real.sqrt (lengthSquared v) = lengthSquared v :=
    Real.mul_self_sqrt (lengthSquared_nonneg v)
  refine ⟨⟨_, Normalize_eq_some Real.sqrt v h, ?_, 1 / Real.sqrt (lengthSquared v),
    by positivity, rfl, by ring, by ring, by ring⟩, fun w => ?_, ?_⟩
  · have hsq : lengthSquared (⟨v.x / Real.sqrt (lengthSquared v),
        v.y / Real.sqrt (lengthSquared v), v.z / Real.sqrt (lengthSquared v)⟩ : Vector3Of ℝ)
        = 1 := by
      have e : lengthSquared (⟨v.x / Real.sqrt (lengthSquared v),
          v.y / Real.sqrt (lengthSquared v), v.z / Real.sqrt (lengthSquared v)⟩ : Vector3Of ℝ)
          = (v.x * v.x + v.y * v.y + v.z * v.z)
            / (Real.sqrt (lengthSquared v) * Real.sqrt (lengthSquared v)) := by
        simp only [lengthSquared]
        field_simp
      have hne : lengthSquared v ≠ 0 := by
        rw [← hexact]
        exact mul_ne_zero h h
      rw [e, hexact]
      exact div_self hne
    rw [hsq, Real.sqrt_one]
  · by_cases hw : Real.sqrt (lengthSquared w) = 0
    · simp [Normalize_eq_none Real.sqrt w hw, hw]
    · simp [Normalize_eq_some Real.sqrt w hw, hw]
  · exact Normalize_eq_none Real.sqrt _ (by simp [lengthSquared])

/-- Witness for C30: the vector `(1, 1, 0)`, of length the square root of
`2`. -/
theorem Normalize_unit_positive_multiple_witness :
    Real.sqrt (lengthSquared (⟨1, 1, 0⟩ : Vector3Of ℝ)) ≠ 0
      ∧ ∃ n : Vector3Of ℝ, Normalize Real.sqrt ⟨1, 1, 0⟩ = some n
        ∧ Real.sqrt (lengthSquared n) = 1
        ∧ ∃ k : ℝ, 0 < k ∧ k = 1 / Real.sqrt (lengthSquared (⟨1, 1, 0⟩ : Vector3Of ℝ))
            ∧ n.x = k * 1 ∧ n.y = k * 1 ∧ n.z = k * 0 :=
  ⟨Real.sqrt_ne_zero'.mpr (by norm_num [lengthSquared]),
    (Normalize_unit_positive_multiple ⟨1, 1, 0⟩
      (Real.sqrt_ne_zero'.mpr (by norm_num [lengthSquared]))).1⟩

/-- On the rationals, with a square root that is exact at `25` and at `1`:
`Normalize (3, 4, 0) = (3/5, 4/5, 0)`, the initial light direction is its
own normalisation, and the zero vector has none. -/
theorem Normalize_sample_values :
    Normalize sampleSqrt ⟨3, 4, 0⟩ = some ⟨3 / 5, 4 / 5, 0⟩
      ∧ Normalize sampleSqrt initialLightDirection = some initialLightDirection
      ∧ Normalize sampleSqrt ⟨0, 0, 0⟩ = none := by
  refine ⟨?_, ?_, ?_⟩
  · rw [Normalize_eq_some sampleSqrt _ (by norm_num [sampleSqrt, lengthSquared])]
    norm_num [sampleSqrt, lengthSquared]
  · rw [Normalize_eq_some sampleSqrt _ (by norm_num [sampleSqrt, lengthSquared,
      initialLightDirection])]
    norm_num [sampleSqrt, lengthSquared, initialLightDirection]
  · exact Normalize_eq_none sampleSqrt _ (by norm_num [sampleSqrt, lengthSquared])

/-! ## Claims about the start-up -/

/-- A call that is followed by an `assert` and is the first to report failure
ends the start-up: the calls made are the ones before it and the call
itself, and the run ends with the failed `assert`. -/
theorem startUp_asserted_call_aborts (reports : InitCall → Bool) (c : InitCall)
    (hc : c ≠ InitCall.CreateSwapChainForHwnd) (hfail : reports c = false)
    (hbefore : ∀ d ∈ callsBefore c, reports d = true) :
    startUp reports = (callsBefore c ++ [c], InitEnd.assertFailed c) := by
  cases c <;>
    simp [callsBefore, startUpSteps] at hbefore hc <;>
    simp [startUp, runSteps, startUpSteps, callsBefore, hfail, hbefore]

/-- C21 at the failing input: when `CreateSwapChainForHwnd` reports failure
and every other call reports success, the start-up goes on after the failed
call, creates the two descriptor heaps and ends with the call of `GetBuffer`
through the null `swapChain`; no `assert` fails at the swap chain. -/
theorem startUp_goes_on_after_failed_swap_chain :
    startUp swapChainFails
        = ([InitCall.CreateDXGIFactory, InitCall.EnumAdapterByGpuPreference,
            InitCall.D3D12CreateDevice, InitCall.CreateCommandQueue,
            InitCall.CreateCommandAllocator, InitCall.CreateCommandList,
            InitCall.CreateSwapChainForHwnd, InitCall.CreateDescriptorHeapRtv,
            InitCall.CreateDescriptorHeapSrv],
           InitEnd.nullDereference InitCall.GetBuffer0)
      ∧ swapChainFails InitCall.CreateSwapChainForHwnd = false
      ∧ (startUp swapChainFails).2 ≠ InitEnd.assertFailed InitCall.CreateSwapChainForHwnd
      ∧ InitCall.CreateDescriptorHeapRtv ∈ (startUp swapChainFails).1
      ∧ InitCall.CreateDescriptorHeapSrv ∈ (startUp swapChainFails).1 := by
  decide

/-! ## Claims about the blend state that is bound -/

theorem blendPass_keeps_blend_state_in_step (selected : BlendMode) (succeeded : Bool)
    (s s' : PipelineScene) (h : blendPass selected succeeded s = some s')
    (hinv : s.graphicsPipelineState.desc.BlendState = CreateBlendDesc s.blendMode) :
    s'.blendMode = selected
      ∧ s'.graphicsPipelineState.desc.BlendState = CreateBlendDesc s'.blendMode := by
  simp only [blendPass, CreateGraphicsPipelineState] at h
  by_cases hm : selected = s.blendMode
  · simp only [hm, ne_eq, not_true_eq_false, if_false, Option.some.injEq] at h
    subst h
    exact ⟨hm.symm, hinv⟩
  · cases succeeded
    · simp [hm] at h
    · simp only [ne_eq, hm, not_false_eq_true, if_true, Option.some.injEq] at h
      subst h
      exact ⟨rfl, rfl⟩

theorem blendPass_mode_change_sets_blend_state (selected : BlendMode) (s s' : PipelineScene)
    (hm : selected ≠ s.blendMode) (h : blendPass selected true s = some s') :
    s'.graphicsPipelineState.desc.BlendState = CreateBlendDesc selected := by
  simp only [blendPass, CreateGraphicsPipelineState, ne_eq, hm, not_false_eq_true, if_true,
    Option.some.injEq] at h
  subst h
  rfl

/-- C23 at the failing input: in the first frame, with no mode change, the
selected mode is `kBlendModeNone` and the object pipeline that the frame
binds with `SetPipelineState` is the one created at start-up, whose blend
state is the table row of `kBlendModeNormal` (blending enabled) and differs
from `CreateBlendDesc kBlendModeNone`. -/
theorem first_frame_binds_normal_blend_under_mode_none :
    ∃ a cmds, renderFrame sampleTrig fixedSource idleFrameInput (initialApp fixedSource 0)
        = some (a, cmds)
      ∧ a.pipeline.blendMode = kBlendModeNone
      ∧ cmds[7]? = some (Command.SetPipelineState a.pipeline.graphicsPipelineState)
      ∧ a.pipeline.graphicsPipelineState = initialGraphicsPipelineState
      ∧ a.pipeline.graphicsPipelineState.desc.BlendState = CreateBlendDesc kBlendModeNormal
      ∧ a.pipeline.graphicsPipelineState.desc.BlendState
          ≠ CreateBlendDesc a.pipeline.blendMode := by
  refine ⟨_, _, rfl, rfl, rfl, rfl, by decide, by decide⟩

end CG3
